import Mathlib

/-!
# Snowflake: WS2812 LED ornament firmware

A shallow embedding of `software/snowflake.c` and `software/ws2812.c`.

* `uint8_t` values are natural numbers; arithmetic that can leave the 8-bit
  range is reduced `% 256` at the place where the C code stores it.
* The LED buffer `struct RGB *data` is a `List RGB`; `data[i] = v` is
  `List.set` and a read is `List.getD`.  The theorems fix the length of the
  list to the `num_leds` argument, as `main` does with `NUM_LEDS`.
* Global variables touched by the pattern functions are collected in `Globals`
  and passed explicitly.
* `rand()` is a stream `rand : Nat → Nat`; `Globals.rand_calls` counts how many
  values have been taken from it.
* Operations whose C behaviour is undefined for some arguments (division by
  zero, an index outside a local table) return `Option`.
* The `volatile` globals of the timer interrupt are the record `Shared`; one
  execution of the handler and one pass of the event handling of `main` are
  each a function on `Shared`, and the combined system interleaves them.
-/

namespace Snowflake

/-! ## Constants (`#define`s and anonymous enums) -/

def NUM_LEDS : Nat := 18
def NUM_PATTERNS : Nat := 23
def COLOUR_FLASH_COUNT : Nat := 6
def COLOUR_WALK_COUNT : Nat := 15
def FADE_DELAY : Nat := 3

def TRILOBE_INITIAL_STATE : Nat := 0b00111000
def TRICIRCLE_INITIAL_STATE : Nat := 0b00001000

def COLOUR_TYPE_COLD : Nat := 0
def COLOUR_TYPE_WARM : Nat := 1

def SINGLE_COLOUR_RED : Nat := 0
def SINGLE_COLOUR_GREEN : Nat := 1
def SINGLE_COLOUR_BLUE : Nat := 2
def SINGLE_COLOUR_RANDOM : Nat := 3

def PATTERN_STATUS_NEW : Nat := 0
def PATTERN_STATUS_REFRESH : Nat := 1
def PATTERN_STATUS_NOCHANGE : Nat := 2
def PATTERN_STATUS_FADE_DONE : Nat := 3
def PATTERN_STATUS_SHORT_FLASH : Nat := 4

/-! ## Data model -/

/-- Colour data of one LED (`struct RGB` of `ws2812.h`); the field order is the
declaration order green, red, blue, which is also the order of a brace
initialiser. -/
structure RGB where
  green : Nat
  red : Nat
  blue : Nat
  deriving DecidableEq, Repr, Inhabited

/-- Every channel fits the `uint8_t` it is stored in. -/
def RGB.wf (c : RGB) : Prop := c.green < 256 ∧ c.red < 256 ∧ c.blue < 256

instance (c : RGB) : Decidable c.wf :=
  inferInstanceAs (Decidable (c.green < 256 ∧ c.red < 256 ∧ c.blue < 256))

/-- The global variables used by the pattern functions: `pattern_counter`,
`trilobe_initial_state` (the occupancy mask both `tcp` and the `tccp_*`
parameters point to) and the position in the `rand()` stream. -/
structure Globals where
  pattern_counter : Nat
  trilobe_initial_state : Nat
  rand_calls : Nat
  deriving DecidableEq, Repr

/-- Result of one pattern-function call: returned status, buffer, globals. -/
structure Out where
  status : Nat
  data : List RGB
  g : Globals
  deriving DecidableEq, Repr

/-! ## Utility functions -/

/-- Source function `random_byte`: `uint8_t result = rand(); return result >> 2;` -/
def random_byte (rand : Nat → Nat) (g : Globals) : Nat × Globals :=
  ((rand g.rand_calls % 256) / 4, { g with rand_calls := g.rand_calls + 1 })

/-- Body of the loop of `intensity_halve` for index `i`; the state is the
buffer and the `uint8_t remaining_colours`. -/
def intensity_halve_body (s : List RGB × Nat) (i : Nat) : List RGB × Nat :=
  let led := s.1.getD i default
  let red := led.red / 2
  let rc1 := if red ≠ 0 then (s.2 + 1) % 256 else s.2
  let green := led.green / 2
  let rc2 := if green ≠ 0 then (rc1 + 1) % 256 else rc1
  let blue := led.blue / 2
  let rc3 := if blue ≠ 0 then (rc2 + 1) % 256 else rc2
  (s.1.set i ⟨green, red, blue⟩, rc3)

/-- Source function `intensity_halve`: halves every channel of the first `num_leds` LEDs and
returns the buffer together with the `uint8_t` return value. -/
def intensity_halve (data : List RGB) (num_leds : Nat) : List RGB × Nat :=
  (List.range num_leds).foldl intensity_halve_body (data, 0)

/-- The `for (i = num_leds - 1; i > 0; i--) data[i] = data[i - 1];` loop of
`rotate_right`, entered with loop variable `i`. -/
def rotate_right_loop : Nat → List RGB → List RGB
  | 0, data => data
  | i + 1, data => rotate_right_loop i (data.set (i + 1) (data.getD i default))

/-- Source function `rotate_right`: rotate the LED data one step to the right.  For
`num_leds = 0` the source reads `data[-1]`, which is outside every buffer. -/
def rotate_right (data : List RGB) (num_leds : Nat) : Option (List RGB) :=
  if num_leds = 0 then none
  else
    let temp := data.getD (num_leds - 1) default
    some ((rotate_right_loop (num_leds - 1) data).set 0 temp)

/-! ### Rainbow gradient -/

/-- The lookup tables `intermediate_colours_2 .. intermediate_colours_5`,
collected as in the pointer table `intermediate_colours[4]`. -/
def intermediate_colours : List (List Nat) :=
  [[127, 63], [127, 85, 42], [127, 95, 63, 32], [127, 102, 76, 51, 26]]

/-- Loop state of `fill_rainbow_colours`. -/
structure RainbowLoop where
  data : List RGB
  current_colour : Nat
  current_triplet : List Nat
  deriving DecidableEq, Repr

/-- A store `current_triplet[idx] = v` into the 3-element local array; `none`
when `idx` is outside the array. -/
def triplet_store (t : List Nat) (idx v : Nat) : Option (List Nat) :=
  if idx < t.length then some (t.set idx v) else none

/-- Body of the loop of `fill_rainbow_colours` for index `i`, with
`num_intermediate_colours` already computed.  `none` stands for undefined
behaviour: `i % 0`, a negative or too large table selector
`num_intermediate_colours - 3`, a position outside the selected table, a
store outside `current_triplet`, or a store outside the buffer. -/
def fill_rainbow_body (num_intermediate_colours : Nat) (s : RainbowLoop) (i : Nat) :
    Option RainbowLoop :=
  if num_intermediate_colours = 0 then none
  else
    let phase := i % num_intermediate_colours
    let triplet : Option (List Nat) :=
      if phase = 0 then
        triplet_store [0, 0, 0] s.current_colour 127
      else if num_intermediate_colours < 3 then none
      else
        match intermediate_colours[num_intermediate_colours - 3]? with
        | none => none
        | some table =>
          match table[phase - 1]?, table[num_intermediate_colours - phase - 1]? with
          | some a, some b =>
            match triplet_store s.current_triplet s.current_colour a with
            | none => none
            | some t => triplet_store t ((s.current_colour + 1) % 3) b
          | _, _ => none
    match triplet with
    | none => none
    | some t =>
      if i < s.data.length then
        some
          { data := s.data.set i ⟨t.getD 1 0, t.getD 0 0, t.getD 2 0⟩
            current_colour :=
              if phase = num_intermediate_colours - 1 then (s.current_colour + 1) % 256
              else s.current_colour
            current_triplet := t }
      else none

/-- The loop of `fill_rainbow_colours`, run for the indices in `is`. -/
def fill_rainbow_loop (num_intermediate_colours : Nat) :
    List Nat → RainbowLoop → Option RainbowLoop
  | [], s => some s
  | i :: is, s =>
    match fill_rainbow_body num_intermediate_colours s i with
    | none => none
    | some s1 => fill_rainbow_loop num_intermediate_colours is s1

/-- Source function `fill_rainbow_colours`: generate rainbow colours into the first `num_leds`
LEDs. -/
def fill_rainbow_colours (led_data : List RGB) (num_leds : Nat) : Option (List RGB) :=
  let num_rainbow := if num_leds > 18 then 18 else num_leds
  let num_intermediate_colours := num_rainbow / 3
  match fill_rainbow_loop num_intermediate_colours (List.range num_leds)
      { data := led_data, current_colour := 0, current_triplet := [0, 0, 0] } with
  | none => none
  | some s => some s.data

/-! ### Fills -/

/-- The table `rgb_values[3][3]` of `fill_colours`. -/
def rgb_values : List (List Nat) := [[128, 0, 0], [76, 76, 0], [102, 51, 0]]

/-- Read `rgb_values[r][c]`. -/
def rgb_value (r c : Nat) : Nat := (rgb_values.getD r []).getD c 0

/-- The `switch (colour_type)` of `fill_colours` that selects `index_red`
(initialised to 0). -/
def index_red (colour_type : Nat) : Nat :=
  if colour_type = COLOUR_TYPE_WARM then 0
  else if colour_type = COLOUR_TYPE_COLD then 2
  else 0

/-- The colour `fill_colours` takes from row `r` of `rgb_values`. -/
def fill_colours_entry (colour_type r : Nat) : RGB :=
  { red := rgb_value r (index_red colour_type)
    green := rgb_value r 1
    blue := rgb_value r (2 - index_red colour_type) }

/-- Source function `fill_colours`: fill with warm or cold colours; LEDs 0 and 1 are written
first ("idiosyncratic wiring"), then the loop runs from 2. -/
def fill_colours (data : List RGB) (num_leds colour_type : Nat) : List RGB :=
  let d0 := data.set 0 (fill_colours_entry colour_type 1)
  let d1 := d0.set 1 (fill_colours_entry colour_type 0)
  (List.range (num_leds - 2)).foldl
    (fun d k => d.set (k + 2) (fill_colours_entry colour_type ((k + 2) % 3))) d1

/-- Source function `fill_range_colour`: fill LEDs `start .. end` (inclusive) with a colour. -/
def fill_range_colour (data : List RGB) (start end_ : Nat) (colour : RGB) : List RGB :=
  (List.range (end_ + 1 - start)).foldl (fun d k => d.set (start + k) colour) data

/-- Source function `fill_some_colour`: fill the LEDs listed in `leds[0 .. num_leds-1]`. -/
def fill_some_colour (data : List RGB) (num_leds : Nat) (leds : List Nat) (colour : RGB) :
    List RGB :=
  (List.range num_leds).foldl (fun d i => d.set (leds.getD i 0) colour) data

/-- Three successive calls of `random_byte`, in program order. -/
def random_triplet (rand : Nat → Nat) (g : Globals) : (Nat × Nat × Nat) × Globals :=
  let r0 := random_byte rand g
  let r1 := random_byte rand r0.2
  let r2 := random_byte rand r1.2
  ((r0.1, r1.1, r2.1), r2.2)

/-- Source function `get_colour_from_parameter`: build an RGB from a colour type.  For a colour
type outside the four enumerators the source returns an uninitialised struct
(`none`). -/
def get_colour_from_parameter (rand : Nat → Nat) (colour_type : Nat) (g : Globals) :
    Option RGB × Globals :=
  let rt := if colour_type = SINGLE_COLOUR_RANDOM then random_triplet rand g else ((0, 0, 0), g)
  let colour : Option RGB :=
    if colour_type = SINGLE_COLOUR_RED then some ⟨0, 0x80, 0⟩
    else if colour_type = SINGLE_COLOUR_GREEN then some ⟨0x60, 0, 0⟩
    else if colour_type = SINGLE_COLOUR_BLUE then some ⟨0, 0, 0x80⟩
    else if colour_type = SINGLE_COLOUR_RANDOM then
      some { red := rt.1.1, green := rt.1.2.1, blue := rt.1.2.2 }
    else none
  (colour, rt.2)

/-! ## Pattern functions

Each takes the buffer, `num_leds`, the `status` returned by the previous call
and its extra parameter.  Every `uint8_t *counter` of the pattern table is
`&pattern_counter` and every `uint8_t *state` is `&trilobe_initial_state`, so
the functions read and write those fields of `Globals`.  The test
`(*counter)++ == K` compares the old value and stores the incremented one. -/

/-- Source function `fade_down`: fade down to zero intensity (`count = &pattern_counter`). -/
def fade_down (data : List RGB) (num_leds status : Nat) (g : Globals) : Out :=
  let new_status := PATTERN_STATUS_REFRESH
  let s1 : Nat × List RGB × Nat :=
    if status = PATTERN_STATUS_NEW then
      (PATTERN_STATUS_REFRESH, (intensity_halve data num_leds).1, 0)
    else
      (new_status, data, (g.pattern_counter + 1) % 256)
  if s1.2.2 = FADE_DELAY then
    let h := intensity_halve s1.2.1 num_leds
    { status := if h.2 ≠ 0 then PATTERN_STATUS_REFRESH else PATTERN_STATUS_FADE_DONE
      data := h.1
      g := { g with pattern_counter := 0 } }
  else
    { status := s1.1, data := s1.2.1, g := { g with pattern_counter := s1.2.2 } }

/-- The `switch ((int) mode)` inside the loop of `fill_single_colour`: the
value stored into `data[i]`, or `none` when no case matches (no store). -/
def single_colour_value (mode : Nat) (random_triplet : Nat × Nat × Nat) : Option RGB :=
  if mode = SINGLE_COLOUR_RED then some ⟨0, 0x80, 0⟩
  else if mode = SINGLE_COLOUR_GREEN then some ⟨0x60, 0, 0⟩
  else if mode = SINGLE_COLOUR_BLUE then some ⟨0, 0, 0x80⟩
  else if mode = SINGLE_COLOUR_RANDOM then
    some { red := random_triplet.1, green := random_triplet.2.1, blue := random_triplet.2.2 }
  else none

/-- Source function `fill_single_colour`: show a single colour.  The three random bytes are
drawn before the status is looked at, on every call in random mode. -/
def fill_single_colour (rand : Nat → Nat) (data : List RGB) (num_leds status mode : Nat)
    (g : Globals) : Out :=
  let rt := if mode = SINGLE_COLOUR_RANDOM then random_triplet rand g else ((0, 0, 0), g)
  if status = PATTERN_STATUS_NEW then
    { status := PATTERN_STATUS_REFRESH
      data := (List.range num_leds).foldl
        (fun d i =>
          match single_colour_value mode rt.1 with
          | some c => d.set i c
          | none => d) data
      g := rt.2 }
  else
    { status := PATTERN_STATUS_NOCHANGE, data := data, g := rt.2 }

/-- Source function `rainbow`: show the colours of the rainbow; `counter` tells whether the
`count` parameter is `&pattern_counter` (`true`) or `NULL` (`false`). -/
def rainbow (data : List RGB) (num_leds status : Nat) (counter : Bool) (g : Globals) :
    Option Out :=
  if status = PATTERN_STATUS_NEW then
    match fill_rainbow_colours data num_leds with
    | none => none
    | some d =>
      some { status := PATTERN_STATUS_REFRESH, data := d,
             g := if counter then { g with pattern_counter := 0 } else g }
  else if counter then
    if g.pattern_counter = COLOUR_FLASH_COUNT then
      let h := intensity_halve data num_leds
      if h.2 = 0 then
        match fill_rainbow_colours h.1 num_leds with
        | none => none
        | some d =>
          some { status := PATTERN_STATUS_REFRESH, data := d, g := { g with pattern_counter := 0 } }
      else
        some { status := PATTERN_STATUS_REFRESH, data := h.1, g := { g with pattern_counter := 0 } }
    else
      some { status := status, data := data,
             g := { g with pattern_counter := (g.pattern_counter + 1) % 256 } }
  else
    some { status := PATTERN_STATUS_NOCHANGE, data := data, g := g }

/-- Three successive calls `rotate_right(data, num_leds)`. -/
def rotate_right3 (data : List RGB) (num_leds : Nat) : Option (List RGB) :=
  match rotate_right data num_leds with
  | none => none
  | some d1 =>
    match rotate_right d1 num_leds with
    | none => none
    | some d2 => rotate_right d2 num_leds

/-- Source function `rainbow_wheel`: version of rainbow that walks the LEDs. -/
def rainbow_wheel (data : List RGB) (num_leds status : Nat) (g : Globals) : Option Out :=
  if status = PATTERN_STATUS_NEW then
    match fill_rainbow_colours data num_leds with
    | none => none
    | some d =>
      some { status := PATTERN_STATUS_REFRESH, data := d, g := { g with pattern_counter := 0 } }
  else if g.pattern_counter = COLOUR_WALK_COUNT then
    match rotate_right3 data num_leds with
    | none => none
    | some d =>
      some { status := PATTERN_STATUS_REFRESH, data := d, g := { g with pattern_counter := 0 } }
  else
    some { status := PATTERN_STATUS_NOCHANGE, data := data,
           g := { g with pattern_counter := (g.pattern_counter + 1) % 256 } }

/-- Source function `fade_colours`: fade and flash colours. -/
def fade_colours (data : List RGB) (num_leds status colour_type : Nat) (g : Globals) : Out :=
  if status = PATTERN_STATUS_NEW then
    { status := PATTERN_STATUS_REFRESH, data := fill_colours data num_leds colour_type,
      g := { g with pattern_counter := 0 } }
  else if g.pattern_counter = COLOUR_FLASH_COUNT then
    let h := intensity_halve data num_leds
    { status := PATTERN_STATUS_REFRESH
      data := if h.2 = 0 then fill_colours h.1 num_leds colour_type else h.1
      g := { g with pattern_counter := 0 } }
  else
    { status := PATTERN_STATUS_NOCHANGE, data := data,
      g := { g with pattern_counter := (g.pattern_counter + 1) % 256 } }

/-- Source function `crazy`: flash random colours. -/
def crazy (rand : Nat → Nat) (data : List RGB) (num_leds status : Nat) (g : Globals) : Out :=
  if status = PATTERN_STATUS_NEW then
    let f := fill_single_colour rand data num_leds status SINGLE_COLOUR_RANDOM g
    { status := PATTERN_STATUS_REFRESH, data := f.data, g := { f.g with pattern_counter := 0 } }
  else if g.pattern_counter = COLOUR_FLASH_COUNT then
    let h := intensity_halve data num_leds
    if h.2 = 0 then
      let f := fill_single_colour rand h.1 num_leds PATTERN_STATUS_NEW SINGLE_COLOUR_RANDOM
        { g with pattern_counter := 0 }
      { status := PATTERN_STATUS_REFRESH, data := f.data, g := f.g }
    else
      { status := PATTERN_STATUS_REFRESH, data := h.1, g := { g with pattern_counter := 0 } }
  else
    { status := PATTERN_STATUS_NOCHANGE, data := data,
      g := { g with pattern_counter := (g.pattern_counter + 1) % 256 } }

/-- The local table `triplets[4][3]` of `walking_colour` and `walking_bar`; its
last row is drawn with three `random_byte` calls on every call. -/
def walking_triplets (rand : Nat → Nat) (g : Globals) : List (Nat × Nat × Nat) × Globals :=
  let rt := random_triplet rand g
  ([(127, 0, 0), (0, 127, 0), (0, 0, 127), rt.1], rt.2)

/-- Source function `walking_colour`: walk two LEDs around.  `none` when `colour_type` is not
a row of `triplets`. -/
def walking_colour (rand : Nat → Nat) (data : List RGB) (num_leds status colour_type : Nat)
    (g : Globals) : Option Out :=
  let tr := walking_triplets rand g
  if status = PATTERN_STATUS_NEW then
    match tr.1[colour_type]? with
    | none => none
    | some t =>
      let c : RGB := { red := t.1, green := t.2.1, blue := t.2.2 }
      some { status := PATTERN_STATUS_REFRESH, data := (data.set 10 c).set 0 c,
             g := { tr.2 with pattern_counter := 0 } }
  else if g.pattern_counter = COLOUR_FLASH_COUNT then
    match rotate_right data num_leds with
    | none => none
    | some d =>
      some { status := PATTERN_STATUS_REFRESH, data := d, g := { tr.2 with pattern_counter := 0 } }
  else
    some { status := PATTERN_STATUS_NOCHANGE, data := data,
           g := { tr.2 with pattern_counter := (g.pattern_counter + 1) % 256 } }

/-- Source function `walking_bar`: walk a 4-LED bar around. -/
def walking_bar (rand : Nat → Nat) (data : List RGB) (num_leds status colour_type : Nat)
    (g : Globals) : Option Out :=
  let tr := walking_triplets rand g
  if status = PATTERN_STATUS_NEW then
    match tr.1[colour_type]? with
    | none => none
    | some t =>
      let c : RGB := { red := t.1, green := t.2.1, blue := t.2.2 }
      some { status := PATTERN_STATUS_REFRESH
             data := (((data.set 9 c).set 0 c).set 10 c).set 1 c
             g := { tr.2 with pattern_counter := 0 } }
  else if g.pattern_counter = COLOUR_FLASH_COUNT then
    match rotate_right3 data num_leds with
    | none => none
    | some d =>
      some { status := PATTERN_STATUS_REFRESH, data := d, g := { tr.2 with pattern_counter := 0 } }
  else
    some { status := PATTERN_STATUS_NOCHANGE, data := data,
           g := { tr.2 with pattern_counter := (g.pattern_counter + 1) % 256 } }

/-- Macro `IS_BIT_SET(var, pos)`: `(var) & (1 << (pos))`, used as a truth value. -/
def IS_BIT_SET (var pos : Nat) : Bool := (var &&& (1 <<< pos)) ≠ 0

/-- The blank colour `{0x00, 0x00, 0x00}`. -/
def blank : RGB := ⟨0x00, 0x00, 0x00⟩

/-- The table `fill_funcs[3]` of `trilobe`: start, end and colour of each
`fill_range_colour` call (red, blue, orange). -/
def trilobe_fill_funcs : List (Nat × Nat × RGB) :=
  [(12, 17, ⟨0x00, 0x80, 0x00⟩), (6, 11, ⟨0x00, 0x00, 0x80⟩), (0, 5, ⟨0x30, 0x80, 0x00⟩)]

/-- One pass of the `for (bit = 0; bit < 3; bit++)` loop of `trilobe`. -/
def trilobe_bit (state : Nat) (data : List RGB) (bit : Nat) : List RGB :=
  let ff := trilobe_fill_funcs.getD bit (0, 0, blank)
  if IS_BIT_SET state bit then fill_range_colour data ff.1 ff.2.1 ff.2.2
  else fill_range_colour data ff.1 ff.2.1 blank

/-- Source function `trilobe`: divide in three parts and walk those around. -/
def trilobe (data : List RGB) (num_leds status : Nat) (g : Globals) : Out :=
  let _ := num_leds
  if status = PATTERN_STATUS_NEW then
    let ff := trilobe_fill_funcs.getD 2 (0, 0, blank)
    { status := PATTERN_STATUS_REFRESH
      data := fill_range_colour data ff.1 ff.2.1 ff.2.2
      g := { g with pattern_counter := 0, trilobe_initial_state := TRILOBE_INITIAL_STATE } }
  else if g.pattern_counter = COLOUR_WALK_COUNT then
    let state := g.trilobe_initial_state >>> 1
    { status := PATTERN_STATUS_REFRESH
      data := (List.range 3).foldl (trilobe_bit state) data
      g := { g with pattern_counter := 0,
                    trilobe_initial_state := if state = 0 then TRILOBE_INITIAL_STATE else state } }
  else
    { status := PATTERN_STATUS_NOCHANGE, data := data,
      g := { g with pattern_counter := (g.pattern_counter + 1) % 256 } }

/-- The index lists `outer_circle`, `middle_circle`, `inner_circle` in the
order of `fill_funcs[3]` of `tricircle`; each entry is used with count 6. -/
def tricircle_fill_funcs : List (List Nat) :=
  [[0, 4, 7, 10, 13, 16], [1, 3, 6, 9, 12, 15], [2, 5, 8, 11, 14, 17]]

/-- One pass of the `for (bit = 0; bit < 3; bit++)` loop of `tricircle`. -/
def tricircle_bit (colour : RGB) (state : Nat) (data : List RGB) (bit : Nat) : List RGB :=
  let leds := tricircle_fill_funcs.getD bit []
  if IS_BIT_SET state bit then fill_some_colour data 6 leds colour
  else fill_some_colour data 6 leds blank

/-- Source function `tricircle`: circle moving outwards in three steps.  The colour is built by
`get_colour_from_parameter` at the start of every call. -/
def tricircle (rand : Nat → Nat) (data : List RGB) (num_leds status colour_type : Nat)
    (g : Globals) : Option Out :=
  let _ := num_leds
  let cg := get_colour_from_parameter rand colour_type g
  match cg.1 with
  | none => none
  | some colour =>
    if status = PATTERN_STATUS_NEW then
      some { status := PATTERN_STATUS_REFRESH
             data := fill_some_colour data 6 (tricircle_fill_funcs.getD 2 []) colour
             g := { cg.2 with pattern_counter := 0,
                              trilobe_initial_state := TRICIRCLE_INITIAL_STATE } }
    else if g.pattern_counter = COLOUR_WALK_COUNT then
      let state := g.trilobe_initial_state >>> 1
      some { status := PATTERN_STATUS_REFRESH
             data := (List.range 3).foldl (tricircle_bit colour state) data
             g := { cg.2 with pattern_counter := 0,
                              trilobe_initial_state :=
                                if state = 0 then TRICIRCLE_INITIAL_STATE else state } }
    else
      some { status := PATTERN_STATUS_NOCHANGE, data := data,
             g := { cg.2 with pattern_counter := (g.pattern_counter + 1) % 256 } }

/-! ## Pattern table -/

/-- An entry of the pattern table (`struct patternfunc`): the pattern function
together with the content of its `extra_parameter`.  The counter and state
pointers inside the parameter structs are `&pattern_counter` and
`&trilobe_initial_state` for every entry and are not repeated here. -/
inductive patternfunc where
  | fill_single_colour (mode : Nat)
  | rainbow (counter : Bool)
  | rainbow_wheel
  | fade_colours (colour_type : Nat)
  | crazy
  | walking_colour (colour_type : Nat)
  | walking_bar (colour_type : Nat)
  | trilobe
  | tricircle (colour_type : Nat)
  deriving DecidableEq, Repr

/-- The table `pattern_functions[NUM_PATTERNS]`. -/
def pattern_functions : List patternfunc :=
  [ .fill_single_colour SINGLE_COLOUR_RED,
    .fill_single_colour SINGLE_COLOUR_GREEN,
    .fill_single_colour SINGLE_COLOUR_BLUE,
    .fill_single_colour SINGLE_COLOUR_RANDOM,
    .rainbow false,
    .rainbow true,
    .rainbow_wheel,
    .fade_colours COLOUR_TYPE_COLD,
    .fade_colours COLOUR_TYPE_WARM,
    .crazy,
    .walking_colour SINGLE_COLOUR_RED,
    .walking_colour SINGLE_COLOUR_GREEN,
    .walking_colour SINGLE_COLOUR_BLUE,
    .walking_colour SINGLE_COLOUR_RANDOM,
    .walking_bar SINGLE_COLOUR_RED,
    .walking_bar SINGLE_COLOUR_GREEN,
    .walking_bar SINGLE_COLOUR_BLUE,
    .walking_bar SINGLE_COLOUR_RANDOM,
    .trilobe,
    .tricircle SINGLE_COLOUR_RED,
    .tricircle SINGLE_COLOUR_GREEN,
    .tricircle SINGLE_COLOUR_BLUE,
    .tricircle SINGLE_COLOUR_RANDOM ]

/-- The call `pf.run_pattern(led_data, num_leds, pattern_status,
pf.extra_parameter)`. -/
def run_pattern (pf : patternfunc) (rand : Nat → Nat) (data : List RGB) (num_leds status : Nat)
    (g : Globals) : Option Out :=
  match pf with
  | .fill_single_colour mode => some (fill_single_colour rand data num_leds status mode g)
  | .rainbow counter => rainbow data num_leds status counter g
  | .rainbow_wheel => rainbow_wheel data num_leds status g
  | .fade_colours colour_type => some (fade_colours data num_leds status colour_type g)
  | .crazy => some (crazy rand data num_leds status g)
  | .walking_colour colour_type => walking_colour rand data num_leds status colour_type g
  | .walking_bar colour_type => walking_bar rand data num_leds status colour_type g
  | .trilobe => some (trilobe data num_leds status g)
  | .tricircle colour_type => tricircle rand data num_leds status colour_type g

/-- Whether the entry's parameter carries a pointer to `pattern_counter`. -/
def patternfunc.has_counter : patternfunc → Bool
  | .fill_single_colour _ => false
  | .rainbow counter => counter
  | _ => true

/-- The LED indices an entry stores into on a call with status `New`, read off
the stores of its `PATTERN_STATUS_NEW` branch for 18 LEDs. -/
def patternfunc.new_stores : patternfunc → List Nat
  | .walking_colour _ => [0, 10]
  | .walking_bar _ => [0, 1, 9, 10]
  | .trilobe => [0, 1, 2, 3, 4, 5]
  | .tricircle _ => [2, 5, 8, 11, 14, 17]
  | _ => List.range 18

/-! ## Frame transmission (`ws2812.c`) -/

/-- The bytes of one `struct RGB` in memory: its fields in declaration order. -/
def RGB.bytes (c : RGB) : List Nat := [c.green, c.red, c.blue]

/-- The buffer seen through the cast `(uint8_t *) led_data`. -/
def framebuffer (led_data : List RGB) : List Nat := led_data.flatMap RGB.bytes

/-- The inner assembly loop of `send_data`, entered at `loop:` with the given
`loopcounter` (loaded with 8 by `ldi`) and `data` registers.  Each pass raises
the line, shifts `data` left with `lsl` (the carry is the old bit 7) and takes
the long high phase (`brcs bit_is_1`) exactly when the carry is set; `dec` /
`breq new_byte` ends the loop when the counter reaches 0.  The result lists,
per pass, whether the 1-bit waveform was sent. -/
def send_bits : Nat → Nat → List Bool
  | 0, _ => []
  | loopcounter + 1, data =>
    let carry := decide (128 ≤ data % 256)
    let data1 := (data * 2) % 256
    if loopcounter = 0 then [carry] else carry :: send_bits loopcounter data1

/-- Source function `send_data`: the `while (data_length--)` loop; every pass loads
`current_byte = *framebuffer++` and runs the assembly loop with
`ldi loopcounter, 8`.  The state is the read position and the bits sent. -/
def send_data (framebuffer : List Nat) (data_length : Nat) : List Bool :=
  ((List.range data_length).foldl
    (fun (s : Nat × List Bool) _ => (s.1 + 1, s.2 ++ send_bits 8 (framebuffer.getD s.1 0)))
    (0, [])).2

/-- Source function `send_frame`: `send_data((uint8_t *) led_data, num_leds * 3, data_pin)`;
the length argument is a `uint16_t`. -/
def send_frame (led_data : List RGB) (num_leds : Nat) : List Bool :=
  send_data (framebuffer led_data) ((num_leds * 3) % 65536)

/-- Channel `c` of an LED in wire order: 0 green, 1 red, 2 blue. -/
def RGB.channel (led : RGB) (c : Nat) : Nat :=
  if c = 0 then led.green else if c = 1 then led.red else led.blue


/-! ## Button debounce and demo timer (`ISR(TIM0_COMPA_vect)`) -/

def DEBOUNCE_COUNT_SHORT : Nat := 10
def DEBOUNCE_COUNT_LONG : Nat := 100

/-- The macro `DEBOUNCE_COUNT_MID`, whose replacement text is
`(DEBOUNCE_COUNT_LONG - DEBOUNCE_COUNT_SHORT) / 2`. -/
def DEBOUNCE_COUNT_MID : Nat := (DEBOUNCE_COUNT_LONG - DEBOUNCE_COUNT_SHORT) / 2

def DEMO_TIME_COUNT : Nat := 500

/-- The `volatile` globals shared between the timer interrupt and `main`.
All are `uint8_t` except the `uint16_t demo_time_counter`; a flag is set when
it is nonzero. -/
structure Shared where
  short_press : Nat
  isr_short_press : Nat
  long_press : Nat
  next_pattern : Nat
  demo_mode : Nat
  current_debounce_count : Nat
  button_press_acknowledged : Nat
  demo_time_counter : Nat
  deriving DecidableEq, Repr

/-- The initial values of the shared globals. -/
def Shared.init : Shared :=
  { short_press := 0, isr_short_press := 0, long_press := 0, next_pattern := 0, demo_mode := 0,
    current_debounce_count := 0, button_press_acknowledged := 1, demo_time_counter := 0 }

/-- The `switch (current_debounce_count)` of the interrupt handler, executed
when `button_press_acknowledged` is set.  `button_clear` is the value of
`bit_is_clear(PINB, BUTTON)` (the button is pressed); every path samples the
pin at most once. -/
def debounce_switch (s : Shared) (button_clear : Bool) : Shared :=
  if s.current_debounce_count = 0 then
    if button_clear then { s with current_debounce_count := 1 } else s
  else if s.current_debounce_count = DEBOUNCE_COUNT_SHORT then
    { s with
      isr_short_press := if button_clear then 1 else s.isr_short_press
      current_debounce_count := (s.current_debounce_count + 1) % 256 }
  else if s.current_debounce_count = DEBOUNCE_COUNT_MID then
    if s.isr_short_press ≠ 0 ∧ button_clear = false then
      { s with
        short_press := 1
        button_press_acknowledged := 0
        current_debounce_count := 0
        isr_short_press := 0 }
    else
      { s with current_debounce_count := (s.current_debounce_count + 1) % 256 }
  else if s.current_debounce_count = DEBOUNCE_COUNT_LONG then
    if button_clear then
      { s with
        long_press := 1
        button_press_acknowledged := 0
        current_debounce_count := 0
        isr_short_press := 0 }
    else if s.isr_short_press ≠ 0 then
      { s with
        short_press := 1
        button_press_acknowledged := 0
        current_debounce_count := 0
        isr_short_press := 0 }
    else
      { s with current_debounce_count := 0, isr_short_press := 0 }
  else
    { s with current_debounce_count := (s.current_debounce_count + 1) % 256 }

/-- The demo section of the interrupt handler:
`if (demo_mode) { if (++demo_time_counter == DEMO_TIME_COUNT) { ... } }`. -/
def demo_section (s : Shared) : Shared :=
  if s.demo_mode ≠ 0 then
    let c := (s.demo_time_counter + 1) % 65536
    if c = DEMO_TIME_COUNT then { s with demo_time_counter := 0, next_pattern := 1 }
    else { s with demo_time_counter := c }
  else s

/-- One execution of `ISR(TIM0_COMPA_vect)` (one 10 ms tick). -/
def TIM0_COMPA_vect (s : Shared) (button_clear : Bool) : Shared :=
  demo_section (if s.button_press_acknowledged ≠ 0 then debounce_switch s button_clear else s)

/-- The button and demo-mode handling of one pass of the loop of `main`
(the `if (!demo_mode && short_press)` and `if (long_press)` statements).
`quick_flash_leds` touches none of the shared globals. -/
def main_events (s : Shared) : Shared :=
  let s1 :=
    if s.demo_mode = 0 ∧ s.short_press ≠ 0 then
      { s with short_press := 0, button_press_acknowledged := 1, next_pattern := 1 }
    else s
  if s1.long_press ≠ 0 then
    { s1 with
      long_press := 0
      demo_time_counter := 0
      demo_mode := s1.demo_mode ^^^ 0x01
      button_press_acknowledged := 1 }
  else s1

/-! ## Auxiliary definitions used to state the properties -/

/-- Halving of one LED: each channel shifted right by one bit. -/
def RGB.halve (c : RGB) : RGB := ⟨c.green / 2, c.red / 2, c.blue / 2⟩

/-- Number of nonzero channels of one LED. -/
def RGB.nonzero_channels (c : RGB) : Nat :=
  (if c.red ≠ 0 then 1 else 0) + (if c.green ≠ 0 then 1 else 0) + (if c.blue ≠ 0 then 1 else 0)

/-- Direct recount: number of nonzero channels in a buffer. -/
def count_nonzero (data : List RGB) : Nat := (data.map RGB.nonzero_channels).sum

/-- Repeated rotation: `rotate_right` applied `k` times in succession. -/
def rotate_right_times : Nat → List RGB → Nat → Option (List RGB)
  | 0, data, _ => some data
  | k + 1, data, num_leds =>
    match rotate_right data num_leds with
    | none => none
    | some d => rotate_right_times k d num_leds

/-- Index of the source LED after `k` right rotations of `n` LEDs:
`(i - k) mod n`. -/
def rotated_index (i k n : Nat) : Nat := (((i : Int) - (k : Int)) % (n : Int)).toNat

/-- The 24 bits sent for one LED. -/
def led_bits (c : RGB) : List Bool :=
  send_bits 8 c.green ++ send_bits 8 c.red ++ send_bits 8 c.blue

/-- The 18-LED rainbow gradient. -/
def rainbow_18 : List RGB :=
  [⟨0, 127, 0⟩, ⟨26, 127, 0⟩, ⟨51, 102, 0⟩, ⟨76, 76, 0⟩, ⟨102, 51, 0⟩, ⟨127, 26, 0⟩,
   ⟨127, 0, 0⟩, ⟨127, 0, 26⟩, ⟨102, 0, 51⟩, ⟨76, 0, 76⟩, ⟨51, 0, 102⟩, ⟨26, 0, 127⟩,
   ⟨0, 0, 127⟩, ⟨0, 26, 127⟩, ⟨0, 51, 102⟩, ⟨0, 76, 76⟩, ⟨0, 102, 51⟩, ⟨0, 127, 26⟩]

/-- The buffer `d` with the LEDs listed in `stores` replaced by the values
`v i`. -/
def overwrite (stores : List Nat) (v : Nat → RGB) (d : List RGB) : List RGB :=
  List.zipWith (fun i x => if i ∈ stores then v i else x) (List.range d.length) d

/-- The colour whose red, green and blue channels are the entries of a
`{r, g, b}` triplet. -/
def triplet_colour (t : Nat × Nat × Nat) : RGB := { red := t.1, green := t.2.1, blue := t.2.2 }

/-- The colour or mode argument of a table entry (0 when it has none). -/
def patternfunc.colour_arg : patternfunc → Nat
  | .fill_single_colour mode => mode
  | .fade_colours colour_type => colour_type
  | .walking_colour colour_type => colour_type
  | .walking_bar colour_type => colour_type
  | .tricircle colour_type => colour_type
  | _ => 0

/-- The outputs of `n` successive calls of `fade_down` on `NUM_LEDS` LEDs, as
`main` makes them while fading: each call gets the buffer, the globals and
the status left by the previous one (`o` holds those of the call before). -/
def fade_down_run : Nat → Out → List Out
  | 0, _ => []
  | n + 1, o =>
    let o1 := fade_down o.data NUM_LEDS o.status o.g
    o1 :: fade_down_run n o1

/-- The 18-LED buffer with all three channels of every LED equal to `v`. -/
def uniform_buffer (v : Nat) : List RGB := List.replicate 18 ⟨v, v, v⟩

/-- The buffer after `k` successive calls of `intensity_halve`. -/
def intensity_halve_times : Nat → List RGB → Nat → List RGB
  | 0, data, _ => data
  | k + 1, data, num_leds => intensity_halve_times k (intensity_halve data num_leds).1 num_leds

/-- An 86-LED buffer in which exactly 256 channels have the value 2 and the
remaining two are 0. -/
def overflow_buffer : List RGB := List.replicate 85 ⟨2, 2, 2⟩ ++ [⟨0, 2, 0⟩]

/-- A buffer of three distinct LEDs. -/
def three_leds : List RGB := [⟨1, 1, 1⟩, ⟨2, 2, 2⟩, ⟨3, 3, 3⟩]

/-- The state after the first `n` timer ticks, tick `k` (counted from 0)
sampling the button as `button_clear k`. -/
def ISR_run (button_clear : Nat → Bool) : Nat → Shared → Shared
  | 0, s => s
  | n + 1, s => TIM0_COMPA_vect (ISR_run button_clear n s) (button_clear n)

/-- A step of the combined system: a timer tick with the sampled button level,
or one pass of the event handling of `main`. -/
inductive Step where
  | tick (button_clear : Bool)
  | main_pass
  deriving DecidableEq, Repr

/-- Run a sequence of steps of the combined system. -/
def system_run : List Step → Shared → Shared
  | [], s => s
  | .tick b :: steps, s => system_run steps (TIM0_COMPA_vect s b)
  | .main_pass :: steps, s => system_run steps (main_events s)

/-- A long press, the main-loop pass that turns demo mode on, and then a
short press: the button held for 11 ticks and released for 35. -/
def demo_short_press_trace : List Step :=
  List.replicate 101 (.tick true) ++ [.main_pass] ++ List.replicate 11 (.tick true) ++
    List.replicate 35 (.tick false)

/-- The shared state reached by `demo_short_press_trace`. -/
def demo_stuck_state : Shared :=
  { short_press := 1, isr_short_press := 0, long_press := 0, next_pattern := 0, demo_mode := 1,
    current_debounce_count := 0, button_press_acknowledged := 0, demo_time_counter := 46 }

/-- Channel of a colour by primary index, as in `current_triplet`: 0 red,
1 green, 2 blue. -/
def RGB.primary (c : RGB) (p : Nat) : Nat :=
  if p = 0 then c.red else if p = 1 then c.green else c.blue

/-- Whether a colour is the pure primary `p`: channel `p` at 127 and the other
two at 0. -/
def RGB.pure_primary (c : RGB) (p : Nat) : Bool :=
  c.primary p = 127 && c.primary ((p + 1) % 3) = 0 && c.primary ((p + 2) % 3) = 0

/-- The calls of a table entry as `main` makes them: `n` successive calls,
each given the buffer, the globals and the status left by the previous one. -/
def pattern_run (pf : patternfunc) (rand : Nat → Nat) : Nat → Out → Option Out
  | 0, o => some o
  | n + 1, o =>
    match run_pattern pf rand o.data NUM_LEDS o.status o.g with
    | none => none
    | some o1 => pattern_run pf rand n o1

/-- The seed a table entry stores into the occupancy mask `*state` in its
`PATTERN_STATUS_NEW` branch and when the mask has become 0. -/
def patternfunc.mask_seed : patternfunc → Option Nat
  | .trilobe => some TRILOBE_INITIAL_STATE
  | .tricircle _ => some TRICIRCLE_INITIAL_STATE
  | _ => none

/-- Position of the highest set bit of an 8-bit value, counted from 1 (0 when
no bit is set). -/
def highest_set_bit (m : Nat) : Nat :=
  (List.range 8).foldl (fun acc b => if IS_BIT_SET m b then b + 1 else acc) 0

/-- The debounce part of the shared state: `short_press`, `isr_short_press`,
`long_press`, `current_debounce_count`, `button_press_acknowledged`. -/
def Shared.debounce_fields (s : Shared) : Nat × Nat × Nat × Nat × Nat :=
  (s.short_press, s.isr_short_press, s.long_press, s.current_debounce_count,
    s.button_press_acknowledged)

/-- Whether a tick executes one of the assignments `short_press = 1` or
`long_press = 1` of the interrupt handler: the handler is armed and either
the counter is at `DEBOUNCE_COUNT_MID` with a provisional short press and the
button released, or the counter is at `DEBOUNCE_COUNT_LONG` with the button
pressed or a provisional short press. -/
def emits_event (s : Shared) (button_clear : Bool) : Bool :=
  decide (s.button_press_acknowledged ≠ 0) &&
    ((decide (s.current_debounce_count = DEBOUNCE_COUNT_MID) &&
        decide (s.isr_short_press ≠ 0) && !button_clear) ||
      (decide (s.current_debounce_count = DEBOUNCE_COUNT_LONG) &&
        (button_clear || decide (s.isr_short_press ≠ 0))))

/-- An armed debounce state at the counter value `DEBOUNCE_COUNT_MID` with a
provisional short press. -/
def mid_sample : Shared :=
  { Shared.init with current_debounce_count := 45, isr_short_press := 1 }

/-- An armed debounce state at the counter value `DEBOUNCE_COUNT_LONG` with a
provisional short press. -/
def long_sample : Shared :=
  { Shared.init with current_debounce_count := 100, isr_short_press := 1 }

/-- The initial shared state with demo mode switched on. -/
def demo_sample : Shared := { Shared.init with demo_mode := 1 }

/-! ## `copy_buffer` and the loop of `main` -/

/-- Source function `copy_buffer`: `for (i = 0; i < size*3; i++) *dest++ = *source++;`
with `source` and `dest` of type `struct RGB *`, so that pass `i` reads
`source[i]` and writes `dest[i]`, one whole LED entry.  The result is
`none` when a pass reads or writes outside the given buffers. -/
def copy_buffer (source dest : List RGB) (size : Nat) : Option (List RGB) :=
  (List.range (size * 3)).foldl
    (fun (d : Option (List RGB)) i =>
      match d with
      | none => none
      | some d1 =>
        match source[i]? with
        | none => none
        | some led => if i < d1.length then some (d1.set i led) else none)
    (some dest)

/-- The local variables of `main` together with the LED buffer and the
globals, at the top of the `while (1)` loop. -/
structure MainState where
  pattern_status : Nat
  current_pattern : Nat
  fading : Nat
  led_data : List RGB
  g : Globals
  shared : Shared
  deriving DecidableEq, Repr

/-- The call `pf.run_pattern(led_data, NUM_LEDS, pattern_status,
pf.extra_parameter)` of one pass: the entry `current_pattern` of the table
when `fading` is 0, `fade_down` otherwise. -/
def main_call (rand : Nat → Nat) (st : MainState) : Option Out :=
  if st.fading = 0 then
    match pattern_functions[st.current_pattern]? with
    | none => none
    | some pf => run_pattern pf rand st.led_data NUM_LEDS st.pattern_status st.g
  else
    some (fade_down st.led_data NUM_LEDS st.pattern_status st.g)

/-- The rest of a pass after the call returned `o`: the `switch` on the
returned status, the button handling (`main_events`; the flashing done by
`quick_flash_leds` is not part of this state) and the `if (next_pattern)`
block. -/
def main_after_call (st : MainState) (o : Out) : MainState :=
  let fading1 := if o.status = PATTERN_STATUS_FADE_DONE then 0 else st.fading
  let status1 := if o.status = PATTERN_STATUS_FADE_DONE then PATTERN_STATUS_NEW else o.status
  let s1 := main_events st.shared
  if s1.next_pattern ≠ 0 then
    { pattern_status := PATTERN_STATUS_NEW
      current_pattern :=
        if (st.current_pattern + 1) % 256 = NUM_PATTERNS then 0
        else (st.current_pattern + 1) % 256
      fading := 1
      led_data := o.data
      g := o.g
      shared := { s1 with next_pattern := 0 } }
  else
    { pattern_status := status1
      current_pattern := st.current_pattern
      fading := fading1
      led_data := o.data
      g := o.g
      shared := s1 }

/-- One pass of the `while (1)` loop of `main`. -/
def main_loop_pass (rand : Nat → Nat) (st : MainState) : Option MainState :=
  match main_call rand st with
  | none => none
  | some o => some (main_after_call st o)

/-! ## The assembly loop of `send_data` with cycle counts -/

/-- The instructions used in the `asm volatile` block of `send_data`; branch
targets are positions in `send_data_asm`. -/
inductive Instr where
  | ldi (k : Nat)
  | out_high
  | out_low
  | nop
  | lsl
  | brcs (target : Nat)
  | rjmp (target : Nat)
  | dec
  | breq (target : Nat)
  deriving DecidableEq, Repr

/-- The `asm volatile` block of `send_data`, one instruction per entry:
`loop` is position 1, `bit_is_1` position 11, `bit_is_0` position 13 and
`new_byte` position 26 (the end of the block). -/
def send_data_asm : List Instr :=
  [ .ldi 8,
    .out_high,
    .nop, .nop, .nop, .nop, .nop,
    .lsl,
    .brcs 11,
    .out_low,
    .rjmp 13,
    .nop, .nop,
    .nop, .nop, .nop, .nop, .nop,
    .out_low,
    .dec,
    .breq 26,
    .nop, .nop, .nop, .nop,
    .rjmp 1 ]

/-- Machine state of the assembly block: program position, the registers
`loopcounter` and `data`, the carry and zero flags, the cycles elapsed, and
the writes to the port as (cycle count after the `out`, level written), most
recent first. -/
structure AsmState where
  pc : Nat
  loopcounter : Nat
  data : Nat
  carry : Bool
  zero : Bool
  cycles : Nat
  port : List (Nat × Bool)
  deriving DecidableEq, Repr

/-- Execute the instruction at `pc` with the cycle costs stated in the
comments of the block: 1 cycle for `ldi`, `out`, `nop`, `lsl`, `dec`, 2 for
`rjmp`, and 1 or 2 for a branch not taken or taken.  At the end of the block
the state does not change. -/
def asm_step (s : AsmState) : AsmState :=
  match send_data_asm[s.pc]? with
  | none => s
  | some (.ldi k) => { s with pc := s.pc + 1, loopcounter := k, cycles := s.cycles + 1 }
  | some .out_high =>
    { s with pc := s.pc + 1, cycles := s.cycles + 1, port := (s.cycles + 1, true) :: s.port }
  | some .out_low =>
    { s with pc := s.pc + 1, cycles := s.cycles + 1, port := (s.cycles + 1, false) :: s.port }
  | some .nop => { s with pc := s.pc + 1, cycles := s.cycles + 1 }
  | some .lsl =>
    { s with
      pc := s.pc + 1
      carry := decide (128 ≤ s.data % 256)
      data := (s.data * 2) % 256
      zero := decide ((s.data * 2) % 256 = 0)
      cycles := s.cycles + 1 }
  | some (.brcs target) =>
    if s.carry then { s with pc := target, cycles := s.cycles + 2 }
    else { s with pc := s.pc + 1, cycles := s.cycles + 1 }
  | some (.rjmp target) => { s with pc := target, cycles := s.cycles + 2 }
  | some .dec =>
    { s with
      pc := s.pc + 1
      loopcounter := (s.loopcounter + 255) % 256
      zero := decide ((s.loopcounter + 255) % 256 = 0)
      cycles := s.cycles + 1 }
  | some (.breq target) =>
    if s.zero then { s with pc := target, cycles := s.cycles + 2 }
    else { s with pc := s.pc + 1, cycles := s.cycles + 1 }

/-- Run the block for at most `fuel` instructions. -/
def asm_run : Nat → AsmState → AsmState
  | 0, s => s
  | fuel + 1, s => asm_run fuel (asm_step s)

/-- The state in which the block is entered to send `current_byte`. -/
def asm_entry (current_byte : Nat) : AsmState :=
  { pc := 0, loopcounter := 0, data := current_byte, carry := false, zero := false, cycles := 0,
    port := [] }

/-- The pulses in a list of port writes given in time order: for every write
of the high level, its cycle count and the number of cycles until the next
write of the low level. -/
def pulses : List (Nat × Bool) → List (Nat × Nat)
  | [] => []
  | (t, true) :: rest =>
    match rest.find? (fun e => !e.2) with
    | none => pulses rest
    | some e => (t, e.1 - t) :: pulses rest
  | (_, false) :: rest => pulses rest

/-- The pulses put on the line while one byte is sent, 200 instructions
being enough to reach `new_byte`. -/
def byte_pulses (current_byte : Nat) : List (Nat × Nat) :=
  pulses (asm_run 200 (asm_entry current_byte)).port.reverse

/-! ## Further auxiliary definitions -/

/-- The LED groups of `trilobe` in the order of its `fill_funcs`: the index
ranges `start .. end`. -/
def trilobe_groups : List (List Nat) :=
  trilobe_fill_funcs.map (fun ff => List.range' ff.1 (ff.2.1 + 1 - ff.1))

/-- The colours of `fill_funcs` of `trilobe`. -/
def trilobe_colours : List RGB := trilobe_fill_funcs.map (fun ff => ff.2.2)

/-- The position in `groups` of the first group containing LED `i`. -/
def group_of (groups : List (List Nat)) (i : Nat) : Nat :=
  groups.findIdx (fun l => l.contains i)

/-- The colour built from the three bytes `random_byte` returns at positions
`k`, `k + 1`, `k + 2` of the `rand()` stream (red, green, blue). -/
def drawn_colour (rand : Nat → Nat) (k : Nat) : RGB :=
  { red := (rand k % 256) / 4, green := (rand (k + 1) % 256) / 4,
    blue := (rand (k + 2) % 256) / 4 }

/-- A timer tick followed by an immediate acknowledgement: the handler runs
and `button_press_acknowledged` is set again. -/
def armed_tick (s : Shared) (button_clear : Bool) : Shared :=
  { TIM0_COMPA_vect s button_clear with button_press_acknowledged := 1 }

/-- The state after the first `n` acknowledged ticks, tick `k` sampling the
button as `button_clear k`. -/
def armed_run (button_clear : Nat → Bool) : Nat → Shared → Shared
  | 0, s => s
  | n + 1, s => armed_tick (armed_run button_clear n s) (button_clear n)

/-- The state of `main` at the top of pass `k`, after the timer ticks that
occurred since the previous pass: `ticks k` lists the button samples of the
ticks before pass `k`.  `none` when an earlier call was undefined. -/
def main_state_at (rand : Nat → Nat) (ticks : Nat → List Bool) (st0 : MainState) :
    Nat → Option MainState
  | 0 => some { st0 with shared := (ticks 0).foldl TIM0_COMPA_vect st0.shared }
  | k + 1 =>
    match main_state_at rand ticks st0 k with
    | none => none
    | some st =>
      match main_loop_pass rand st with
      | none => none
      | some st1 =>
        some { st1 with shared := (ticks (k + 1)).foldl TIM0_COMPA_vect st1.shared }

/-- Whether the `if (next_pattern)` test of the pass starting in `st`
finds the flag set. -/
def request_taken (st : MainState) : Bool :=
  decide ((main_events st.shared).next_pattern ≠ 0)

/-- The number of next-pattern requests taken in the passes before pass `n`. -/
def taken_upto (rand : Nat → Nat) (ticks : Nat → List Bool) (st0 : MainState) : Nat → Nat
  | 0 => 0
  | n + 1 =>
    taken_upto rand ticks st0 n +
      (match main_state_at rand ticks st0 n with
       | some st => if request_taken st then 1 else 0
       | none => 0)

/-- A state of `main` at the top of a pass with a short press pending: first
pattern, not fading, blank buffer. -/
def press_sample : MainState :=
  { pattern_status := PATTERN_STATUS_NEW, current_pattern := 0, fading := 0,
    led_data := uniform_buffer 0, g := ⟨0, 0, 0⟩,
    shared := { Shared.init with short_press := 1 } }

/-- The state of `main` reached from `press_sample` once the fade is over. -/
def faded_sample : MainState :=
  { pattern_status := PATTERN_STATUS_NEW, current_pattern := 1, fading := 0,
    led_data := uniform_buffer 0, g := ⟨0, 0, 0⟩, shared := Shared.init }

/-- The port writes of one pass of the assembly loop entered at cycle count
`c`, in time order, for a 1 bit (`b = true`) or a 0 bit. -/
def bit_writes (c : Nat) (b : Bool) : List (Nat × Bool) :=
  if b then [(c + 1, true), (c + 17, false)]
  else [(c + 1, true), (c + 9, false), (c + 17, false)]

/-- The port writes of successive passes of the assembly loop, 25 cycles
apart, in time order. -/
def byte_writes : Nat → List Bool → List (Nat × Bool)
  | _, [] => []
  | c, b :: bs => bit_writes c b ++ byte_writes (c + 25) bs

/-! ## Lemmas -/


theorem intensity_halve_body_cons (x : RGB) (d : List RGB) (rc i : Nat) :
    intensity_halve_body (x :: d, rc) (i + 1) =
      (x :: (intensity_halve_body (d, rc) i).1, (intensity_halve_body (d, rc) i).2) := by
  simp [intensity_halve_body]

theorem intensity_halve_fold_cons (x : RGB) (is : List Nat) :
    ∀ (d : List RGB) (rc : Nat),
      (is.map (· + 1)).foldl intensity_halve_body (x :: d, rc) =
        (x :: (is.foldl intensity_halve_body (d, rc)).1,
          (is.foldl intensity_halve_body (d, rc)).2) := by
  induction is with
  | nil => intro d rc; rfl
  | cons i is ih =>
    intro d rc
    simp only [List.map_cons, List.foldl_cons, intensity_halve_body_cons]
    exact ih _ _

set_option linter.unnecessarySeqFocus false in
theorem intensity_halve_body_zero (x : RGB) (d : List RGB) (rc : Nat) (hrc : rc < 256) :
    intensity_halve_body (x :: d, rc) 0 =
      (x.halve :: d, (rc + x.halve.nonzero_channels) % 256) := by
  simp only [intensity_halve_body, RGB.halve, RGB.nonzero_channels, List.getD_cons_zero,
    List.set_cons_zero]
  split_ifs <;> simp <;> omega

theorem intensity_halve_fold (data : List RGB) :
    ∀ rc : Nat, rc < 256 →
      (List.range data.length).foldl intensity_halve_body (data, rc) =
        (data.map RGB.halve, (rc + count_nonzero (data.map RGB.halve)) % 256) := by
  induction data with
  | nil => intro rc hrc; simp [count_nonzero]; omega
  | cons x xs ih =>
    intro rc hrc
    rw [List.length_cons, List.range_succ_eq_map, List.foldl_cons,
      intensity_halve_body_zero x xs rc hrc]
    have h := intensity_halve_fold_cons x.halve (List.range xs.length) xs
      ((rc + x.halve.nonzero_channels) % 256)
    simp only [Nat.succ_eq_add_one] at h ⊢
    rw [show (Nat.succ : Nat → Nat) = (· + 1) from rfl, h, ih _ (Nat.mod_lt _ (by norm_num))]
    simp [count_nonzero, Nat.add_assoc]

theorem intensity_halve_eq (data : List RGB) :
    intensity_halve data data.length =
      (data.map RGB.halve, count_nonzero (data.map RGB.halve) % 256) := by
  unfold intensity_halve
  rw [intensity_halve_fold data 0 (by norm_num)]
  simp

theorem rotate_right_loop_length (i : Nat) : ∀ data : List RGB,
    (rotate_right_loop i data).length = data.length := by
  induction i with
  | zero => intro data; rfl
  | succ i ih => intro data; simp [rotate_right_loop, ih]

theorem rotate_right_loop_getElem? (i : Nat) : ∀ (data : List RGB), i < data.length →
    ∀ j : Nat, (rotate_right_loop i data)[j]? =
      if 1 ≤ j ∧ j ≤ i then data[j - 1]? else data[j]? := by
  induction i with
  | zero =>
    intro data _ j
    rw [if_neg (by omega)]
    rfl
  | succ i ih =>
    intro data hi j
    rw [rotate_right_loop, ih _ (by simp; omega)]
    have hd : data.getD i default = data[i] := by
      simp [List.getD_eq_getElem?_getD, List.getElem?_eq_getElem (show i < data.length by omega)]
    by_cases h1 : 1 ≤ j ∧ j ≤ i
    · rw [if_pos h1, if_pos (by omega), List.getElem?_set_ne (by omega)]
    · rw [if_neg h1]
      by_cases h2 : j = i + 1
      · subst h2
        rw [if_pos (by omega), List.getElem?_set_self (by omega), hd]
        simp [List.getElem?_eq_getElem (show i < data.length by omega)]
      · rw [if_neg (by omega), List.getElem?_set_ne (by omega)]

theorem rotate_right_getElem? (data : List RGB) (n : Nat) (hn : 1 ≤ n) (hlen : data.length = n) :
    ∃ r, rotate_right data n = some r ∧ r.length = n ∧
      ∀ j, j < n → r[j]? = data[(j + (n - 1)) % n]? := by
  refine ⟨_, by simp [rotate_right, show n ≠ 0 by omega]; rfl, ?_, ?_⟩
  · simp [rotate_right_loop_length, hlen]
  · intro j hj
    have hd : data.getD (n - 1) default = data[n - 1] := by
      simp [List.getD_eq_getElem?_getD, List.getElem?_eq_getElem (show n - 1 < data.length by omega)]
    by_cases h0 : j = 0
    · subst h0
      rw [List.getElem?_set_self (by simp [rotate_right_loop_length]; omega)]
      simp [Nat.mod_eq_of_lt (show n - 1 < n by omega),
        List.getElem?_eq_getElem (show n - 1 < data.length by omega)]
    · rw [List.getElem?_set_ne (by omega), rotate_right_loop_getElem? _ _ (by omega),
        if_pos (by omega)]
      congr 1
      have : j + (n - 1) = (j - 1) + n := by omega
      rw [this, Nat.add_mod_right, Nat.mod_eq_of_lt (by omega)]

theorem rotated_index_lt (i k n : Nat) (hn : 1 ≤ n) : rotated_index i k n < n := by
  unfold rotated_index
  have h1 : (0 : Int) ≤ ((i : Int) - (k : Int)) % (n : Int) := Int.emod_nonneg _ (by omega)
  have h2 : ((i : Int) - (k : Int)) % (n : Int) < (n : Int) := Int.emod_lt_of_pos _ (by omega)
  omega

theorem rotated_index_succ (i k n : Nat) (hn : 1 ≤ n) :
    (rotated_index i k n + (n - 1)) % n = rotated_index i (k + 1) n := by
  unfold rotated_index
  have h1 : (0 : Int) ≤ ((i : Int) - (k : Int)) % (n : Int) := Int.emod_nonneg _ (by omega)
  have h3 : (0 : Int) ≤ ((i : Int) - ((k + 1 : Nat) : Int)) % (n : Int) :=
    Int.emod_nonneg _ (by omega)
  apply Int.ofNat_inj.mp
  rw [Int.toNat_of_nonneg h3]
  push_cast
  rw [Int.toNat_of_nonneg h1, Nat.cast_sub hn]
  push_cast
  rw [Int.emod_add_emod]
  have : (i : Int) - k + (n - 1) = (i - (k + 1)) + n := by ring
  rw [this, Int.add_emod_self]

theorem rotate_right_times_getElem? (k : Nat) : ∀ (data : List RGB) (n : Nat), 1 ≤ n →
    data.length = n →
    ∃ r, rotate_right_times k data n = some r ∧ r.length = n ∧
      ∀ i, i < n → r[i]? = data[rotated_index i k n]? := by
  induction k with
  | zero =>
    intro data n hn hlen
    refine ⟨data, rfl, hlen, ?_⟩
    intro i hi
    have : rotated_index i 0 n = i := by
      unfold rotated_index
      simp only [Nat.cast_zero, sub_zero]
      rw [Int.emod_eq_of_lt (by omega) (by omega)]
      simp
    rw [this]
  | succ k ih =>
    intro data n hn hlen
    obtain ⟨d1, hd1, hlen1, hget1⟩ := rotate_right_getElem? data n hn hlen
    obtain ⟨r, hr, hlenr, hgetr⟩ := ih d1 n hn hlen1
    refine ⟨r, by simp [rotate_right_times, hd1, hr], hlenr, ?_⟩
    intro i hi
    rw [hgetr i hi, hget1 _ (rotated_index_lt i k n hn), rotated_index_succ i k n hn]

theorem length_eq_18 {α : Type} (l : List α) (h : l.length = 18) :
    ∃ a0 a1 a2 a3 a4 a5 a6 a7 a8 a9 a10 a11 a12 a13 a14 a15 a16 a17 : α,
      l = [a0, a1, a2, a3, a4, a5, a6, a7, a8, a9, a10, a11, a12, a13, a14, a15, a16, a17] := by
  match l, h with
  | [a0, a1, a2, a3, a4, a5, a6, a7, a8, a9, a10, a11, a12, a13, a14, a15, a16, a17], _ => exact ⟨a0, a1, a2, a3, a4, a5, a6, a7, a8, a9, a10, a11, a12, a13, a14, a15, a16, a17, rfl⟩

theorem range_18 : List.range 18 = [0, 1, 2, 3, 4, 5, 6, 7, 8, 9, 10, 11, 12, 13, 14, 15, 16, 17] := by
  decide

theorem fill_rainbow_colours_18 (data : List RGB) (h : data.length = 18) :
    fill_rainbow_colours data 18 = some rainbow_18 := by
  obtain ⟨a0, a1, a2, a3, a4, a5, a6, a7, a8, a9, a10, a11, a12, a13, a14, a15, a16, a17, rfl⟩ := length_eq_18 data h
  simp [fill_rainbow_colours, range_18, fill_rainbow_loop, fill_rainbow_body, triplet_store,
    intermediate_colours, rainbow_18]

theorem fade_down_new (data : List RGB) (num_leds : Nat) (g : Globals) :
    fade_down data num_leds PATTERN_STATUS_NEW g =
      { status := PATTERN_STATUS_REFRESH, data := (intensity_halve data num_leds).1,
        g := { g with pattern_counter := 0 } } := by
  simp [fade_down, FADE_DELAY]

theorem intensity_halve_length (data : List RGB) :
    (intensity_halve data data.length).1.length = data.length := by
  rw [intensity_halve_eq]; simp

theorem rotate_right3_some (data : List RGB) (n : Nat) (hn : 1 ≤ n) (hlen : data.length = n) :
    ∃ r, rotate_right3 data n = some r ∧ r.length = n := by
  obtain ⟨d1, h1, l1, -⟩ := rotate_right_getElem? data n hn hlen
  obtain ⟨d2, h2, l2, -⟩ := rotate_right_getElem? d1 n hn l1
  obtain ⟨d3, h3, l3, -⟩ := rotate_right_getElem? d2 n hn l2
  exact ⟨d3, by simp [rotate_right3, h1, h2, h3], l3⟩

theorem rainbow_not_new (data : List RGB) (hlen : data.length = 18) (status : Nat)
    (hs : status ≠ PATTERN_STATUS_NEW) (counter : Bool) (g : Globals) :
    ∃ out, rainbow data 18 status counter g = some out ∧
      (out.status = PATTERN_STATUS_NOCHANGE → out.data = data) := by
  have hl : (intensity_halve data 18).1.length = 18 := by
    have := intensity_halve_length data
    rwa [hlen] at this
  have hr := fill_rainbow_colours_18 _ hl
  unfold rainbow
  rw [if_neg hs]
  generalize intensity_halve data 18 = h at hr
  cases counter
  · exact ⟨_, rfl, fun _ => rfl⟩
  · by_cases hc : g.pattern_counter = COLOUR_FLASH_COUNT
    · by_cases hz : h.2 = 0
      · simp only [hc, hz, hr, if_true]
        exact ⟨_, rfl, by simp [PATTERN_STATUS_REFRESH, PATTERN_STATUS_NOCHANGE]⟩
      · simp only [hc, hz, if_true, if_false]
        exact ⟨_, rfl, by simp [PATTERN_STATUS_REFRESH, PATTERN_STATUS_NOCHANGE]⟩
    · simp only [hc, if_true, if_false]
      exact ⟨_, rfl, fun _ => rfl⟩

theorem rainbow_wheel_not_new (data : List RGB) (hlen : data.length = 18) (status : Nat)
    (hs : status ≠ PATTERN_STATUS_NEW) (g : Globals) :
    ∃ out, rainbow_wheel data 18 status g = some out ∧
      (out.status = PATTERN_STATUS_NOCHANGE → out.data = data) := by
  obtain ⟨r3, hr3, -⟩ := rotate_right3_some data 18 (by norm_num) hlen
  unfold rainbow_wheel
  rw [if_neg hs]
  by_cases hc : g.pattern_counter = COLOUR_WALK_COUNT
  · simp only [hc, hr3, if_true]
    exact ⟨_, rfl, by simp [PATTERN_STATUS_REFRESH, PATTERN_STATUS_NOCHANGE]⟩
  · simp only [hc, if_false]
    exact ⟨_, rfl, fun _ => rfl⟩

theorem fade_colours_not_new (data : List RGB) (num_leds status : Nat)
    (hs : status ≠ PATTERN_STATUS_NEW) (colour_type : Nat) (g : Globals) :
    (fade_colours data num_leds status colour_type g).status = PATTERN_STATUS_NOCHANGE →
      (fade_colours data num_leds status colour_type g).data = data := by
  unfold fade_colours
  rw [if_neg hs]
  by_cases hc : g.pattern_counter = COLOUR_FLASH_COUNT
  · simp [hc, PATTERN_STATUS_REFRESH, PATTERN_STATUS_NOCHANGE]
  · simp [hc]

theorem crazy_not_new (rand : Nat → Nat) (data : List RGB) (num_leds status : Nat)
    (hs : status ≠ PATTERN_STATUS_NEW) (g : Globals) :
    (crazy rand data num_leds status g).status = PATTERN_STATUS_NOCHANGE →
      (crazy rand data num_leds status g).data = data := by
  unfold crazy
  rw [if_neg hs]
  by_cases hc : g.pattern_counter = COLOUR_FLASH_COUNT
  · by_cases hz : (intensity_halve data num_leds).2 = 0 <;>
      simp [hc, hz, PATTERN_STATUS_REFRESH, PATTERN_STATUS_NOCHANGE]
  · simp [hc]

theorem walking_colour_not_new (rand : Nat → Nat) (data : List RGB) (hlen : data.length = 18)
    (status : Nat) (hs : status ≠ PATTERN_STATUS_NEW) (colour_type : Nat) (g : Globals) :
    ∃ out, walking_colour rand data 18 status colour_type g = some out ∧
      (out.status = PATTERN_STATUS_NOCHANGE → out.data = data) := by
  obtain ⟨r1, hr1, -⟩ := rotate_right_getElem? data 18 (by norm_num) hlen
  unfold walking_colour
  simp only [if_neg hs]
  by_cases hc : g.pattern_counter = COLOUR_FLASH_COUNT
  · simp only [hc, hr1, if_true]
    exact ⟨_, rfl, by simp [PATTERN_STATUS_REFRESH, PATTERN_STATUS_NOCHANGE]⟩
  · simp only [hc, if_false]
    exact ⟨_, rfl, fun _ => rfl⟩

theorem walking_bar_not_new (rand : Nat → Nat) (data : List RGB) (hlen : data.length = 18)
    (status : Nat) (hs : status ≠ PATTERN_STATUS_NEW) (colour_type : Nat) (g : Globals) :
    ∃ out, walking_bar rand data 18 status colour_type g = some out ∧
      (out.status = PATTERN_STATUS_NOCHANGE → out.data = data) := by
  obtain ⟨r3, hr3, -⟩ := rotate_right3_some data 18 (by norm_num) hlen
  unfold walking_bar
  simp only [if_neg hs]
  by_cases hc : g.pattern_counter = COLOUR_FLASH_COUNT
  · simp only [hc, hr3, if_true]
    exact ⟨_, rfl, by simp [PATTERN_STATUS_REFRESH, PATTERN_STATUS_NOCHANGE]⟩
  · simp only [hc, if_false]
    exact ⟨_, rfl, fun _ => rfl⟩

theorem trilobe_not_new (data : List RGB) (num_leds status : Nat)
    (hs : status ≠ PATTERN_STATUS_NEW) (g : Globals) :
    (trilobe data num_leds status g).status = PATTERN_STATUS_NOCHANGE →
      (trilobe data num_leds status g).data = data := by
  unfold trilobe
  simp only [if_neg hs]
  by_cases hc : g.pattern_counter = COLOUR_WALK_COUNT
  · simp [hc, PATTERN_STATUS_REFRESH, PATTERN_STATUS_NOCHANGE]
  · simp [hc]

theorem tricircle_not_new (rand : Nat → Nat) (data : List RGB) (num_leds status : Nat)
    (hs : status ≠ PATTERN_STATUS_NEW) (colour_type : Nat) (hct : colour_type < 4)
    (g : Globals) :
    ∃ out, tricircle rand data num_leds status colour_type g = some out ∧
      (out.status = PATTERN_STATUS_NOCHANGE → out.data = data) := by
  have hcol : ∃ c, (get_colour_from_parameter rand colour_type g).1 = some c := by
    unfold get_colour_from_parameter
    simp only [SINGLE_COLOUR_RED, SINGLE_COLOUR_GREEN, SINGLE_COLOUR_BLUE, SINGLE_COLOUR_RANDOM]
    have : colour_type = 0 ∨ colour_type = 1 ∨ colour_type = 2 ∨ colour_type = 3 := by omega
    rcases this with rfl | rfl | rfl | rfl <;> simp
  obtain ⟨c, hcol⟩ := hcol
  unfold tricircle
  simp only [hcol, if_neg hs]
  by_cases hc : g.pattern_counter = COLOUR_WALK_COUNT
  · simp only [hc, if_true]
    exact ⟨_, rfl, by simp [PATTERN_STATUS_REFRESH, PATTERN_STATUS_NOCHANGE]⟩
  · simp only [hc, if_false]
    exact ⟨_, rfl, fun _ => rfl⟩

theorem table_tricircle_colour (colour_type : Nat)
    (h : patternfunc.tricircle colour_type ∈ pattern_functions) : colour_type < 4 := by
  simp only [pattern_functions, List.mem_cons, List.mem_singleton, List.not_mem_nil,
    or_false, patternfunc.tricircle.injEq, reduceCtorEq, false_or, SINGLE_COLOUR_RED,
    SINGLE_COLOUR_GREEN, SINGLE_COLOUR_BLUE, SINGLE_COLOUR_RANDOM] at h
  omega

theorem overwrite_getElem? (stores : List Nat) (v : Nat → RGB) (d : List RGB) (i : Nat) :
    (overwrite stores v d)[i]? = (d[i]?).map (fun x => if i ∈ stores then v i else x) := by
  unfold overwrite
  rw [List.getElem?_zipWith]
  by_cases hi : i < d.length
  · simp [List.getElem?_range hi, List.getElem?_eq_getElem hi]
  · simp [List.getElem?_eq_none (not_lt.mp hi)]

theorem overwrite_length (stores : List Nat) (v : Nat → RGB) (d : List RGB) :
    (overwrite stores v d).length = d.length := by
  simp [overwrite]

theorem table_colour_arg : ∀ pf ∈ pattern_functions, pf.colour_arg < 4 := by
  decide

theorem lt_four_cases (n : Nat) (h : n < 4) : n = 0 ∨ n = 1 ∨ n = 2 ∨ n = 3 := by omega

theorem fill_single_colour_new_data (rand : Nat → Nat) (mode : Nat) (hm : mode < 4)
    (g : Globals) : ∃ v : Nat → RGB, ∀ d : List RGB, d.length = 18 →
      (fill_single_colour rand d 18 PATTERN_STATUS_NEW mode g).data =
        overwrite (List.range 18) v d := by
  rcases lt_four_cases mode hm with rfl | rfl | rfl | rfl
  · refine ⟨fun _ => ⟨0, 0x80, 0⟩, fun d hd => ?_⟩
    obtain ⟨a0, a1, a2, a3, a4, a5, a6, a7, a8, a9, a10, a11, a12, a13, a14, a15, a16, a17, rfl⟩ := length_eq_18 d hd
    simp [fill_single_colour, single_colour_value, overwrite, range_18, SINGLE_COLOUR_RED,
      SINGLE_COLOUR_GREEN, SINGLE_COLOUR_BLUE, SINGLE_COLOUR_RANDOM]
  · refine ⟨fun _ => ⟨0x60, 0, 0⟩, fun d hd => ?_⟩
    obtain ⟨a0, a1, a2, a3, a4, a5, a6, a7, a8, a9, a10, a11, a12, a13, a14, a15, a16, a17, rfl⟩ := length_eq_18 d hd
    simp [fill_single_colour, single_colour_value, overwrite, range_18, SINGLE_COLOUR_RED,
      SINGLE_COLOUR_GREEN, SINGLE_COLOUR_BLUE, SINGLE_COLOUR_RANDOM]
  · refine ⟨fun _ => ⟨0, 0, 0x80⟩, fun d hd => ?_⟩
    obtain ⟨a0, a1, a2, a3, a4, a5, a6, a7, a8, a9, a10, a11, a12, a13, a14, a15, a16, a17, rfl⟩ := length_eq_18 d hd
    simp [fill_single_colour, single_colour_value, overwrite, range_18, SINGLE_COLOUR_RED,
      SINGLE_COLOUR_GREEN, SINGLE_COLOUR_BLUE, SINGLE_COLOUR_RANDOM]
  · refine ⟨fun _ => triplet_colour (random_triplet rand g).1, fun d hd => ?_⟩
    obtain ⟨a0, a1, a2, a3, a4, a5, a6, a7, a8, a9, a10, a11, a12, a13, a14, a15, a16, a17, rfl⟩ := length_eq_18 d hd
    simp [fill_single_colour, single_colour_value, overwrite, range_18, SINGLE_COLOUR_RED,
      SINGLE_COLOUR_GREEN, SINGLE_COLOUR_BLUE, SINGLE_COLOUR_RANDOM, triplet_colour]

theorem send_bits_mod (n d : Nat) : send_bits n (d % 256) = send_bits n d := by
  cases n with
  | zero => rfl
  | succ n => simp [send_bits, Nat.mul_mod]

set_option maxRecDepth 100000 in
theorem send_bits_byte : ∀ d : Fin 256, ∀ b : Fin 8,
    (send_bits 8 d.val)[b.val]? = some (d.val.testBit (7 - b.val)) := by
  decide

theorem send_bits_length : ∀ d : Nat, (send_bits 8 d).length = 8 := by
  intro d
  simp [send_bits]

theorem send_bits_getElem? (d b : Nat) (hb : b < 8) :
    (send_bits 8 d)[b]? = some (d.testBit (7 - b)) := by
  rw [← send_bits_mod]
  have h := send_bits_byte ⟨d % 256, Nat.mod_lt _ (by norm_num)⟩ ⟨b, hb⟩
  simp only at h
  rw [h]
  congr 1
  have : d % 256 = d % 2 ^ 8 := by norm_num
  rw [this, Nat.testBit_mod_two_pow]
  simp; omega

theorem send_data_cons (x : Nat) (fb : List Nat) (n : Nat) :
    send_data (x :: fb) (n + 1) = send_bits 8 x ++ send_data fb n := by
  unfold send_data
  rw [List.range_succ_eq_map, List.foldl_cons, List.foldl_map]
  simp only [List.getD_cons_zero, List.nil_append, Nat.zero_add]
  have key : ∀ (is : List Nat) (p : Nat) (acc : List Bool),
      (is.foldl (fun (s : Nat × List Bool) _ =>
          (s.1 + 1, s.2 ++ send_bits 8 ((x :: fb).getD s.1 0))) (p + 1, send_bits 8 x ++ acc)) =
        (((is.foldl (fun (s : Nat × List Bool) _ =>
          (s.1 + 1, s.2 ++ send_bits 8 (fb.getD s.1 0))) (p, acc)).1 + 1),
         send_bits 8 x ++ (is.foldl (fun (s : Nat × List Bool) _ =>
          (s.1 + 1, s.2 ++ send_bits 8 (fb.getD s.1 0))) (p, acc)).2) := by
    intro is
    induction is with
    | nil => intro p acc; rfl
    | cons i is ih =>
      intro p acc
      simp only [List.foldl_cons, List.getD_cons_succ]
      rw [List.append_assoc]
      exact ih (p + 1) _
  have h := key (List.range n) 0 []
  simp only [List.append_nil, Nat.zero_add] at h
  rw [h]

theorem send_data_framebuffer (data : List RGB) :
    send_data (framebuffer data) (data.length * 3) = data.flatMap led_bits := by
  induction data with
  | nil => rfl
  | cons c cs ih =>
    have h3 : (c :: cs).length * 3 = cs.length * 3 + 1 + 1 + 1 := by simp; ring
    rw [h3]
    simp only [framebuffer, List.flatMap_cons, RGB.bytes, List.cons_append, List.nil_append,
      send_data_cons, led_bits, List.append_assoc]
    rw [← ih]
    rfl

theorem led_bits_length (c : RGB) : (led_bits c).length = 24 := by
  simp [led_bits, send_bits_length]

theorem flatMap_led_bits_getElem? (data : List RGB) : ∀ (i j : Nat), j < 24 →
    (data.flatMap led_bits)[24 * i + j]? = (data[i]?).bind (fun c => (led_bits c)[j]?) := by
  induction data with
  | nil => intro i j _; simp
  | cons c cs ih =>
    intro i j hj
    cases i with
    | zero =>
      simp only [List.flatMap_cons, Nat.mul_zero, Nat.zero_add, List.getElem?_cons_zero,
        Option.some_bind]
      rw [List.getElem?_append_left (by rw [led_bits_length]; exact hj)]
    | succ i =>
      simp only [List.flatMap_cons, List.getElem?_cons_succ]
      rw [List.getElem?_append_right (by rw [led_bits_length]; omega), led_bits_length,
        show 24 * (i + 1) + j - 24 = 24 * i + j by omega]
      exact ih i j hj

theorem led_bits_getElem? (led : RGB) (c b : Nat) (hc : c < 3) (hb : b < 8) :
    (led_bits led)[8 * c + b]? = some ((led.channel c).testBit (7 - b)) := by
  unfold led_bits
  have hc' : c = 0 ∨ c = 1 ∨ c = 2 := by omega
  rcases hc' with rfl | rfl | rfl
  · rw [List.append_assoc, List.getElem?_append_left (by rw [send_bits_length]; omega)]
    simpa [RGB.channel] using send_bits_getElem? led.green b hb
  · rw [List.append_assoc, List.getElem?_append_right (by rw [send_bits_length]; omega),
      send_bits_length, List.getElem?_append_left (by rw [send_bits_length]; omega)]
    simpa [RGB.channel] using send_bits_getElem? led.red b hb
  · rw [List.getElem?_append_right (by simp [send_bits_length]),
      List.length_append, send_bits_length, send_bits_length]
    simpa [RGB.channel] using send_bits_getElem? led.blue b hb


theorem rainbow_new_data (counter : Bool) (g : Globals) (d : List RGB) (hd : d.length = 18) :
    ∃ o, rainbow d 18 PATTERN_STATUS_NEW counter g = some o ∧
      o.data = overwrite (List.range 18) (fun i => rainbow_18.getD i default) d := by
  have hr := fill_rainbow_colours_18 d hd
  refine ⟨_, by simp only [rainbow, hr, if_true]; rfl, ?_⟩
  obtain ⟨a0, a1, a2, a3, a4, a5, a6, a7, a8, a9, a10, a11, a12, a13, a14, a15, a16, a17, rfl⟩ := length_eq_18 d hd
  simp [overwrite, range_18, rainbow_18]

theorem rainbow_wheel_new_data (g : Globals) (d : List RGB) (hd : d.length = 18) :
    ∃ o, rainbow_wheel d 18 PATTERN_STATUS_NEW g = some o ∧
      o.data = overwrite (List.range 18) (fun i => rainbow_18.getD i default) d := by
  have hr := fill_rainbow_colours_18 d hd
  refine ⟨_, by simp only [rainbow_wheel, hr, if_true]; rfl, ?_⟩
  obtain ⟨a0, a1, a2, a3, a4, a5, a6, a7, a8, a9, a10, a11, a12, a13, a14, a15, a16, a17, rfl⟩ := length_eq_18 d hd
  simp [overwrite, range_18, rainbow_18]

theorem fade_colours_new_data (colour_type : Nat) (g : Globals) (d : List RGB)
    (hd : d.length = 18) :
    (fade_colours d 18 PATTERN_STATUS_NEW colour_type g).data =
      overwrite (List.range 18)
        (fun i => if i = 0 then fill_colours_entry colour_type 1
          else if i = 1 then fill_colours_entry colour_type 0
          else fill_colours_entry colour_type (i % 3)) d := by
  obtain ⟨a0, a1, a2, a3, a4, a5, a6, a7, a8, a9, a10, a11, a12, a13, a14, a15, a16, a17, rfl⟩ := length_eq_18 d hd
  simp [fade_colours, fill_colours, overwrite, range_18,
    show List.range 16 = [0, 1, 2, 3, 4, 5, 6, 7, 8, 9, 10, 11, 12, 13, 14, 15] by decide]

theorem crazy_new_data (rand : Nat → Nat) (g : Globals) (d : List RGB) (hd : d.length = 18) :
    (crazy rand d 18 PATTERN_STATUS_NEW g).data =
      overwrite (List.range 18) (fun _ => triplet_colour (random_triplet rand g).1) d := by
  obtain ⟨a0, a1, a2, a3, a4, a5, a6, a7, a8, a9, a10, a11, a12, a13, a14, a15, a16, a17, rfl⟩ := length_eq_18 d hd
  simp [crazy, fill_single_colour, single_colour_value, overwrite, range_18, SINGLE_COLOUR_RED,
    SINGLE_COLOUR_GREEN, SINGLE_COLOUR_BLUE, SINGLE_COLOUR_RANDOM, triplet_colour]

theorem walking_colour_new_data (rand : Nat → Nat) (colour_type : Nat) (hc : colour_type < 4)
    (g : Globals) : ∃ v : Nat → RGB, ∀ d : List RGB, d.length = 18 →
      ∃ o, walking_colour rand d 18 PATTERN_STATUS_NEW colour_type g = some o ∧
        o.data = overwrite [0, 10] v d := by
  obtain ⟨t, ht⟩ : ∃ t, (walking_triplets rand g).1[colour_type]? = some t := by
    rcases lt_four_cases colour_type hc with rfl | rfl | rfl | rfl <;>
      simp [walking_triplets]
  refine ⟨fun _ => triplet_colour t, fun d hd => ?_⟩
  refine ⟨_, by simp only [walking_colour, ht, if_true]; rfl, ?_⟩
  obtain ⟨a0, a1, a2, a3, a4, a5, a6, a7, a8, a9, a10, a11, a12, a13, a14, a15, a16, a17, rfl⟩ := length_eq_18 d hd
  simp [overwrite, range_18, triplet_colour]

theorem walking_bar_new_data (rand : Nat → Nat) (colour_type : Nat) (hc : colour_type < 4)
    (g : Globals) : ∃ v : Nat → RGB, ∀ d : List RGB, d.length = 18 →
      ∃ o, walking_bar rand d 18 PATTERN_STATUS_NEW colour_type g = some o ∧
        o.data = overwrite [0, 1, 9, 10] v d := by
  obtain ⟨t, ht⟩ : ∃ t, (walking_triplets rand g).1[colour_type]? = some t := by
    rcases lt_four_cases colour_type hc with rfl | rfl | rfl | rfl <;>
      simp [walking_triplets]
  refine ⟨fun _ => triplet_colour t, fun d hd => ?_⟩
  refine ⟨_, by simp only [walking_bar, ht, if_true]; rfl, ?_⟩
  obtain ⟨a0, a1, a2, a3, a4, a5, a6, a7, a8, a9, a10, a11, a12, a13, a14, a15, a16, a17, rfl⟩ := length_eq_18 d hd
  simp [overwrite, range_18, triplet_colour]

theorem trilobe_new_data (g : Globals) (d : List RGB) (hd : d.length = 18) :
    (trilobe d 18 PATTERN_STATUS_NEW g).data =
      overwrite [0, 1, 2, 3, 4, 5] (fun _ => ⟨0x30, 0x80, 0x00⟩) d := by
  obtain ⟨a0, a1, a2, a3, a4, a5, a6, a7, a8, a9, a10, a11, a12, a13, a14, a15, a16, a17, rfl⟩ := length_eq_18 d hd
  simp [trilobe, trilobe_fill_funcs, fill_range_colour, overwrite, range_18,
    show List.range 6 = [0, 1, 2, 3, 4, 5] by decide]

theorem tricircle_new_data (rand : Nat → Nat) (colour_type : Nat) (hc : colour_type < 4)
    (g : Globals) : ∃ v : Nat → RGB, ∀ d : List RGB, d.length = 18 →
      ∃ o, tricircle rand d 18 PATTERN_STATUS_NEW colour_type g = some o ∧
        o.data = overwrite [2, 5, 8, 11, 14, 17] v d := by
  obtain ⟨c, hcol⟩ : ∃ c, (get_colour_from_parameter rand colour_type g).1 = some c := by
    unfold get_colour_from_parameter
    simp only [SINGLE_COLOUR_RED, SINGLE_COLOUR_GREEN, SINGLE_COLOUR_BLUE, SINGLE_COLOUR_RANDOM]
    rcases lt_four_cases colour_type hc with rfl | rfl | rfl | rfl <;> simp
  refine ⟨fun _ => c, fun d hd => ?_⟩
  refine ⟨_, by simp only [tricircle, hcol, if_true]; rfl, ?_⟩
  obtain ⟨a0, a1, a2, a3, a4, a5, a6, a7, a8, a9, a10, a11, a12, a13, a14, a15, a16, a17, rfl⟩ := length_eq_18 d hd
  simp [tricircle_fill_funcs, fill_some_colour, overwrite, range_18,
    show List.range 6 = [0, 1, 2, 3, 4, 5] by decide]


theorem run_pattern_new_overwrite (pf : patternfunc) (hpf : pf ∈ pattern_functions)
    (rand : Nat → Nat) (g : Globals) :
    ∃ v : Nat → RGB, ∀ d : List RGB, d.length = 18 →
      ∃ o, run_pattern pf rand d 18 PATTERN_STATUS_NEW g = some o ∧
        o.data = overwrite pf.new_stores v d := by
  have harg := table_colour_arg pf hpf
  cases pf with
  | fill_single_colour mode =>
    obtain ⟨v, hv⟩ := fill_single_colour_new_data rand mode harg g
    exact ⟨v, fun d hd => ⟨_, rfl, hv d hd⟩⟩
  | rainbow counter => exact ⟨_, fun d hd => rainbow_new_data counter g d hd⟩
  | rainbow_wheel => exact ⟨_, fun d hd => rainbow_wheel_new_data g d hd⟩
  | fade_colours colour_type =>
    exact ⟨_, fun d hd => ⟨_, rfl, fade_colours_new_data colour_type g d hd⟩⟩
  | crazy => exact ⟨_, fun d hd => ⟨_, rfl, crazy_new_data rand g d hd⟩⟩
  | walking_colour colour_type => exact walking_colour_new_data rand colour_type harg g
  | walking_bar colour_type => exact walking_bar_new_data rand colour_type harg g
  | trilobe => exact ⟨_, fun d hd => ⟨_, rfl, trilobe_new_data g d hd⟩⟩
  | tricircle colour_type => exact tricircle_new_data rand colour_type harg g

theorem intensity_halve_uniform (v : Nat) :
    intensity_halve (uniform_buffer v) 18 =
      (uniform_buffer (v / 2), if v / 2 = 0 then 0 else 54) := by
  have h := intensity_halve_eq (uniform_buffer v)
  have hl : (uniform_buffer v).length = 18 := by simp [uniform_buffer]
  rw [hl] at h
  rw [h]
  by_cases hv : v / 2 = 0 <;>
    simp [uniform_buffer, RGB.halve, count_nonzero, RGB.nonzero_channels, hv]

theorem fade_down_tick (data : List RGB) (num_leds status : Nat) (g : Globals)
    (hs : status ≠ PATTERN_STATUS_NEW) (hc : (g.pattern_counter + 1) % 256 ≠ FADE_DELAY) :
    fade_down data num_leds status g =
      { status := PATTERN_STATUS_REFRESH, data := data,
        g := { g with pattern_counter := (g.pattern_counter + 1) % 256 } } := by
  simp [fade_down, hs, hc]

theorem fade_down_halving (data : List RGB) (num_leds status : Nat) (g : Globals)
    (hs : status ≠ PATTERN_STATUS_NEW) (hc : (g.pattern_counter + 1) % 256 = FADE_DELAY) :
    fade_down data num_leds status g =
      { status := if (intensity_halve data num_leds).2 ≠ 0 then PATTERN_STATUS_REFRESH
          else PATTERN_STATUS_FADE_DONE,
        data := (intensity_halve data num_leds).1,
        g := { g with pattern_counter := 0 } } := by
  simp [fade_down, hs, hc]


theorem nonzero_channels_eq_zero (c : RGB) : c.nonzero_channels = 0 ↔ c = blank := by
  obtain ⟨gr, r, b⟩ := c
  simp only [RGB.nonzero_channels, blank, RGB.mk.injEq]
  constructor
  · intro h
    by_cases h1 : r = 0 <;> by_cases h2 : gr = 0 <;> by_cases h3 : b = 0 <;> simp_all
  · rintro ⟨rfl, rfl, rfl⟩
    simp

theorem nonzero_channels_le (c : RGB) : c.nonzero_channels ≤ 3 := by
  unfold RGB.nonzero_channels
  split_ifs <;> omega

theorem count_nonzero_eq_zero (data : List RGB) :
    count_nonzero data = 0 ↔ ∀ c ∈ data, c = blank := by
  induction data with
  | nil => simp [count_nonzero]
  | cons x xs ih =>
    have : count_nonzero (x :: xs) = x.nonzero_channels + count_nonzero xs := by
      simp [count_nonzero]
    rw [this, Nat.add_eq_zero_iff, ih, nonzero_channels_eq_zero]
    simp

theorem count_nonzero_le (data : List RGB) : count_nonzero data ≤ 3 * data.length := by
  induction data with
  | nil => simp [count_nonzero]
  | cons x xs ih =>
    have : count_nonzero (x :: xs) = x.nonzero_channels + count_nonzero xs := by
      simp [count_nonzero]
    have := nonzero_channels_le x
    simp only [List.length_cons]
    omega

/-- For at most 85 LEDs the 8-bit return value of `intensity_halve` is the
exact recount. -/
theorem intensity_halve_exact (data : List RGB) (h : data.length ≤ 85) :
    intensity_halve data data.length =
      (data.map RGB.halve, count_nonzero (data.map RGB.halve)) := by
  rw [intensity_halve_eq]
  have := count_nonzero_le (data.map RGB.halve)
  rw [List.length_map] at this
  rw [Nat.mod_eq_of_lt (by omega)]



theorem halve_iterate (k : Nat) (c : RGB) :
    RGB.halve^[k] c = ⟨c.green / 2 ^ k, c.red / 2 ^ k, c.blue / 2 ^ k⟩ := by
  induction k with
  | zero => simp
  | succ k ih =>
    rw [Function.iterate_succ_apply', ih]
    simp [RGB.halve, Nat.div_div_eq_div_mul, pow_succ]

theorem intensity_halve_times_eq (k : Nat) : ∀ data : List RGB,
    intensity_halve_times k data data.length = data.map (RGB.halve^[k]) := by
  induction k with
  | zero => intro data; simp [intensity_halve_times]
  | succ k ih =>
    intro data
    rw [intensity_halve_times, intensity_halve_eq]
    have h := ih (data.map RGB.halve)
    rw [List.length_map] at h
    rw [h, List.map_map]
    rfl


theorem fill_rainbow_loop_append (nic : Nat) (l1 l2 : List Nat) : ∀ s : RainbowLoop,
    fill_rainbow_loop nic (l1 ++ l2) s =
      (fill_rainbow_loop nic l1 s).bind (fill_rainbow_loop nic l2) := by
  induction l1 with
  | nil => intro s; rfl
  | cons i is ih =>
    intro s
    simp only [List.cons_append, fill_rainbow_loop]
    cases fill_rainbow_body nic s i with
    | none => rfl
    | some s1 => exact ih s1

theorem fill_rainbow_body_colour (s s1 : RainbowLoop) (i : Nat)
    (h : fill_rainbow_body 6 s i = some s1) :
    s1.current_colour = if i % 6 = 5 then (s.current_colour + 1) % 256 else s.current_colour := by
  unfold fill_rainbow_body at h
  simp only [show (6 : Nat) ≠ 0 by decide, if_false] at h
  split at h
  · exact Option.noConfusion h
  · split at h
    · injection h with h
      rw [← h]
    · exact Option.noConfusion h

theorem fill_rainbow_loop_colour (s0 : RainbowLoop) (h0 : s0.current_colour = 0) (n : Nat) :
    n ≤ 18 → ∀ s, fill_rainbow_loop 6 (List.range n) s0 = some s → s.current_colour = n / 6 := by
  induction n with
  | zero =>
    intro _ s hs
    simp only [List.range_zero, fill_rainbow_loop, Option.some.injEq] at hs
    rw [← hs, h0]
  | succ n ih =>
    intro hn s hs
    rw [List.range_succ, fill_rainbow_loop_append] at hs
    cases h1 : fill_rainbow_loop 6 (List.range n) s0 with
    | none => rw [h1] at hs; exact Option.noConfusion hs
    | some s1 =>
      rw [h1] at hs
      simp only [Option.some_bind, fill_rainbow_loop] at hs
      cases h2 : fill_rainbow_body 6 s1 n with
      | none => rw [h2] at hs; exact Option.noConfusion hs
      | some s2 =>
        rw [h2] at hs
        simp only [Option.some.injEq] at hs
        have hc := fill_rainbow_body_colour s1 s2 n h2
        have hi := ih (by omega) s1 h1
        rw [← hs, hc, hi]
        split_ifs <;> omega

theorem fill_rainbow_body_18 (s : RainbowLoop) (h : s.current_colour = 3) :
    fill_rainbow_body 6 s 18 = none := by
  simp [fill_rainbow_body, triplet_store, h]

theorem TIM0_COMPA_vect_frozen (s : Shared) (b : Bool)
    (hack : s.button_press_acknowledged = 0) (hdemo : s.demo_mode = 0) :
    TIM0_COMPA_vect s b = s := by
  simp [TIM0_COMPA_vect, demo_section, hack, hdemo]

theorem ISR_run_const_from (f : Nat → Bool) (s0 : Shared) (m : Nat)
    (hfix : ∀ k, m ≤ k → TIM0_COMPA_vect (ISR_run f m s0) (f k) = ISR_run f m s0) :
    ∀ n, m ≤ n → ISR_run f n s0 = ISR_run f m s0 := by
  intro n hn
  induction n, hn using Nat.le_induction with
  | base => rfl
  | succ k hk ih =>
    rw [ISR_run, ih]
    exact hfix k hk

set_option maxRecDepth 100000 in
theorem five_tick_run : ∀ n, n < 101 →
    (ISR_run (fun k => decide (k < 5)) n Shared.init).debounce_fields = (0, 0, 0, n, 1) := by
  decide

set_option maxRecDepth 100000 in
theorem five_tick_run_101 :
    ISR_run (fun k => decide (k < 5)) 101 Shared.init = Shared.init := by
  decide

set_option maxRecDepth 100000 in
theorem held_run : ∀ n, n < 101 →
    (ISR_run (fun _ => true) n Shared.init).debounce_fields =
      (0, if 11 ≤ n then 1 else 0, 0, n, 1) := by
  decide

set_option maxRecDepth 100000 in
theorem held_run_101 :
    ISR_run (fun _ => true) 101 Shared.init =
      { Shared.init with long_press := 1, button_press_acknowledged := 0 } := by
  decide

set_option maxRecDepth 100000 in
theorem eleven_tick_run : ∀ n, n < 46 →
    (ISR_run (fun k => decide (k < 11)) n Shared.init).debounce_fields =
      (0, if 11 ≤ n then 1 else 0, 0, n, 1) := by
  decide

set_option maxRecDepth 100000 in
theorem eleven_tick_run_46 :
    ISR_run (fun k => decide (k < 11)) 46 Shared.init =
      { Shared.init with short_press := 1, button_press_acknowledged := 0 } := by
  decide

theorem demo_section_debounce_fields (s : Shared) :
    (demo_section s).debounce_fields = s.debounce_fields := by
  simp only [demo_section]
  split_ifs <;> rfl

theorem TIM0_COMPA_vect_debounce_fields (s : Shared) (b : Bool) :
    (TIM0_COMPA_vect s b).debounce_fields =
      (if s.button_press_acknowledged ≠ 0 then debounce_switch s b else s).debounce_fields := by
  unfold TIM0_COMPA_vect
  rw [demo_section_debounce_fields]

theorem TIM0_COMPA_vect_demo (s : Shared) (b : Bool) :
    (TIM0_COMPA_vect s b).demo_mode = s.demo_mode ∧
    (TIM0_COMPA_vect s b).demo_time_counter =
      (if s.demo_mode ≠ 0 then
        (if (s.demo_time_counter + 1) % 65536 = DEMO_TIME_COUNT then 0
         else (s.demo_time_counter + 1) % 65536)
       else s.demo_time_counter) ∧
    (TIM0_COMPA_vect s b).next_pattern =
      (if s.demo_mode ≠ 0 ∧ (s.demo_time_counter + 1) % 65536 = DEMO_TIME_COUNT then 1
       else s.next_pattern) := by
  have hsw : (debounce_switch s b).demo_mode = s.demo_mode ∧
      (debounce_switch s b).demo_time_counter = s.demo_time_counter ∧
      (debounce_switch s b).next_pattern = s.next_pattern := by
    simp only [debounce_switch]
    split_ifs <;> exact ⟨rfl, rfl, rfl⟩
  have hpre : ∀ t : Shared, t.demo_mode = s.demo_mode → t.demo_time_counter = s.demo_time_counter →
      t.next_pattern = s.next_pattern →
      (demo_section t).demo_mode = s.demo_mode ∧
      (demo_section t).demo_time_counter =
        (if s.demo_mode ≠ 0 then
          (if (s.demo_time_counter + 1) % 65536 = DEMO_TIME_COUNT then 0
           else (s.demo_time_counter + 1) % 65536)
         else s.demo_time_counter) ∧
      (demo_section t).next_pattern =
        (if s.demo_mode ≠ 0 ∧ (s.demo_time_counter + 1) % 65536 = DEMO_TIME_COUNT then 1
         else s.next_pattern) := by
    intro t h1 h2 h3
    simp only [demo_section, h1, h2]
    by_cases hd : s.demo_mode = 0
    · simp [hd, h1, h2, h3]
    · by_cases hc : (s.demo_time_counter + 1) % 65536 = DEMO_TIME_COUNT
      · simp [hd, hc, h1]
      · simp [hd, hc, h1, h3]
  unfold TIM0_COMPA_vect
  by_cases hack : s.button_press_acknowledged = 0
  · simp only [hack, ne_eq, not_true_eq_false, if_false]
    exact hpre s rfl rfl rfl
  · simp only [hack, ne_eq, not_false_eq_true, if_true]
    exact hpre _ hsw.1 hsw.2.1 hsw.2.2

theorem demo_stuck_step (s : Shared) (st : Step)
    (h : s.button_press_acknowledged = 0 ∧ s.short_press = 1 ∧ s.long_press = 0 ∧
      s.demo_mode = 1) :
    (system_run [st] s).button_press_acknowledged = 0 ∧ (system_run [st] s).short_press = 1 ∧
      (system_run [st] s).long_press = 0 ∧ (system_run [st] s).demo_mode = 1 := by
  obtain ⟨h1, h2, h3, h4⟩ := h
  cases st with
  | tick b =>
    simp only [system_run, TIM0_COMPA_vect, h1, ne_eq, not_true_eq_false, if_false, demo_section,
      h4, one_ne_zero, not_false_eq_true, if_true]
    split_ifs <;> simp [h1, h2, h3, h4]
  | main_pass =>
    simp [system_run, main_events, h1, h2, h3, h4]

theorem demo_stuck_run (steps : List Step) : ∀ s : Shared,
    s.button_press_acknowledged = 0 ∧ s.short_press = 1 ∧ s.long_press = 0 ∧ s.demo_mode = 1 →
    (system_run steps s).button_press_acknowledged = 0 ∧ (system_run steps s).short_press = 1 ∧
      (system_run steps s).long_press = 0 ∧ (system_run steps s).demo_mode = 1 := by
  induction steps with
  | nil => intro s h; exact h
  | cons st steps ih =>
    intro s h
    have h1 := demo_stuck_step s st h
    cases st with
    | tick b => exact ih _ h1
    | main_pass => exact ih _ h1

theorem trilobe_mask_step (data : List RGB) (num_leds status : Nat) (g : Globals) (p : Nat)
    (hs : status ≠ PATTERN_STATUS_NEW) (hc : g.pattern_counter = p % 16)
    (hm : g.trilobe_initial_state = 56 >>> ((p / 16) % 6)) :
    (trilobe data num_leds status g).status ≠ PATTERN_STATUS_NEW ∧
    (trilobe data num_leds status g).g.pattern_counter = (p + 1) % 16 ∧
    (trilobe data num_leds status g).g.trilobe_initial_state = 56 >>> (((p + 1) / 16) % 6) := by
  simp only [trilobe, if_neg hs, COLOUR_WALK_COUNT, hc, hm, TRILOBE_INITIAL_STATE]
  by_cases h15 : p % 16 = 15
  · simp only [h15, if_true]
    obtain ⟨k, hk, hkeq⟩ : ∃ k, k < 6 ∧ (p / 16) % 6 = k := ⟨_, Nat.mod_lt _ (by decide), rfl⟩
    have hk1 : ((p + 1) / 16) % 6 = (k + 1) % 6 := by omega
    rw [hkeq, hk1]
    refine ⟨by decide, by omega, ?_⟩
    interval_cases k <;> decide
  · simp only [h15, if_false]
    have hk1 : (p + 1) / 16 = p / 16 := by omega
    rw [hk1]
    exact ⟨by decide, by omega, rfl⟩

theorem tricircle_mask_step (rand : Nat → Nat) (data : List RGB) (num_leds status : Nat)
    (colour_type : Nat) (hct : colour_type < 4) (g : Globals) (p : Nat)
    (hs : status ≠ PATTERN_STATUS_NEW) (hc : g.pattern_counter = p % 16)
    (hm : g.trilobe_initial_state = 8 >>> ((p / 16) % 4)) :
    ∃ o, tricircle rand data num_leds status colour_type g = some o ∧
      o.status ≠ PATTERN_STATUS_NEW ∧ o.g.pattern_counter = (p + 1) % 16 ∧
      o.g.trilobe_initial_state = 8 >>> (((p + 1) / 16) % 4) := by
  obtain ⟨c, hcol⟩ : ∃ c, (get_colour_from_parameter rand colour_type g).1 = some c := by
    unfold get_colour_from_parameter
    simp only [SINGLE_COLOUR_RED, SINGLE_COLOUR_GREEN, SINGLE_COLOUR_BLUE, SINGLE_COLOUR_RANDOM]
    rcases lt_four_cases colour_type hct with rfl | rfl | rfl | rfl <;> simp
  have hg : (get_colour_from_parameter rand colour_type g).2.trilobe_initial_state =
      g.trilobe_initial_state := by
    simp only [get_colour_from_parameter, random_triplet, random_byte]
    split_ifs <;> rfl
  simp only [tricircle, hcol, if_neg hs, COLOUR_WALK_COUNT, hc, hm, TRICIRCLE_INITIAL_STATE]
  by_cases h15 : p % 16 = 15
  · simp only [h15, if_true]
    obtain ⟨k, hk, hkeq⟩ : ∃ k, k < 4 ∧ (p / 16) % 4 = k := ⟨_, Nat.mod_lt _ (by decide), rfl⟩
    have hk1 : ((p + 1) / 16) % 4 = (k + 1) % 4 := by omega
    rw [hkeq, hk1]
    refine ⟨_, rfl, ?_, by show 0 = (p + 1) % 16; omega, ?_⟩
    · show PATTERN_STATUS_REFRESH ≠ PATTERN_STATUS_NEW
      decide
    · show (if 8 >>> k >>> 1 = 0 then 8 else 8 >>> k >>> 1) = 8 >>> ((k + 1) % 4)
      interval_cases k <;> decide
  · simp only [h15, if_false]
    have hk1 : (p + 1) / 16 = p / 16 := by omega
    rw [hk1]
    refine ⟨_, rfl, ?_, by show (p % 16 + 1) % 256 = (p + 1) % 16; omega, ?_⟩
    · show PATTERN_STATUS_NOCHANGE ≠ PATTERN_STATUS_NEW
      decide
    · show (get_colour_from_parameter rand colour_type g).2.trilobe_initial_state = _
      rw [hg, hm]

theorem pattern_run_mask (pf : patternfunc) (rand : Nat → Nat) (seed period : Nat)
    (hstep : ∀ (data : List RGB) (status : Nat) (g : Globals) (p : Nat),
      status ≠ PATTERN_STATUS_NEW → g.pattern_counter = p % 16 →
      g.trilobe_initial_state = seed >>> ((p / 16) % period) →
      ∃ o, run_pattern pf rand data NUM_LEDS status g = some o ∧
        o.status ≠ PATTERN_STATUS_NEW ∧ o.g.pattern_counter = (p + 1) % 16 ∧
        o.g.trilobe_initial_state = seed >>> (((p + 1) / 16) % period)) (n : Nat) :
    ∀ (o : Out) (p : Nat), o.status ≠ PATTERN_STATUS_NEW → o.g.pattern_counter = p % 16 →
      o.g.trilobe_initial_state = seed >>> ((p / 16) % period) →
      ∃ o1, pattern_run pf rand n o = some o1 ∧
        o1.g.trilobe_initial_state = seed >>> (((p + n) / 16) % period) := by
  induction n with
  | zero => intro o p _ _ hm; exact ⟨o, rfl, hm⟩
  | succ n ih =>
    intro o p hs hc hm
    obtain ⟨o1, ho1, hs1, hc1, hm1⟩ := hstep o.data o.status o.g p hs hc hm
    obtain ⟨o2, ho2, hm2⟩ := ih o1 (p + 1) hs1 hc1 hm1
    refine ⟨o2, by simp only [pattern_run, ho1]; exact ho2, ?_⟩
    rw [hm2, show p + 1 + n = p + (n + 1) by omega]

theorem tricircle_new_globals (rand : Nat → Nat) (data : List RGB) (num_leds : Nat)
    (colour_type : Nat) (hct : colour_type < 4) (g : Globals) :
    ∃ o, tricircle rand data num_leds PATTERN_STATUS_NEW colour_type g = some o ∧
      o.status ≠ PATTERN_STATUS_NEW ∧ o.g.pattern_counter = 0 ∧
      o.g.trilobe_initial_state = TRICIRCLE_INITIAL_STATE := by
  obtain ⟨c, hcol⟩ : ∃ c, (get_colour_from_parameter rand colour_type g).1 = some c := by
    unfold get_colour_from_parameter
    simp only [SINGLE_COLOUR_RED, SINGLE_COLOUR_GREEN, SINGLE_COLOUR_BLUE, SINGLE_COLOUR_RANDOM]
    rcases lt_four_cases colour_type hct with rfl | rfl | rfl | rfl <;> simp
  simp only [tricircle, hcol, if_true]
  exact ⟨_, rfl, by show PATTERN_STATUS_REFRESH ≠ PATTERN_STATUS_NEW; decide, rfl, rfl⟩

theorem reveal_mask_run (pf : patternfunc) (hpf : pf ∈ pattern_functions) (seed : Nat)
    (hseed : pf.mask_seed = some seed) (rand : Nat → Nat) (data : List RGB) (g : Globals)
    (n : Nat) :
    ∃ o, pattern_run pf rand (n + 1) ⟨PATTERN_STATUS_NEW, data, g⟩ = some o ∧
      o.g.trilobe_initial_state = seed >>> ((n / 16) % highest_set_bit seed) := by
  have harg := table_colour_arg pf hpf
  cases pf with
  | trilobe =>
    simp only [patternfunc.mask_seed, Option.some.injEq] at hseed
    subst hseed
    have hrun := pattern_run_mask .trilobe rand 56 6
      (fun d st gl p hs hc hm => ⟨_, rfl, trilobe_mask_step d NUM_LEDS st gl p hs hc hm⟩) n
      (trilobe data NUM_LEDS PATTERN_STATUS_NEW g) 0
      (by simp [trilobe, PATTERN_STATUS_REFRESH, PATTERN_STATUS_NEW]) rfl rfl
    obtain ⟨o1, ho1, hm1⟩ := hrun
    refine ⟨o1, ho1, ?_⟩
    rw [hm1, Nat.zero_add]
    rfl
  | tricircle colour_type =>
    simp only [patternfunc.mask_seed, Option.some.injEq] at hseed
    subst hseed
    obtain ⟨o0, ho0, hs0, hc0, hm0⟩ :=
      tricircle_new_globals rand data NUM_LEDS colour_type harg g
    have hrun := pattern_run_mask (.tricircle colour_type) rand 8 4
      (fun d st gl p hs hc hm => tricircle_mask_step rand d NUM_LEDS st colour_type harg gl p
        hs hc hm) n o0 0 hs0 hc0 hm0
    obtain ⟨o1, ho1, hm1⟩ := hrun
    refine ⟨o1, ?_, ?_⟩
    · simp only [pattern_run, run_pattern, ho0]
      exact ho1
    · rw [hm1, Nat.zero_add]
      rfl
  | fill_single_colour mode => exact Option.noConfusion hseed
  | rainbow counter => exact Option.noConfusion hseed
  | rainbow_wheel => exact Option.noConfusion hseed
  | fade_colours colour_type => exact Option.noConfusion hseed
  | crazy => exact Option.noConfusion hseed
  | walking_colour colour_type => exact Option.noConfusion hseed
  | walking_bar colour_type => exact Option.noConfusion hseed

theorem mask_seed_cases (pf : patternfunc) (seed : Nat) (hseed : pf.mask_seed = some seed) :
    seed = 56 ∨ seed = 8 := by
  cases pf <;> simp [patternfunc.mask_seed, TRILOBE_INITIAL_STATE, TRICIRCLE_INITIAL_STATE]
    at hseed <;> omega

set_option maxRecDepth 100000 in
theorem demo_short_press_trace_run :
    system_run demo_short_press_trace Shared.init = demo_stuck_state := by
  decide

theorem trilobe_group_table :
    (List.range 18).map (group_of trilobe_groups) =
      [2, 2, 2, 2, 2, 2, 1, 1, 1, 1, 1, 1, 0, 0, 0, 0, 0, 0] := by
  decide

theorem tricircle_group_table :
    (List.range 18).map (group_of tricircle_fill_funcs) =
      [0, 1, 2, 1, 0, 2, 1, 0, 2, 1, 0, 2, 1, 0, 2, 1, 0, 2] := by
  decide

theorem trilobe_cadence_data (m : Nat) (data : List RGB) (hd : data.length = 18) :
    (List.range 3).foldl (trilobe_bit m) data =
      (List.range 18).map (fun i =>
        if IS_BIT_SET m (group_of trilobe_groups i) then
          trilobe_colours.getD (group_of trilobe_groups i) blank
        else blank) := by
  obtain ⟨a0, a1, a2, a3, a4, a5, a6, a7, a8, a9, a10, a11, a12, a13, a14, a15, a16, a17, rfl⟩ := length_eq_18 data hd
  have ht := trilobe_group_table
  simp only [range_18, List.map_cons, List.map_nil, List.cons.injEq, and_true] at ht
  obtain ⟨h0, h1, h2, h3, h4, h5, h6, h7, h8, h9, h10, h11, h12, h13, h14, h15, h16, h17⟩ := ht
  simp only [range_18, List.map_cons, List.map_nil, h0, h1, h2, h3, h4, h5, h6, h7, h8, h9, h10,
    h11, h12, h13, h14, h15, h16, h17]
  by_cases b0 : IS_BIT_SET m 0 <;> by_cases b1 : IS_BIT_SET m 1 <;>
    by_cases b2 : IS_BIT_SET m 2 <;>
    simp [trilobe_bit, trilobe_fill_funcs, trilobe_colours, fill_range_colour, b0, b1, b2,
      show List.range 3 = [0, 1, 2] by decide,
      show List.range 6 = [0, 1, 2, 3, 4, 5] by decide]

theorem tricircle_cadence_data (colour : RGB) (m : Nat) (data : List RGB)
    (hd : data.length = 18) :
    (List.range 3).foldl (tricircle_bit colour m) data =
      (List.range 18).map (fun i =>
        if IS_BIT_SET m (group_of tricircle_fill_funcs i) then colour else blank) := by
  obtain ⟨a0, a1, a2, a3, a4, a5, a6, a7, a8, a9, a10, a11, a12, a13, a14, a15, a16, a17, rfl⟩ := length_eq_18 data hd
  have ht := tricircle_group_table
  simp only [range_18, List.map_cons, List.map_nil, List.cons.injEq, and_true] at ht
  obtain ⟨h0, h1, h2, h3, h4, h5, h6, h7, h8, h9, h10, h11, h12, h13, h14, h15, h16, h17⟩ := ht
  simp only [range_18, List.map_cons, List.map_nil, h0, h1, h2, h3, h4, h5, h6, h7, h8, h9, h10,
    h11, h12, h13, h14, h15, h16, h17]
  by_cases b0 : IS_BIT_SET m 0 <;> by_cases b1 : IS_BIT_SET m 1 <;>
    by_cases b2 : IS_BIT_SET m 2 <;>
    simp [tricircle_bit, tricircle_fill_funcs, fill_some_colour, b0, b1, b2,
      show List.range 3 = [0, 1, 2] by decide,
      show List.range 6 = [0, 1, 2, 3, 4, 5] by decide]



theorem trilobe_groups_member : ∀ grp, grp < 3 → ∀ i ∈ trilobe_groups.getD grp [],
    i < 18 ∧ group_of trilobe_groups i = grp := by
  decide

theorem tricircle_groups_member : ∀ grp, grp < 3 → ∀ i ∈ tricircle_fill_funcs.getD grp [],
    i < 18 ∧ group_of tricircle_fill_funcs i = grp := by
  decide

theorem getElem?_map_range (f : Nat → RGB) (n i : Nat) (hi : i < n) :
    ((List.range n).map f)[i]? = some (f i) := by
  rw [List.getElem?_map, List.getElem?_range hi]
  rfl



theorem foldl_set_cons (c x : RGB) (is : List Nat) : ∀ d : List RGB,
    (is.map (· + 1)).foldl (fun d i => d.set i c) (x :: d) =
      x :: is.foldl (fun d i => d.set i c) d := by
  induction is with
  | nil => intro d; rfl
  | cons i is ih =>
    intro d
    simp only [List.map_cons, List.foldl_cons, List.set_cons_succ]
    exact ih _

theorem foldl_set_replicate (c : RGB) (data : List RGB) :
    (List.range data.length).foldl (fun d i => d.set i c) data =
      List.replicate data.length c := by
  induction data with
  | nil => rfl
  | cons x xs ih =>
    rw [List.length_cons, List.range_succ_eq_map, List.foldl_cons, List.set_cons_zero,
      show (Nat.succ : Nat → Nat) = (· + 1) from rfl, foldl_set_cons, ih]
    rfl

theorem random_triplet_drawn (rand : Nat → Nat) (g : Globals) :
    triplet_colour (random_triplet rand g).1 = drawn_colour rand g.rand_calls ∧
    (random_triplet rand g).2 = { g with rand_calls := g.rand_calls + 3 } := by
  simp [random_triplet, random_byte, triplet_colour, drawn_colour]


theorem get_colour_random (rand : Nat → Nat) (g : Globals) :
    get_colour_from_parameter rand SINGLE_COLOUR_RANDOM g =
      (some (drawn_colour rand g.rand_calls), { g with rand_calls := g.rand_calls + 3 }) := by
  obtain ⟨hcol, hg⟩ := random_triplet_drawn rand g
  simp only [get_colour_from_parameter, SINGLE_COLOUR_RANDOM, SINGLE_COLOUR_RED,
    SINGLE_COLOUR_GREEN, SINGLE_COLOUR_BLUE, if_true, OfNat.ofNat_ne_zero, if_false,
    show (3 : Nat) ≠ 1 by decide, show (3 : Nat) ≠ 2 by decide]
  rw [← hcol, ← hg]
  rfl

theorem tricircle_new_inner (colour : RGB) (data : List RGB) (hd : data.length = 18) :
    ∀ i ∈ tricircle_fill_funcs.getD 2 [],
      (fill_some_colour data 6 (tricircle_fill_funcs.getD 2 []) colour)[i]? = some colour := by
  obtain ⟨a0, a1, a2, a3, a4, a5, a6, a7, a8, a9, a10, a11, a12, a13, a14, a15, a16, a17, rfl⟩ := length_eq_18 data hd
  simp [tricircle_fill_funcs, fill_some_colour,
    show List.range 6 = [0, 1, 2, 3, 4, 5] by decide]

set_option maxRecDepth 100000 in
theorem tricircle_random_run_eval :
    (pattern_run (.tricircle SINGLE_COLOUR_RANDOM) (fun k => 4 * k) 1
        ⟨PATTERN_STATUS_NEW, uniform_buffer 0, ⟨0, 0, 0⟩⟩).map
      (fun o => (o.data[2]?, o.g.rand_calls)) =
        some (some (drawn_colour (fun k => 4 * k) 0), 3) ∧
    (pattern_run (.tricircle SINGLE_COLOUR_RANDOM) (fun k => 4 * k) 2
        ⟨PATTERN_STATUS_NEW, uniform_buffer 0, ⟨0, 0, 0⟩⟩).map
      (fun o => (o.status, o.g.rand_calls)) = some (PATTERN_STATUS_NOCHANGE, 6) ∧
    (pattern_run (.tricircle SINGLE_COLOUR_RANDOM) (fun k => 4 * k) 17
        ⟨PATTERN_STATUS_NEW, uniform_buffer 0, ⟨0, 0, 0⟩⟩).map
      (fun o => (o.data[2]?, o.g.rand_calls)) =
        some (some (drawn_colour (fun k => 4 * k) 48), 51) ∧
    drawn_colour (fun k => 4 * k) 48 ≠ drawn_colour (fun k => 4 * k) 0 := by
  decide

theorem main_state_at_succ (rand : Nat → Nat) (ticks : Nat → List Bool) (st0 : MainState)
    (k : Nat) (s1 : MainState) (h : main_state_at rand ticks st0 (k + 1) = some s1) :
    ∃ s o, main_state_at rand ticks st0 k = some s ∧ main_call rand s = some o ∧
      s1.pattern_status = (main_after_call s o).pattern_status ∧
      s1.current_pattern = (main_after_call s o).current_pattern ∧
      s1.fading = (main_after_call s o).fading := by
  simp only [main_state_at] at h
  cases hk : main_state_at rand ticks st0 k with
  | none => rw [hk] at h; exact absurd h (by simp)
  | some s =>
    rw [hk] at h
    simp only [main_loop_pass] at h
    cases hc : main_call rand s with
    | none => rw [hc] at h; exact absurd h (by simp)
    | some o =>
      rw [hc] at h
      simp only [Option.some.injEq] at h
      subst h
      exact ⟨s, o, rfl, hc, rfl, rfl, rfl⟩

theorem main_after_call_taken (s : MainState) (o : Out) (h : request_taken s = true) :
    (main_after_call s o).pattern_status = PATTERN_STATUS_NEW ∧
    (main_after_call s o).current_pattern =
      (if (s.current_pattern + 1) % 256 = NUM_PATTERNS then 0
        else (s.current_pattern + 1) % 256) ∧
    (main_after_call s o).fading = 1 := by
  have h1 : (main_events s.shared).next_pattern ≠ 0 := by
    simpa [request_taken] using h
  simp only [main_after_call, if_pos h1, and_self]

theorem main_after_call_not_taken (s : MainState) (o : Out) (h : request_taken s = false) :
    (main_after_call s o).pattern_status =
      (if o.status = PATTERN_STATUS_FADE_DONE then PATTERN_STATUS_NEW else o.status) ∧
    (main_after_call s o).current_pattern = s.current_pattern ∧
    (main_after_call s o).fading =
      (if o.status = PATTERN_STATUS_FADE_DONE then 0 else s.fading) := by
  have h1 : ¬ (main_events s.shared).next_pattern ≠ 0 := by
    simpa [request_taken] using h
  simp only [main_after_call, if_neg h1, and_self]

theorem main_index_step (c : Nat) (hc : c < NUM_PATTERNS) :
    (if (c + 1) % 256 = NUM_PATTERNS then 0 else (c + 1) % 256) = (c + 1) % NUM_PATTERNS := by
  simp only [NUM_PATTERNS] at *
  split_ifs <;> omega

theorem main_index_lt (rand : Nat → Nat) (ticks : Nat → List Bool) (st0 : MainState)
    (h0 : st0.current_pattern < NUM_PATTERNS) :
    ∀ k s, main_state_at rand ticks st0 k = some s → s.current_pattern < NUM_PATTERNS := by
  intro k
  induction k with
  | zero =>
    intro s hs
    simp only [main_state_at, Option.some.injEq] at hs
    subst hs
    exact h0
  | succ k ih =>
    intro s1 hs1
    obtain ⟨s, o, hs, _, _, hcp, _⟩ := main_state_at_succ rand ticks st0 k s1 hs1
    have hlt := ih s hs
    cases ht : request_taken s with
    | true =>
      rw [hcp, (main_after_call_taken s o ht).2.1, main_index_step _ hlt]
      exact Nat.mod_lt _ (by decide)
    | false =>
      rw [hcp, (main_after_call_not_taken s o ht).2.1]
      exact hlt

theorem taken_upto_succ (rand : Nat → Nat) (ticks : Nat → List Bool) (st0 : MainState)
    (n : Nat) (s : MainState) (hs : main_state_at rand ticks st0 n = some s) :
    taken_upto rand ticks st0 (n + 1) =
      taken_upto rand ticks st0 n + (if request_taken s then 1 else 0) := by
  simp only [taken_upto, hs]

theorem taken_upto_mono (rand : Nat → Nat) (ticks : Nat → List Bool) (st0 : MainState)
    (i : Nat) : ∀ d, taken_upto rand ticks st0 i ≤ taken_upto rand ticks st0 (i + d) := by
  intro d
  induction d with
  | zero => exact Nat.le_refl _
  | succ d ih =>
    show _ ≤ taken_upto rand ticks st0 (i + d) + _
    exact Nat.le_trans ih (Nat.le_add_right _ _)

theorem main_index_advance (rand : Nat → Nat) (ticks : Nat → List Bool) (st0 : MainState)
    (h0 : st0.current_pattern < NUM_PATTERNS) (i : Nat) (si : MainState)
    (hi : main_state_at rand ticks st0 i = some si) :
    ∀ d s, main_state_at rand ticks st0 (i + d) = some s →
      s.current_pattern =
        (si.current_pattern +
          (taken_upto rand ticks st0 (i + d) - taken_upto rand ticks st0 i)) % NUM_PATTERNS := by
  intro d
  induction d with
  | zero =>
    intro s hs
    rw [Nat.add_zero] at hs
    rw [hi] at hs
    simp only [Option.some.injEq] at hs
    subst hs
    rw [Nat.add_zero, Nat.sub_self, Nat.add_zero,
      Nat.mod_eq_of_lt (main_index_lt rand ticks st0 h0 i si hi)]
  | succ d ih =>
    intro s1 hs1
    obtain ⟨s, o, hs, _, _, hcp, _⟩ := main_state_at_succ rand ticks st0 (i + d) s1 hs1
    have hlt := main_index_lt rand ticks st0 h0 (i + d) s hs
    have hmono := taken_upto_mono rand ticks st0 i d
    have hstep : taken_upto rand ticks st0 (i + (d + 1)) =
        taken_upto rand ticks st0 (i + d) + (if request_taken s then 1 else 0) := by
      exact taken_upto_succ rand ticks st0 (i + d) s hs
    rw [hstep]
    cases ht : request_taken s with
    | true =>
      show s1.current_pattern = _
      rw [hcp, (main_after_call_taken s o ht).2.1, main_index_step _ hlt, ih s hs]
      simp only [if_true, NUM_PATTERNS]
      omega
    | false =>
      rw [hcp, (main_after_call_not_taken s o ht).2.1, ih s hs]
      simp

theorem main_fade_done_before (rand : Nat → Nat) (ticks : Nat → List Bool) (st0 : MainState)
    (i : Nat) (si : MainState) (hi : main_state_at rand ticks st0 i = some si)
    (hreq : request_taken si = true) :
    ∀ d s, main_state_at rand ticks st0 (i + 1 + d) = some s → s.fading = 0 →
      ∃ p sp, i < p ∧ p < i + 1 + d ∧ main_state_at rand ticks st0 p = some sp ∧
        sp.fading ≠ 0 ∧
        main_call rand sp = some (fade_down sp.led_data NUM_LEDS sp.pattern_status sp.g) ∧
        (fade_down sp.led_data NUM_LEDS sp.pattern_status sp.g).status =
          PATTERN_STATUS_FADE_DONE := by
  intro d
  induction d with
  | zero =>
    intro s hs hf
    obtain ⟨s0, o, hs0, _, _, _, hfad⟩ := main_state_at_succ rand ticks st0 i s hs
    rw [hi] at hs0
    simp only [Option.some.injEq] at hs0
    subst hs0
    rw [hfad, (main_after_call_taken _ o hreq).2.2] at hf
    exact absurd hf (by decide)
  | succ d ih =>
    intro s1 hs1 hf1
    obtain ⟨s, o, hs, hcall, _, _, hfad⟩ :=
      main_state_at_succ rand ticks st0 (i + 1 + d) s1 hs1
    by_cases hf : s.fading = 0
    · obtain ⟨p, sp, h1, h2, h3⟩ := ih s hs hf
      exact ⟨p, sp, h1, by omega, h3⟩
    · have hcall2 : main_call rand s =
          some (fade_down s.led_data NUM_LEDS s.pattern_status s.g) := by
        simp only [main_call, if_neg hf]
      refine ⟨i + 1 + d, s, by omega, by omega, hs, hf, hcall2, ?_⟩
      rw [hcall2] at hcall
      simp only [Option.some.injEq] at hcall
      cases ht : request_taken s with
      | true =>
        rw [hfad, (main_after_call_taken s o ht).2.2] at hf1
        exact absurd hf1 (by decide)
      | false =>
        rw [hfad, (main_after_call_not_taken s o ht).2.2] at hf1
        rw [hcall]
        by_contra hne
        rw [if_neg hne] at hf1
        exact hf hf1

theorem main_first_call_new (rand : Nat → Nat) (ticks : Nat → List Bool) (st0 : MainState)
    (j : Nat) (sp sj : MainState) (hp : main_state_at rand ticks st0 j = some sp)
    (hpf : sp.fading ≠ 0) (hj : main_state_at rand ticks st0 (j + 1) = some sj)
    (hjf : sj.fading = 0) : sj.pattern_status = PATTERN_STATUS_NEW := by
  obtain ⟨s, o, hs, _, hst, _, hfad⟩ := main_state_at_succ rand ticks st0 j sj hj
  rw [hp] at hs
  simp only [Option.some.injEq] at hs
  subst hs
  cases ht : request_taken sp with
  | true => exact hst.trans (main_after_call_taken sp o ht).1
  | false =>
    rw [hfad, (main_after_call_not_taken sp o ht).2.2] at hjf
    rw [hst, (main_after_call_not_taken sp o ht).1]
    by_cases hd : o.status = PATTERN_STATUS_FADE_DONE
    · rw [if_pos hd]
    · rw [if_neg hd] at hjf
      exact absurd hjf hpf

set_option maxRecDepth 100000 in
theorem press_sample_run :
    main_state_at (fun _ => 0) (fun _ => []) press_sample 23 = some faded_sample := by
  decide


theorem asm_run_add (a : Nat) : ∀ (b : Nat) (s : AsmState),
    asm_run (a + b) s = asm_run b (asm_run a s) := by
  induction a with
  | zero => intro b s; rw [Nat.zero_add]; rfl
  | succ a ih =>
    intro b s
    rw [show a + 1 + b = (a + b) + 1 by omega]
    show asm_run (a + b) (asm_step s) = asm_run b (asm_run a (asm_step s))
    exact ih b (asm_step s)

theorem asm_run_end (k : Nat) : ∀ s : AsmState, s.pc = 26 → asm_run k s = s := by
  induction k with
  | zero => intro s _; rfl
  | succ k ih =>
    intro s hs
    have h1 : asm_step s = s := by
      obtain ⟨pc, lc, d, cr, z, c, p⟩ := s
      simp only at hs
      subst hs
      rfl
    show asm_run k (asm_step s) = s
    rw [h1]
    exact ih s hs

theorem asm_bit (n d c : Nat) (cr z : Bool) (p : List (Nat × Bool))
    (hn : (n + 255) % 256 ≠ 0) :
    asm_run 23 ⟨1, n, d, cr, z, c, p⟩ =
      ⟨1, (n + 255) % 256, (d * 2) % 256, decide (128 ≤ d % 256), false, c + 25,
        (bit_writes c (decide (128 ≤ d % 256))).reverse ++ p⟩ := by
  by_cases h : 128 ≤ d % 256
  · simp [asm_run, asm_step, send_data_asm, bit_writes, h, hn]
  · simp [asm_run, asm_step, send_data_asm, bit_writes, h, hn]

theorem asm_last_bit (n d c : Nat) (cr z : Bool) (p : List (Nat × Bool))
    (hn : (n + 255) % 256 = 0) :
    asm_run 18 ⟨1, n, d, cr, z, c, p⟩ =
      ⟨26, 0, (d * 2) % 256, decide (128 ≤ d % 256), true, c + 20,
        (bit_writes c (decide (128 ≤ d % 256))).reverse ++ p⟩ := by
  by_cases h : 128 ≤ d % 256
  · simp [asm_run, asm_step, send_data_asm, bit_writes, h, hn]
  · simp [asm_run, asm_step, send_data_asm, bit_writes, h, hn]

theorem send_bits_succ_succ (n d : Nat) :
    send_bits (n + 2) d = decide (128 ≤ d % 256) :: send_bits (n + 1) ((d * 2) % 256) := by
  simp [send_bits]

theorem send_bits_one (d : Nat) : send_bits 1 d = [decide (128 ≤ d % 256)] := by
  simp [send_bits]

theorem asm_loop (n : Nat) : ∀ (d c : Nat) (cr z : Bool) (p : List (Nat × Bool)), n + 1 < 256 →
    (asm_run (23 * n + 18) ⟨1, n + 1, d, cr, z, c, p⟩).pc = 26 ∧
    (asm_run (23 * n + 18) ⟨1, n + 1, d, cr, z, c, p⟩).cycles = c + 25 * n + 20 ∧
    (asm_run (23 * n + 18) ⟨1, n + 1, d, cr, z, c, p⟩).port =
      (byte_writes c (send_bits (n + 1) d)).reverse ++ p := by
  induction n with
  | zero =>
    intro d c cr z p _
    show (asm_run 18 ⟨1, 1, d, cr, z, c, p⟩).pc = 26 ∧
      (asm_run 18 ⟨1, 1, d, cr, z, c, p⟩).cycles = c + 25 * 0 + 20 ∧
      (asm_run 18 ⟨1, 1, d, cr, z, c, p⟩).port = (byte_writes c (send_bits 1 d)).reverse ++ p
    rw [asm_last_bit 1 d c cr z p (by decide), send_bits_one]
    simp [byte_writes]
  | succ n ih =>
    intro d c cr z p hn
    have hfuel : 23 * (n + 1) + 18 = 23 + (23 * n + 18) := by omega
    have hlc : (n + 1 + 1 + 255) % 256 = n + 1 := by omega
    rw [hfuel, asm_run_add, asm_bit (n + 1 + 1) d c cr z p (by omega), hlc,
      send_bits_succ_succ]
    obtain ⟨h1, h2, h3⟩ := ih ((d * 2) % 256) (c + 25) (decide (128 ≤ d % 256)) false
      ((bit_writes c (decide (128 ≤ d % 256))).reverse ++ p) (by omega)
    refine ⟨h1, ?_, ?_⟩
    · rw [h2]; omega
    · rw [h3]
      simp [byte_writes, List.reverse_append]

theorem pulses_byte_writes : ∀ (bs : List Bool) (c : Nat),
    pulses (byte_writes c bs) =
      (List.range bs.length).map
        (fun k => (c + 1 + 25 * k, if bs.getD k false then 16 else 8)) := by
  intro bs
  induction bs with
  | nil => intro c; rfl
  | cons b bs ih =>
    intro c
    have hstep : pulses (byte_writes c (b :: bs)) =
        (c + 1, if b then 16 else 8) :: pulses (byte_writes (c + 25) bs) := by
      cases b <;> simp [byte_writes, bit_writes, pulses]
    rw [hstep, ih (c + 25), List.length_cons, List.range_succ_eq_map, List.map_cons,
      List.map_map]
    refine congrArg₂ _ (by simp) ?_
    apply List.map_congr_left
    intro k _
    simp only [Function.comp, List.getD_cons_succ]
    congr 1
    omega

theorem asm_byte (d : Nat) :
    (asm_run 200 (asm_entry d)).pc = 26 ∧ (asm_run 200 (asm_entry d)).cycles = 196 ∧
    byte_pulses d =
      (List.range 8).map (fun b => (2 + 25 * b, if d.testBit (7 - b) then 16 else 8)) := by
  have hsplit : asm_run 200 (asm_entry d) =
      asm_run 20 (asm_run (23 * 7 + 18) ⟨1, 8, d, false, false, 1, []⟩) := by
    rw [show (200 : Nat) = 1 + ((23 * 7 + 18) + 20) by rfl, asm_run_add, asm_run_add]
    rfl
  obtain ⟨h1, h2, h3⟩ := asm_loop 7 d 1 false false [] (by decide)
  have hend := asm_run_end 20 _ h1
  rw [byte_pulses, hsplit, hend, h1, h2, h3]
  refine ⟨rfl, rfl, ?_⟩
  rw [List.append_nil, List.reverse_reverse, pulses_byte_writes, send_bits_length]
  apply List.map_congr_left
  intro k hk
  have hk8 : k < 8 := List.mem_range.mp hk
  have hget := send_bits_getElem? d k hk8
  have hD : (send_bits 8 d).getD k false = d.testBit (7 - k) := by
    rw [List.getD_eq_getElem?_getD, hget]
    rfl
  rw [hD]

theorem send_bits_eq_map (d : Nat) :
    send_bits 8 d = (List.range 8).map (fun b => d.testBit (7 - b)) := by
  apply List.ext_getElem?
  intro k
  by_cases hk : k < 8
  · rw [send_bits_getElem? d k hk, List.getElem?_map, List.getElem?_range hk]
    rfl
  · rw [List.getElem?_eq_none (by rw [send_bits_length]; omega),
      List.getElem?_eq_none (by simp; omega)]

theorem fade_down_step (o : Out) (c : Nat) (hs : o.status ≠ PATTERN_STATUS_NEW)
    (hc : o.g.pattern_counter = c) (hc3 : c < 3) (hlen : o.data.length = NUM_LEDS) :
    fade_down o.data NUM_LEDS o.status o.g =
      ⟨if (c + 1) % 3 = 0 ∧ count_nonzero (o.data.map (RGB.halve^[(c + 1) / 3])) = 0 then
          PATTERN_STATUS_FADE_DONE else PATTERN_STATUS_REFRESH,
        o.data.map (RGB.halve^[(c + 1) / 3]),
        { o.g with pattern_counter := (c + 1) % 3 }⟩ := by
  by_cases h2 : c = 2
  · subst h2
    rw [fade_down_halving _ _ _ _ hs (by rw [hc]; rfl), ← hlen,
      intensity_halve_exact _ (by rw [hlen]; decide)]
    simp only [show (2 + 1) % 3 = 0 by rfl, show (2 + 1) / 3 = 1 by rfl, Function.iterate_one,
      true_and, ne_eq, ite_not]
  · have h1 : (c + 1) % 3 = c + 1 := by omega
    have h0 : (c + 1) / 3 = 0 := by omega
    have h256 : (c + 1) % 256 = c + 1 := by omega
    rw [fade_down_tick _ _ _ _ hs (by rw [hc, h256, FADE_DELAY]; omega), hc, h256, h1, h0]
    simp

theorem fade_down_run_tick (m : Nat) : ∀ (n : Nat) (o : Out) (c : Nat), m < n →
    o.status ≠ PATTERN_STATUS_NEW → o.g.pattern_counter = c → c < 3 →
    o.data.length = NUM_LEDS →
    (fade_down_run n o)[m]? =
      some ⟨if (c + m + 1) % 3 = 0 ∧
              count_nonzero (o.data.map (RGB.halve^[(c + m + 1) / 3])) = 0 then
            PATTERN_STATUS_FADE_DONE else PATTERN_STATUS_REFRESH,
        o.data.map (RGB.halve^[(c + m + 1) / 3]),
        { o.g with pattern_counter := (c + m + 1) % 3 }⟩ := by
  induction m with
  | zero =>
    intro n o c hn hs hc hc3 hlen
    obtain ⟨n, rfl⟩ : ∃ k, n = k + 1 := ⟨n - 1, by omega⟩
    simp only [fade_down_run, List.getElem?_cons_zero, Nat.add_zero]
    rw [fade_down_step o c hs hc hc3 hlen]
  | succ m ih =>
    intro n o c hn hs hc hc3 hlen
    obtain ⟨n, rfl⟩ : ∃ k, n = k + 1 := ⟨n - 1, by omega⟩
    simp only [fade_down_run, List.getElem?_cons_succ]
    rw [fade_down_step o c hs hc hc3 hlen]
    rw [ih n _ ((c + 1) % 3) (by omega) (by simp only; split_ifs <;> decide) rfl
      (Nat.mod_lt _ (by decide)) (by simp only [List.length_map]; exact hlen)]
    have hq : (c + 1) / 3 + ((c + 1) % 3 + m + 1) / 3 = (c + (m + 1) + 1) / 3 := by omega
    have hr : ((c + 1) % 3 + m + 1) % 3 = (c + (m + 1) + 1) % 3 := by omega
    have hd : (o.data.map (RGB.halve^[(c + 1) / 3])).map
        (RGB.halve^[((c + 1) % 3 + m + 1) / 3]) =
        o.data.map (RGB.halve^[(c + (m + 1) + 1) / 3]) := by
      rw [List.map_map, ← hq, Nat.add_comm ((c + 1) / 3), Function.iterate_add]
    simp only [hd, hr]

theorem fade_down_run_new (data : List RGB) (hlen : data.length = NUM_LEDS) (g : Globals)
    (n k : Nat) (hk : k < n) :
    (fade_down_run n ⟨PATTERN_STATUS_NEW, data, g⟩)[k]? =
      some ⟨if 0 < k ∧ k % 3 = 0 ∧ count_nonzero (data.map (RGB.halve^[k / 3 + 1])) = 0 then
            PATTERN_STATUS_FADE_DONE else PATTERN_STATUS_REFRESH,
        data.map (RGB.halve^[k / 3 + 1]),
        { g with pattern_counter := k % 3 }⟩ := by
  obtain ⟨n, rfl⟩ : ∃ j, n = j + 1 := ⟨n - 1, by omega⟩
  have hfirst : fade_down data NUM_LEDS PATTERN_STATUS_NEW g =
      ⟨PATTERN_STATUS_REFRESH, data.map RGB.halve, { g with pattern_counter := 0 }⟩ := by
    rw [fade_down_new, ← hlen, intensity_halve_exact _ (by rw [hlen]; decide)]
  cases k with
  | zero =>
    simp only [fade_down_run, List.getElem?_cons_zero, hfirst]
    simp
  | succ k =>
    simp only [fade_down_run, List.getElem?_cons_succ, hfirst]
    rw [fade_down_run_tick k n _ 0 (by omega)
      (show PATTERN_STATUS_REFRESH ≠ PATTERN_STATUS_NEW by decide) rfl (by decide)
      (by simp only [List.length_map]; exact hlen)]
    have hd : (data.map RGB.halve).map (RGB.halve^[(k + 1) / 3]) =
        data.map (RGB.halve^[(k + 1) / 3 + 1]) := by
      rw [List.map_map, Function.iterate_succ]
    simp only [Nat.zero_add, Nat.succ_pos, true_and]
    rw [hd]

theorem halve_eight (c : RGB) (h : c.red < 256 ∧ c.green < 256 ∧ c.blue < 256) :
    RGB.halve^[8] c = blank := by
  rw [halve_iterate]
  obtain ⟨h1, h2, h3⟩ := h
  simp only [blank, RGB.mk.injEq]
  refine ⟨?_, ?_, ?_⟩ <;> exact Nat.div_eq_of_lt (by norm_num; assumption)

theorem fade_down_run_facts (data : List RGB) (hlen : data.length = NUM_LEDS) (g : Globals)
    (n j : Nat) (hj : j < n) :
    ∃ o, (fade_down_run n ⟨PATTERN_STATUS_NEW, data, g⟩)[j]? = some o ∧
      o.data = data.map (RGB.halve^[j / FADE_DELAY + 1]) ∧
      (o.status = PATTERN_STATUS_FADE_DONE ∨ o.status = PATTERN_STATUS_REFRESH) ∧
      (o.status = PATTERN_STATUS_FADE_DONE ↔
        (0 < j ∧ j % FADE_DELAY = 0 ∧ ∀ c ∈ o.data, c = blank)) := by
  refine ⟨_, fade_down_run_new data hlen g n j hj, rfl, ?_, ?_⟩
  · simp only
    split_ifs
    · exact Or.inl rfl
    · exact Or.inr rfl
  · simp only [FADE_DELAY, ← count_nonzero_eq_zero]
    split_ifs with h
    · exact ⟨fun _ => h, fun _ => rfl⟩
    · exact ⟨fun hc => absurd hc (by decide), fun hc => absurd hc h⟩

theorem armed_tick_counter (s : Shared) (b : Bool) (hack : s.button_press_acknowledged ≠ 0)
    (hc : s.current_debounce_count ≤ DEBOUNCE_COUNT_LONG) :
    (armed_tick s b).button_press_acknowledged ≠ 0 ∧
    (armed_tick s b).current_debounce_count ≤ DEBOUNCE_COUNT_LONG ∧
    (1 ≤ s.current_debounce_count →
      (armed_tick s b).current_debounce_count = 0 ∨
        (s.current_debounce_count < DEBOUNCE_COUNT_LONG ∧
          (armed_tick s b).current_debounce_count = s.current_debounce_count + 1)) := by
  have hd : ∀ t : Shared, (demo_section t).current_debounce_count = t.current_debounce_count := by
    intro t
    simp only [demo_section]
    split_ifs <;> rfl
  refine ⟨by simp [armed_tick], ?_⟩
  simp only [armed_tick, TIM0_COMPA_vect, if_pos hack, hd]
  simp only [DEBOUNCE_COUNT_LONG, DEBOUNCE_COUNT_MID, DEBOUNCE_COUNT_SHORT] at hc ⊢
  simp only [debounce_switch, DEBOUNCE_COUNT_LONG, DEBOUNCE_COUNT_MID, DEBOUNCE_COUNT_SHORT]
  split_ifs <;> (try dsimp only) <;> omega

theorem armed_run_invariant (button_clear : Nat → Bool) : ∀ n : Nat,
    (armed_run button_clear n Shared.init).button_press_acknowledged ≠ 0 ∧
    (armed_run button_clear n Shared.init).current_debounce_count ≤ DEBOUNCE_COUNT_LONG := by
  intro n
  induction n with
  | zero =>
    show Shared.init.button_press_acknowledged ≠ 0 ∧
      Shared.init.current_debounce_count ≤ DEBOUNCE_COUNT_LONG
    exact ⟨by decide, by decide⟩
  | succ n ih =>
    obtain ⟨h1, h2, _⟩ := armed_tick_counter (armed_run button_clear n Shared.init)
      (button_clear n) ih.1 ih.2
    exact ⟨h1, h2⟩

theorem armed_run_returns (button_clear : Nat → Bool) (r : Nat) : ∀ n c : Nat,
    (armed_run button_clear n Shared.init).current_debounce_count = c → 1 ≤ c →
    c + r = DEBOUNCE_COUNT_LONG →
    ∃ k, 1 ≤ k ∧ k ≤ r + 1 ∧
      (armed_run button_clear (n + k) Shared.init).current_debounce_count = 0 ∧
      ∀ i, i < k → (armed_run button_clear (n + i) Shared.init).current_debounce_count = c + i := by
  induction r with
  | zero =>
    intro n c hc h1 hr
    obtain ⟨hack, hle⟩ := armed_run_invariant button_clear n
    obtain ⟨_, _, hstep⟩ := armed_tick_counter _ (button_clear n) hack hle
    refine ⟨1, Nat.le_refl _, Nat.le_refl _, ?_, ?_⟩
    · rcases hstep (by omega) with h | ⟨h, _⟩
      · exact h
      · omega
    · intro i hi
      obtain rfl : i = 0 := by omega
      exact hc
  | succ r ih =>
    intro n c hc h1 hr
    obtain ⟨hack, hle⟩ := armed_run_invariant button_clear n
    obtain ⟨_, _, hstep⟩ := armed_tick_counter _ (button_clear n) hack hle
    rcases hstep (by omega) with h | ⟨_, h⟩
    · refine ⟨1, Nat.le_refl _, by omega, h, ?_⟩
      intro i hi
      obtain rfl : i = 0 := by omega
      exact hc
    · obtain ⟨k, hk1, hk2, hk0, hki⟩ := ih (n + 1) (c + 1) (by rw [← hc]; exact h) (by omega)
        (by omega)
      refine ⟨k + 1, by omega, by omega, by rw [show n + (k + 1) = n + 1 + k by omega]; exact hk0, ?_⟩
      intro i hi
      cases i with
      | zero => exact hc
      | succ i =>
        have := hki i (by omega)
        rw [show n + (i + 1) = n + 1 + i by omega, this]
        omega

theorem fill_rainbow_body_frame (nic : Nat) (s s1 : RainbowLoop) (i : Nat)
    (h : fill_rainbow_body nic s i = some s1) :
    i < s.data.length ∧ s1.data.length = s.data.length ∧
      ∀ j : Nat, j ≠ i → s1.data[j]? = s.data[j]? := by
  have key : ∀ T : Option (List Nat),
      (match T with
        | none => none
        | some t =>
          if i < s.data.length then
            some
              ({ data := s.data.set i ⟨t.getD 1 0, t.getD 0 0, t.getD 2 0⟩
                 current_colour :=
                  if i % nic = nic - 1 then (s.current_colour + 1) % 256 else s.current_colour
                 current_triplet := t } : RainbowLoop)
          else none) = some s1 →
      i < s.data.length ∧ s1.data.length = s.data.length ∧
        ∀ j : Nat, j ≠ i → s1.data[j]? = s.data[j]? := by
    intro T hT
    cases T with
    | none => exact Option.noConfusion hT
    | some t =>
      simp only at hT
      by_cases hi : i < s.data.length
      · rw [if_pos hi] at hT
        injection hT with hT
        subst hT
        refine ⟨hi, by simp, ?_⟩
        intro j hj
        simp only
        rw [List.getElem?_set_ne (Ne.symm hj)]
      · rw [if_neg hi] at hT
        exact Option.noConfusion hT
  unfold fill_rainbow_body at h
  by_cases h0 : nic = 0
  · rw [if_pos h0] at h
    exact Option.noConfusion h
  · rw [if_neg h0] at h
    exact key _ h

theorem fill_rainbow_loop_frame (nic : Nat) (is : List Nat) : ∀ s s1 : RainbowLoop,
    fill_rainbow_loop nic is s = some s1 →
    (∀ i ∈ is, i < s.data.length) ∧ s1.data.length = s.data.length ∧
      ∀ j : Nat, j ∉ is → s1.data[j]? = s.data[j]? := by
  induction is with
  | nil =>
    intro s s1 h
    simp only [fill_rainbow_loop, Option.some.injEq] at h
    subst h
    exact ⟨by simp, rfl, fun _ _ => rfl⟩
  | cons i is ih =>
    intro s s1 h
    simp only [fill_rainbow_loop] at h
    cases hb : fill_rainbow_body nic s i with
    | none => rw [hb] at h; exact Option.noConfusion h
    | some s2 =>
      rw [hb] at h
      obtain ⟨hi, hl, hf⟩ := fill_rainbow_body_frame nic s s2 i hb
      obtain ⟨hi2, hl2, hf2⟩ := ih s2 s1 h
      refine ⟨?_, hl2.trans hl, ?_⟩
      · intro k hk
        rcases List.mem_cons.mp hk with rfl | hk
        · exact hi
        · rw [← hl]; exact hi2 k hk
      · intro j hj
        rw [hf2 j (fun hm => hj (List.mem_cons_of_mem _ hm)),
          hf j (fun he => hj (he ▸ List.mem_cons_self _ _))]

theorem fill_rainbow_colours_some_3 (data : List RGB) (h : 3 ≤ data.length) :
    (fill_rainbow_colours data 3).isSome = true := by
  obtain ⟨front, rest, rfl, hf⟩ : ∃ front rest : List RGB, data = front ++ rest ∧ front.length = 3 :=
    ⟨data.take 3, data.drop 3, (List.take_append_drop 3 data).symm, by simp; omega⟩
  match front, hf with
  | [a0, a1, a2], _ =>
    simp [fill_rainbow_colours, show List.range 3 = [0, 1, 2] by decide, fill_rainbow_loop,
      fill_rainbow_body, triplet_store, intermediate_colours]

theorem fill_rainbow_colours_some_9 (data : List RGB) (h : 9 ≤ data.length) :
    (fill_rainbow_colours data 9).isSome = true := by
  obtain ⟨front, rest, rfl, hf⟩ : ∃ front rest : List RGB, data = front ++ rest ∧ front.length = 9 :=
    ⟨data.take 9, data.drop 9, (List.take_append_drop 9 data).symm, by simp; omega⟩
  match front, hf with
  | [a0, a1, a2, a3, a4, a5, a6, a7, a8], _ =>
    simp [fill_rainbow_colours, show List.range 9 = [0, 1, 2, 3, 4, 5, 6, 7, 8] by decide, fill_rainbow_loop,
      fill_rainbow_body, triplet_store, intermediate_colours]

theorem fill_rainbow_colours_some_12 (data : List RGB) (h : 12 ≤ data.length) :
    (fill_rainbow_colours data 12).isSome = true := by
  obtain ⟨front, rest, rfl, hf⟩ : ∃ front rest : List RGB, data = front ++ rest ∧ front.length = 12 :=
    ⟨data.take 12, data.drop 12, (List.take_append_drop 12 data).symm, by simp; omega⟩
  match front, hf with
  | [a0, a1, a2, a3, a4, a5, a6, a7, a8, a9, a10, a11], _ =>
    simp [fill_rainbow_colours, show List.range 12 = [0, 1, 2, 3, 4, 5, 6, 7, 8, 9, 10, 11] by decide, fill_rainbow_loop,
      fill_rainbow_body, triplet_store, intermediate_colours]

theorem fill_rainbow_colours_some_15 (data : List RGB) (h : 15 ≤ data.length) :
    (fill_rainbow_colours data 15).isSome = true := by
  obtain ⟨front, rest, rfl, hf⟩ : ∃ front rest : List RGB, data = front ++ rest ∧ front.length = 15 :=
    ⟨data.take 15, data.drop 15, (List.take_append_drop 15 data).symm, by simp; omega⟩
  match front, hf with
  | [a0, a1, a2, a3, a4, a5, a6, a7, a8, a9, a10, a11, a12, a13, a14], _ =>
    simp [fill_rainbow_colours, show List.range 15 = [0, 1, 2, 3, 4, 5, 6, 7, 8, 9, 10, 11, 12, 13, 14] by decide, fill_rainbow_loop,
      fill_rainbow_body, triplet_store, intermediate_colours]

theorem fill_rainbow_colours_some_18 (data : List RGB) (h : 18 ≤ data.length) :
    (fill_rainbow_colours data 18).isSome = true := by
  obtain ⟨front, rest, rfl, hf⟩ : ∃ front rest : List RGB, data = front ++ rest ∧ front.length = 18 :=
    ⟨data.take 18, data.drop 18, (List.take_append_drop 18 data).symm, by simp; omega⟩
  match front, hf with
  | [a0, a1, a2, a3, a4, a5, a6, a7, a8, a9, a10, a11, a12, a13, a14, a15, a16, a17], _ =>
    simp [fill_rainbow_colours, show List.range 18 = [0, 1, 2, 3, 4, 5, 6, 7, 8, 9, 10, 11, 12, 13, 14, 15, 16, 17] by decide, fill_rainbow_loop,
      fill_rainbow_body, triplet_store, intermediate_colours]

theorem fill_rainbow_colours_none_1 (data : List RGB) (h : 1 ≤ data.length) :
    fill_rainbow_colours data 1 = none := by
  obtain ⟨front, rest, rfl, hf⟩ : ∃ front rest : List RGB, data = front ++ rest ∧ front.length = 1 :=
    ⟨data.take 1, data.drop 1, (List.take_append_drop 1 data).symm, by simp; omega⟩
  match front, hf with
  | [a0], _ =>
    simp [fill_rainbow_colours, show List.range 1 = [0] by decide, fill_rainbow_loop,
      fill_rainbow_body, triplet_store, intermediate_colours]

theorem fill_rainbow_colours_none_2 (data : List RGB) (h : 2 ≤ data.length) :
    fill_rainbow_colours data 2 = none := by
  obtain ⟨front, rest, rfl, hf⟩ : ∃ front rest : List RGB, data = front ++ rest ∧ front.length = 2 :=
    ⟨data.take 2, data.drop 2, (List.take_append_drop 2 data).symm, by simp; omega⟩
  match front, hf with
  | [a0, a1], _ =>
    simp [fill_rainbow_colours, show List.range 2 = [0, 1] by decide, fill_rainbow_loop,
      fill_rainbow_body, triplet_store, intermediate_colours]

theorem fill_rainbow_colours_none_4 (data : List RGB) (h : 4 ≤ data.length) :
    fill_rainbow_colours data 4 = none := by
  obtain ⟨front, rest, rfl, hf⟩ : ∃ front rest : List RGB, data = front ++ rest ∧ front.length = 4 :=
    ⟨data.take 4, data.drop 4, (List.take_append_drop 4 data).symm, by simp; omega⟩
  match front, hf with
  | [a0, a1, a2, a3], _ =>
    simp [fill_rainbow_colours, show List.range 4 = [0, 1, 2, 3] by decide, fill_rainbow_loop,
      fill_rainbow_body, triplet_store, intermediate_colours]

theorem fill_rainbow_colours_none_5 (data : List RGB) (h : 5 ≤ data.length) :
    fill_rainbow_colours data 5 = none := by
  obtain ⟨front, rest, rfl, hf⟩ : ∃ front rest : List RGB, data = front ++ rest ∧ front.length = 5 :=
    ⟨data.take 5, data.drop 5, (List.take_append_drop 5 data).symm, by simp; omega⟩
  match front, hf with
  | [a0, a1, a2, a3, a4], _ =>
    simp [fill_rainbow_colours, show List.range 5 = [0, 1, 2, 3, 4] by decide, fill_rainbow_loop,
      fill_rainbow_body, triplet_store, intermediate_colours]

theorem fill_rainbow_colours_none_6 (data : List RGB) (h : 6 ≤ data.length) :
    fill_rainbow_colours data 6 = none := by
  obtain ⟨front, rest, rfl, hf⟩ : ∃ front rest : List RGB, data = front ++ rest ∧ front.length = 6 :=
    ⟨data.take 6, data.drop 6, (List.take_append_drop 6 data).symm, by simp; omega⟩
  match front, hf with
  | [a0, a1, a2, a3, a4, a5], _ =>
    simp [fill_rainbow_colours, show List.range 6 = [0, 1, 2, 3, 4, 5] by decide, fill_rainbow_loop,
      fill_rainbow_body, triplet_store, intermediate_colours]

theorem fill_rainbow_colours_none_7 (data : List RGB) (h : 7 ≤ data.length) :
    fill_rainbow_colours data 7 = none := by
  obtain ⟨front, rest, rfl, hf⟩ : ∃ front rest : List RGB, data = front ++ rest ∧ front.length = 7 :=
    ⟨data.take 7, data.drop 7, (List.take_append_drop 7 data).symm, by simp; omega⟩
  match front, hf with
  | [a0, a1, a2, a3, a4, a5, a6], _ =>
    simp [fill_rainbow_colours, show List.range 7 = [0, 1, 2, 3, 4, 5, 6] by decide, fill_rainbow_loop,
      fill_rainbow_body, triplet_store, intermediate_colours]

theorem fill_rainbow_colours_none_8 (data : List RGB) (h : 8 ≤ data.length) :
    fill_rainbow_colours data 8 = none := by
  obtain ⟨front, rest, rfl, hf⟩ : ∃ front rest : List RGB, data = front ++ rest ∧ front.length = 8 :=
    ⟨data.take 8, data.drop 8, (List.take_append_drop 8 data).symm, by simp; omega⟩
  match front, hf with
  | [a0, a1, a2, a3, a4, a5, a6, a7], _ =>
    simp [fill_rainbow_colours, show List.range 8 = [0, 1, 2, 3, 4, 5, 6, 7] by decide, fill_rainbow_loop,
      fill_rainbow_body, triplet_store, intermediate_colours]

theorem fill_rainbow_colours_none_10 (data : List RGB) (h : 10 ≤ data.length) :
    fill_rainbow_colours data 10 = none := by
  obtain ⟨front, rest, rfl, hf⟩ : ∃ front rest : List RGB, data = front ++ rest ∧ front.length = 10 :=
    ⟨data.take 10, data.drop 10, (List.take_append_drop 10 data).symm, by simp; omega⟩
  match front, hf with
  | [a0, a1, a2, a3, a4, a5, a6, a7, a8, a9], _ =>
    simp [fill_rainbow_colours, show List.range 10 = [0, 1, 2, 3, 4, 5, 6, 7, 8, 9] by decide, fill_rainbow_loop,
      fill_rainbow_body, triplet_store, intermediate_colours]

theorem fill_rainbow_colours_none_11 (data : List RGB) (h : 11 ≤ data.length) :
    fill_rainbow_colours data 11 = none := by
  obtain ⟨front, rest, rfl, hf⟩ : ∃ front rest : List RGB, data = front ++ rest ∧ front.length = 11 :=
    ⟨data.take 11, data.drop 11, (List.take_append_drop 11 data).symm, by simp; omega⟩
  match front, hf with
  | [a0, a1, a2, a3, a4, a5, a6, a7, a8, a9, a10], _ =>
    simp [fill_rainbow_colours, show List.range 11 = [0, 1, 2, 3, 4, 5, 6, 7, 8, 9, 10] by decide, fill_rainbow_loop,
      fill_rainbow_body, triplet_store, intermediate_colours]

theorem fill_rainbow_colours_none_13 (data : List RGB) (h : 13 ≤ data.length) :
    fill_rainbow_colours data 13 = none := by
  obtain ⟨front, rest, rfl, hf⟩ : ∃ front rest : List RGB, data = front ++ rest ∧ front.length = 13 :=
    ⟨data.take 13, data.drop 13, (List.take_append_drop 13 data).symm, by simp; omega⟩
  match front, hf with
  | [a0, a1, a2, a3, a4, a5, a6, a7, a8, a9, a10, a11, a12], _ =>
    simp [fill_rainbow_colours, show List.range 13 = [0, 1, 2, 3, 4, 5, 6, 7, 8, 9, 10, 11, 12] by decide, fill_rainbow_loop,
      fill_rainbow_body, triplet_store, intermediate_colours]

theorem fill_rainbow_colours_none_14 (data : List RGB) (h : 14 ≤ data.length) :
    fill_rainbow_colours data 14 = none := by
  obtain ⟨front, rest, rfl, hf⟩ : ∃ front rest : List RGB, data = front ++ rest ∧ front.length = 14 :=
    ⟨data.take 14, data.drop 14, (List.take_append_drop 14 data).symm, by simp; omega⟩
  match front, hf with
  | [a0, a1, a2, a3, a4, a5, a6, a7, a8, a9, a10, a11, a12, a13], _ =>
    simp [fill_rainbow_colours, show List.range 14 = [0, 1, 2, 3, 4, 5, 6, 7, 8, 9, 10, 11, 12, 13] by decide, fill_rainbow_loop,
      fill_rainbow_body, triplet_store, intermediate_colours]

theorem fill_rainbow_colours_none_16 (data : List RGB) (h : 16 ≤ data.length) :
    fill_rainbow_colours data 16 = none := by
  obtain ⟨front, rest, rfl, hf⟩ : ∃ front rest : List RGB, data = front ++ rest ∧ front.length = 16 :=
    ⟨data.take 16, data.drop 16, (List.take_append_drop 16 data).symm, by simp; omega⟩
  match front, hf with
  | [a0, a1, a2, a3, a4, a5, a6, a7, a8, a9, a10, a11, a12, a13, a14, a15], _ =>
    simp [fill_rainbow_colours, show List.range 16 = [0, 1, 2, 3, 4, 5, 6, 7, 8, 9, 10, 11, 12, 13, 14, 15] by decide, fill_rainbow_loop,
      fill_rainbow_body, triplet_store, intermediate_colours]

theorem fill_rainbow_colours_none_17 (data : List RGB) (h : 17 ≤ data.length) :
    fill_rainbow_colours data 17 = none := by
  obtain ⟨front, rest, rfl, hf⟩ : ∃ front rest : List RGB, data = front ++ rest ∧ front.length = 17 :=
    ⟨data.take 17, data.drop 17, (List.take_append_drop 17 data).symm, by simp; omega⟩
  match front, hf with
  | [a0, a1, a2, a3, a4, a5, a6, a7, a8, a9, a10, a11, a12, a13, a14, a15, a16], _ =>
    simp [fill_rainbow_colours, show List.range 17 = [0, 1, 2, 3, 4, 5, 6, 7, 8, 9, 10, 11, 12, 13, 14, 15, 16] by decide, fill_rainbow_loop,
      fill_rainbow_body, triplet_store, intermediate_colours]

theorem fill_rainbow_colours_short (data : List RGB) (n : Nat) (h : data.length < n) :
    fill_rainbow_colours data n = none := by
  cases hr : fill_rainbow_colours data n with
  | none => rfl
  | some r =>
    exfalso
    unfold fill_rainbow_colours at hr
    simp only at hr
    cases hl : fill_rainbow_loop ((if n > 18 then 18 else n) / 3) (List.range n)
        { data := data, current_colour := 0, current_triplet := [0, 0, 0] } with
    | none => rw [hl] at hr; exact Option.noConfusion hr
    | some s1 =>
      obtain ⟨hi, _, _⟩ := fill_rainbow_loop_frame _ _ _ _ hl
      have := hi data.length (List.mem_range.mpr h)
      simp only at this
      omega

theorem fill_rainbow_colours_completes (data : List RGB) (n : Nat) (h1 : 1 ≤ n) (h18 : n ≤ 18) :
    (fill_rainbow_colours data n).isSome = true ↔ (n ∈ [3, 9, 12, 15, 18] ∧ n ≤ data.length) := by
  by_cases hlen : n ≤ data.length
  · have hcases : n = 1 ∨ n = 2 ∨ n = 3 ∨ n = 4 ∨ n = 5 ∨ n = 6 ∨ n = 7 ∨ n = 8 ∨ n = 9 ∨
        n = 10 ∨ n = 11 ∨ n = 12 ∨ n = 13 ∨ n = 14 ∨ n = 15 ∨ n = 16 ∨ n = 17 ∨ n = 18 := by
      omega
    rcases hcases with rfl | rfl | rfl | rfl | rfl | rfl | rfl | rfl | rfl | rfl | rfl | rfl |
      rfl | rfl | rfl | rfl | rfl | rfl
    · simp [fill_rainbow_colours_none_1 data hlen]
    · simp [fill_rainbow_colours_none_2 data hlen]
    · simp [fill_rainbow_colours_some_3 data hlen, hlen]
    · simp [fill_rainbow_colours_none_4 data hlen]
    · simp [fill_rainbow_colours_none_5 data hlen]
    · simp [fill_rainbow_colours_none_6 data hlen]
    · simp [fill_rainbow_colours_none_7 data hlen]
    · simp [fill_rainbow_colours_none_8 data hlen]
    · simp [fill_rainbow_colours_some_9 data hlen, hlen]
    · simp [fill_rainbow_colours_none_10 data hlen]
    · simp [fill_rainbow_colours_none_11 data hlen]
    · simp [fill_rainbow_colours_some_12 data hlen, hlen]
    · simp [fill_rainbow_colours_none_13 data hlen]
    · simp [fill_rainbow_colours_none_14 data hlen]
    · simp [fill_rainbow_colours_some_15 data hlen, hlen]
    · simp [fill_rainbow_colours_none_16 data hlen]
    · simp [fill_rainbow_colours_none_17 data hlen]
    · simp [fill_rainbow_colours_some_18 data hlen, hlen]
  · rw [fill_rainbow_colours_short data n (by omega)]
    simp [hlen]

theorem fill_rainbow_colours_frame (data r : List RGB) (n : Nat)
    (h : fill_rainbow_colours data n = some r) :
    r.length = data.length ∧ ∀ i : Nat, n ≤ i → r[i]? = data[i]? := by
  unfold fill_rainbow_colours at h
  simp only at h
  cases hl : fill_rainbow_loop ((if n > 18 then 18 else n) / 3) (List.range n)
      { data := data, current_colour := 0, current_triplet := [0, 0, 0] } with
  | none => rw [hl] at h; exact Option.noConfusion h
  | some s1 =>
    rw [hl] at h
    simp only [Option.some.injEq] at h
    subst h
    obtain ⟨_, hlen, hf⟩ := fill_rainbow_loop_frame _ _ _ _ hl
    exact ⟨hlen, fun i hi => hf i (by simp only [List.mem_range]; omega)⟩

theorem copy_buffer_loop (source dest : List RGB) : ∀ n : Nat,
    (List.range n).foldl
      (fun (d : Option (List RGB)) i =>
        match d with
        | none => none
        | some d1 =>
          match source[i]? with
          | none => none
          | some led => if i < d1.length then some (d1.set i led) else none)
      (some dest) =
    if n ≤ source.length ∧ n ≤ dest.length then some (source.take n ++ dest.drop n)
    else none := by
  intro n
  induction n with
  | zero => simp
  | succ n ih =>
    rw [List.range_succ, List.foldl_append, ih]
    by_cases h : n ≤ source.length ∧ n ≤ dest.length
    · rw [if_pos h]
      simp only [List.foldl_cons, List.foldl_nil]
      by_cases hs : n < source.length
      · rw [List.getElem?_eq_getElem hs]
        simp only
        by_cases hd : n < dest.length
        · have hlen : (source.take n ++ dest.drop n).length = dest.length := by
            simp only [List.length_append, List.length_take, List.length_drop]
            omega
          rw [hlen, if_pos hd, if_pos ⟨hs, hd⟩]
          congr 1
          apply List.ext_getElem?
          intro i
          rw [List.getElem?_set]
          by_cases hi : n = i
          · subst hi
            rw [if_pos rfl, hlen]
            simp only [hd, if_true]
            rw [List.getElem?_append_left (by simp only [List.length_take]; omega),
              List.getElem?_take_of_lt (by omega), List.getElem?_eq_getElem hs]
          · rw [if_neg hi]
            by_cases hlt : i < n
            · rw [List.getElem?_append_left (by simp only [List.length_take]; omega),
                List.getElem?_append_left (by simp only [List.length_take]; omega),
                List.getElem?_take_of_lt hlt, List.getElem?_take_of_lt (by omega)]
            · rw [List.getElem?_append_right (by simp only [List.length_take]; omega),
                List.getElem?_append_right (by simp only [List.length_take]; omega),
                List.getElem?_drop, List.getElem?_drop]
              simp only [List.length_take]
              congr 1
              omega
        · have hlen : (source.take n ++ dest.drop n).length = dest.length := by
            simp only [List.length_append, List.length_take, List.length_drop]
            omega
          rw [hlen, if_neg hd, if_neg (by omega)]
      · rw [List.getElem?_eq_none (by omega), if_neg (by omega)]
    · rw [if_neg h, if_neg (by omega)]
      rfl

theorem copy_buffer_eq (source dest : List RGB) (size : Nat) :
    copy_buffer source dest size =
      if size * 3 ≤ source.length ∧ size * 3 ≤ dest.length then
        some (source.take (size * 3) ++ dest.drop (size * 3))
      else none :=
  copy_buffer_loop source dest (size * 3)

/-! ## The claims -/

/-- C1: for every entry of the pattern table, every 18-LED buffer and every
prior value of `pattern_counter` and of the occupancy mask, a call with status
`New` returns `Refresh`, leaves `pattern_counter` at 0 when the entry has a
counter, and leaves the mask at `0b00111000` (trilobe) or `0b00001000`
(tricircle); `fade_down` with `New` also returns `Refresh` with the counter at
0.  The table has `NUM_PATTERNS` = 23 entries. -/
theorem new_call_returns_refresh (pf : patternfunc) (hpf : pf ∈ pattern_functions)
    (rand : Nat → Nat) (data : List RGB) (hlen : data.length = NUM_LEDS) (g : Globals) :
    (∃ out, run_pattern pf rand data NUM_LEDS PATTERN_STATUS_NEW g = some out ∧
      out.status = PATTERN_STATUS_REFRESH ∧
      (pf.has_counter = true → out.g.pattern_counter = 0) ∧
      (pf = .trilobe → out.g.trilobe_initial_state = 0b00111000) ∧
      (∀ colour_type, pf = .tricircle colour_type →
        out.g.trilobe_initial_state = 0b00001000)) ∧
    (fade_down data NUM_LEDS PATTERN_STATUS_NEW g).status = PATTERN_STATUS_REFRESH ∧
    (fade_down data NUM_LEDS PATTERN_STATUS_NEW g).g.pattern_counter = 0 ∧
    pattern_functions.length = NUM_PATTERNS := by
  have hr := fill_rainbow_colours_18 data hlen
  refine ⟨?_, by rw [fade_down_new], by rw [fade_down_new], rfl⟩
  simp only [pattern_functions, List.mem_cons, List.mem_singleton, List.not_mem_nil,
    or_false] at hpf
  rcases hpf with rfl | rfl | rfl | rfl | rfl | rfl | rfl | rfl | rfl | rfl | rfl | rfl | rfl |
    rfl | rfl | rfl | rfl | rfl | rfl | rfl | rfl | rfl | rfl <;>
  simp [run_pattern, fill_single_colour, rainbow, rainbow_wheel, fade_colours, crazy,
    walking_colour, walking_bar, trilobe, tricircle, walking_triplets, get_colour_from_parameter,
    patternfunc.has_counter, NUM_LEDS, hr, PATTERN_STATUS_NEW, PATTERN_STATUS_REFRESH,
    SINGLE_COLOUR_RED, SINGLE_COLOUR_GREEN, SINGLE_COLOUR_BLUE, SINGLE_COLOUR_RANDOM,
    TRILOBE_INITIAL_STATE, TRICIRCLE_INITIAL_STATE]

/-- Instance of C1 for the trilobe entry on a uniform buffer. -/
theorem new_call_returns_refresh_witness :
    (patternfunc.trilobe ∈ pattern_functions ∧ (uniform_buffer 9).length = NUM_LEDS) ∧
    ((∃ out, run_pattern .trilobe (fun _ => 0) (uniform_buffer 9) NUM_LEDS PATTERN_STATUS_NEW
          ⟨7, 7, 0⟩ = some out ∧
        out.status = PATTERN_STATUS_REFRESH ∧
        (patternfunc.trilobe.has_counter = true → out.g.pattern_counter = 0) ∧
        (patternfunc.trilobe = .trilobe → out.g.trilobe_initial_state = 0b00111000) ∧
        (∀ colour_type, patternfunc.trilobe = .tricircle colour_type →
          out.g.trilobe_initial_state = 0b00001000)) ∧
      (fade_down (uniform_buffer 9) NUM_LEDS PATTERN_STATUS_NEW ⟨7, 7, 0⟩).status =
        PATTERN_STATUS_REFRESH ∧
      (fade_down (uniform_buffer 9) NUM_LEDS PATTERN_STATUS_NEW ⟨7, 7, 0⟩).g.pattern_counter = 0 ∧
      pattern_functions.length = NUM_PATTERNS) :=
  ⟨⟨by decide, by decide⟩,
    new_call_returns_refresh .trilobe (by decide) (fun _ => 0) (uniform_buffer 9) (by decide)
      ⟨7, 7, 0⟩⟩

/-- C2 (amended): a call with status `New` on an 18-LED buffer stores only into
the LEDs `new_stores` of the entry, the stored values being the same for any
two input buffers, and every other LED keeps its previous value.  For the
entries 0..9 (solid fill, rainbow, rainbow wheel, palette fade, crazy) the
stores cover all 18 LEDs, so the two output buffers are equal; for the
entries 10..22 (walking_colour, walking_bar, trilobe, tricircle) they do not,
so an LED outside the filled group is blank only if it was blank before. -/
theorem new_call_buffer_stores (pf : patternfunc) (hpf : pf ∈ pattern_functions)
    (rand : Nat → Nat) (g : Globals) (d1 d2 : List RGB)
    (h1 : d1.length = NUM_LEDS) (h2 : d2.length = NUM_LEDS) :
    (∃ o1 o2, run_pattern pf rand d1 NUM_LEDS PATTERN_STATUS_NEW g = some o1 ∧
      run_pattern pf rand d2 NUM_LEDS PATTERN_STATUS_NEW g = some o2 ∧
      (∀ i : Nat, i ∈ pf.new_stores → o1.data[i]? = o2.data[i]?) ∧
      (∀ i : Nat, i ∉ pf.new_stores → o1.data[i]? = d1[i]? ∧ o2.data[i]? = d2[i]?) ∧
      (pf.new_stores = List.range NUM_LEDS → o1.data = o2.data)) ∧
    (∀ idx : Nat, idx < 10 → ∀ p, pattern_functions[idx]? = some p →
      p.new_stores = List.range NUM_LEDS) ∧
    (∀ idx : Nat, 10 ≤ idx → ∀ p, pattern_functions[idx]? = some p →
      p.new_stores ≠ List.range NUM_LEDS) := by
  obtain ⟨v, hv⟩ := run_pattern_new_overwrite pf hpf rand g
  obtain ⟨o1, ho1, hd1⟩ := hv d1 h1
  obtain ⟨o2, ho2, hd2⟩ := hv d2 h2
  have hsame : ∀ i, i ∈ pf.new_stores → o1.data[i]? = o2.data[i]? := by
    intro i hi
    rw [hd1, hd2, overwrite_getElem?, overwrite_getElem?]
    by_cases hlt : i < 18
    · rw [List.getElem?_eq_getElem (show i < d1.length by rw [h1]; exact hlt),
        List.getElem?_eq_getElem (show i < d2.length by rw [h2]; exact hlt)]
      simp [hi]
    · rw [List.getElem?_eq_none (show d1.length ≤ i by rw [h1]; exact not_lt.mp hlt),
        List.getElem?_eq_none (show d2.length ≤ i by rw [h2]; exact not_lt.mp hlt)]
  refine ⟨⟨o1, o2, ho1, ho2, hsame, ?_, ?_⟩, ?_, ?_⟩
  · intro i hi
    rw [hd1, hd2, overwrite_getElem?, overwrite_getElem?]
    simp [hi]
  · intro hall
    apply List.ext_getElem?
    intro i
    by_cases hlt : i < 18
    · exact hsame i (by rw [hall]; simpa [NUM_LEDS] using hlt)
    · rw [hd1, hd2, overwrite_getElem?, overwrite_getElem?,
        List.getElem?_eq_none (show d1.length ≤ i by rw [h1]; exact not_lt.mp hlt),
        List.getElem?_eq_none (show d2.length ≤ i by rw [h2]; exact not_lt.mp hlt)]
  · intro idx hidx p hp
    interval_cases idx <;> simp [pattern_functions] at hp <;> subst hp <;> rfl
  · intro idx hidx p hp
    have hlt : idx < 23 := by
      by_contra hge
      rw [List.getElem?_eq_none (by simp [pattern_functions]; omega)] at hp
      exact Option.noConfusion hp
    interval_cases idx <;> simp [pattern_functions] at hp <;> subst hp <;> decide

/-- Instance of the amended C2 for trilobe on a blank and a non-blank buffer. -/
theorem new_call_buffer_stores_witness :
    (patternfunc.trilobe ∈ pattern_functions ∧ (uniform_buffer 0).length = NUM_LEDS ∧
      (uniform_buffer 1).length = NUM_LEDS) ∧
    ((∃ o1 o2, run_pattern .trilobe (fun _ => 0) (uniform_buffer 0) NUM_LEDS PATTERN_STATUS_NEW
          ⟨0, 0, 0⟩ = some o1 ∧
        run_pattern .trilobe (fun _ => 0) (uniform_buffer 1) NUM_LEDS PATTERN_STATUS_NEW
          ⟨0, 0, 0⟩ = some o2 ∧
        (∀ i : Nat, i ∈ patternfunc.trilobe.new_stores → o1.data[i]? = o2.data[i]?) ∧
        (∀ i : Nat, i ∉ patternfunc.trilobe.new_stores →
          o1.data[i]? = (uniform_buffer 0)[i]? ∧ o2.data[i]? = (uniform_buffer 1)[i]?) ∧
        (patternfunc.trilobe.new_stores = List.range NUM_LEDS → o1.data = o2.data)) ∧
      (∀ idx : Nat, idx < 10 → ∀ p, pattern_functions[idx]? = some p →
        p.new_stores = List.range NUM_LEDS) ∧
      (∀ idx : Nat, 10 ≤ idx → ∀ p, pattern_functions[idx]? = some p →
        p.new_stores ≠ List.range NUM_LEDS)) :=
  ⟨⟨by decide, by decide, by decide⟩,
    new_call_buffer_stores .trilobe (by decide) (fun _ => 0) ⟨0, 0, 0⟩ (uniform_buffer 0)
      (uniform_buffer 1) (by decide) (by decide)⟩

/-- C2 fails as stated: trilobe called with `New` on a blank and on a non-blank
18-LED buffer, with the same parameter and random draws, produces different
buffers (LEDs 6..17 keep their previous content). -/
theorem trilobe_new_keeps_old_leds :
    ¬ (∀ pf ∈ pattern_functions, ∀ (rand : Nat → Nat) (g : Globals) (d1 d2 : List RGB),
        d1.length = NUM_LEDS → d2.length = NUM_LEDS →
        (run_pattern pf rand d1 NUM_LEDS PATTERN_STATUS_NEW g).map Out.data =
          (run_pattern pf rand d2 NUM_LEDS PATTERN_STATUS_NEW g).map Out.data) := by
  intro h
  have := h .trilobe (by decide) (fun _ => 0) ⟨0, 0, 0⟩ (List.replicate 18 blank)
    (List.replicate 18 ⟨1, 1, 1⟩) (by decide) (by decide)
  revert this
  decide

/-- C3: for every entry of the pattern table, every 18-LED buffer and every
status other than `New`, the call returns, and if it returns `NoChange` the
buffer after the call is the buffer before the call. -/
theorem nochange_leaves_buffer (pf : patternfunc) (hpf : pf ∈ pattern_functions)
    (rand : Nat → Nat) (data : List RGB) (hlen : data.length = NUM_LEDS)
    (status : Nat) (hs : status ≠ PATTERN_STATUS_NEW) (g : Globals) :
    ∃ out, run_pattern pf rand data NUM_LEDS status g = some out ∧
      (out.status = PATTERN_STATUS_NOCHANGE → out.data = data) := by
  cases pf with
  | fill_single_colour mode => exact ⟨_, rfl, by simp [fill_single_colour, if_neg hs]⟩
  | rainbow counter => exact rainbow_not_new data hlen status hs counter g
  | rainbow_wheel => exact rainbow_wheel_not_new data hlen status hs g
  | fade_colours colour_type => exact ⟨_, rfl, fade_colours_not_new data _ status hs _ g⟩
  | crazy => exact ⟨_, rfl, crazy_not_new rand data _ status hs g⟩
  | walking_colour colour_type => exact walking_colour_not_new rand data hlen status hs _ g
  | walking_bar colour_type => exact walking_bar_not_new rand data hlen status hs _ g
  | trilobe => exact ⟨_, rfl, trilobe_not_new data _ status hs g⟩
  | tricircle colour_type =>
    exact tricircle_not_new rand data NUM_LEDS status hs _ (table_tricircle_colour _ hpf) g

/-- Instance of C3 for the rainbow wheel between two rotations. -/
theorem nochange_leaves_buffer_witness :
    (patternfunc.rainbow_wheel ∈ pattern_functions ∧ rainbow_18.length = NUM_LEDS ∧
      PATTERN_STATUS_NOCHANGE ≠ PATTERN_STATUS_NEW) ∧
    ∃ out, run_pattern .rainbow_wheel (fun _ => 0) rainbow_18 NUM_LEDS PATTERN_STATUS_NOCHANGE
        ⟨3, 0, 0⟩ = some out ∧
      (out.status = PATTERN_STATUS_NOCHANGE → out.data = rainbow_18) :=
  ⟨⟨by decide, by decide, by decide⟩,
    nochange_leaves_buffer .rainbow_wheel (by decide) (fun _ => 0) rainbow_18 (by decide)
      PATTERN_STATUS_NOCHANGE (by decide) ⟨3, 0, 0⟩⟩

/-- C4 fails on the code: entry 5 of the table is the breathing rainbow
(`rainbow` with `&pattern_counter`).  Called with `New` it returns `Refresh`;
called again with that status and counter 0 it only advances the counter to
1, leaves the buffer unchanged and still returns `Refresh`, where the sibling
`fade_colours` returns `NoChange` in the same situation. -/
theorem breathing_rainbow_refresh_without_change :
    pattern_functions[5]? = some (.rainbow true) ∧
    run_pattern (.rainbow true) (fun _ => 0) (uniform_buffer 0) NUM_LEDS PATTERN_STATUS_NEW
        ⟨0, 0, 0⟩ =
      some { status := PATTERN_STATUS_REFRESH, data := rainbow_18, g := ⟨0, 0, 0⟩ } ∧
    run_pattern (.rainbow true) (fun _ => 0) rainbow_18 NUM_LEDS PATTERN_STATUS_REFRESH
        ⟨0, 0, 0⟩ =
      some { status := PATTERN_STATUS_REFRESH, data := rainbow_18, g := ⟨1, 0, 0⟩ } ∧
    run_pattern (.fade_colours COLOUR_TYPE_COLD) (fun _ => 0) rainbow_18 NUM_LEDS
        PATTERN_STATUS_REFRESH ⟨0, 0, 0⟩ =
      some { status := PATTERN_STATUS_NOCHANGE, data := rainbow_18, g := ⟨1, 0, 0⟩ } := by
  decide

/-- C5 (amended): starting from the all-255 buffer with status `New` and
feeding each returned status into the next call, `fade_down` returns `Refresh`
on each of the first 21 calls (also on the calls that only count) and
`FadeDone` on the 22nd; the buffer is all 127 after the first call, is halved
on every third call after it (calls 4, 7, .., 22) and unchanged on the calls
between, and is all 0 when `FadeDone` is returned. -/
theorem fade_down_scenario (g : Globals) :
    (fade_down_run 22 ⟨PATTERN_STATUS_NEW, uniform_buffer 255, g⟩).map Out.status =
      List.replicate 21 PATTERN_STATUS_REFRESH ++ [PATTERN_STATUS_FADE_DONE] ∧
    (fade_down_run 22 ⟨PATTERN_STATUS_NEW, uniform_buffer 255, g⟩).map Out.data =
      [uniform_buffer 127, uniform_buffer 127, uniform_buffer 127,
       uniform_buffer 63, uniform_buffer 63, uniform_buffer 63,
       uniform_buffer 31, uniform_buffer 31, uniform_buffer 31,
       uniform_buffer 15, uniform_buffer 15, uniform_buffer 15,
       uniform_buffer 7, uniform_buffer 7, uniform_buffer 7,
       uniform_buffer 3, uniform_buffer 3, uniform_buffer 3,
       uniform_buffer 1, uniform_buffer 1, uniform_buffer 1,
       uniform_buffer 0] := by
  simp [fade_down_run, fade_down, NUM_LEDS, intensity_halve_uniform, FADE_DELAY,
    PATTERN_STATUS_NEW, PATTERN_STATUS_REFRESH, PATTERN_STATUS_FADE_DONE]

/-- C5 fails as stated: the statuses of the first four calls are not
`Refresh, NoChange, NoChange, Refresh`. -/
theorem fade_down_scenario_no_nochange :
    ¬ ((fade_down_run 4 ⟨PATTERN_STATUS_NEW, uniform_buffer 255, ⟨0, 0, 0⟩⟩).map Out.status =
        [PATTERN_STATUS_REFRESH, PATTERN_STATUS_NOCHANGE, PATTERN_STATUS_NOCHANGE,
         PATTERN_STATUS_REFRESH]) := by
  decide

/-- C6 (amended): for every 18-LED buffer, counter and status, `fade_down`
returns `FadeDone` if and only if the status is not `New`, the incremented
counter reaches `FADE_DELAY`, and the halving made on that tick left every
channel of every LED at zero.  A call with `New` halves the buffer too but
never returns `FadeDone`. -/
theorem fade_down_fade_done_iff (data : List RGB) (hlen : data.length = NUM_LEDS)
    (status : Nat) (g : Globals) :
    (fade_down data NUM_LEDS status g).status = PATTERN_STATUS_FADE_DONE ↔
      (status ≠ PATTERN_STATUS_NEW ∧ (g.pattern_counter + 1) % 256 = FADE_DELAY ∧
        (fade_down data NUM_LEDS status g).data = data.map RGB.halve ∧
        ∀ c ∈ (fade_down data NUM_LEDS status g).data, c = blank) := by
  have hex : intensity_halve data NUM_LEDS =
      (data.map RGB.halve, count_nonzero (data.map RGB.halve)) := by
    rw [← hlen]
    exact intensity_halve_exact data (by rw [hlen]; decide)
  by_cases hs : status = PATTERN_STATUS_NEW
  · subst hs
    rw [fade_down_new]
    simp [PATTERN_STATUS_REFRESH, PATTERN_STATUS_FADE_DONE]
  · by_cases hc : (g.pattern_counter + 1) % 256 = FADE_DELAY
    · rw [fade_down_halving data NUM_LEDS status g hs hc, hex]
      simp only [hs, hc, ne_eq, not_false_eq_true, true_and]
      rw [← count_nonzero_eq_zero]
      by_cases hz : count_nonzero (data.map RGB.halve) = 0 <;>
        simp [hz, PATTERN_STATUS_REFRESH, PATTERN_STATUS_FADE_DONE]
    · rw [fade_down_tick data NUM_LEDS status g hs hc]
      simp [hc, PATTERN_STATUS_REFRESH, PATTERN_STATUS_FADE_DONE]

/-- Instance of the amended C6 on the all-1 buffer at the halving tick. -/
theorem fade_down_fade_done_iff_witness :
    (uniform_buffer 1).length = NUM_LEDS ∧
    ((fade_down (uniform_buffer 1) NUM_LEDS PATTERN_STATUS_REFRESH ⟨2, 0, 0⟩).status =
        PATTERN_STATUS_FADE_DONE ↔
      (PATTERN_STATUS_REFRESH ≠ PATTERN_STATUS_NEW ∧
        ((⟨2, 0, 0⟩ : Globals).pattern_counter + 1) % 256 = FADE_DELAY ∧
        (fade_down (uniform_buffer 1) NUM_LEDS PATTERN_STATUS_REFRESH ⟨2, 0, 0⟩).data =
          (uniform_buffer 1).map RGB.halve ∧
        ∀ c ∈ (fade_down (uniform_buffer 1) NUM_LEDS PATTERN_STATUS_REFRESH ⟨2, 0, 0⟩).data,
          c = blank)) :=
  ⟨by decide,
    fade_down_fade_done_iff (uniform_buffer 1) (by decide) PATTERN_STATUS_REFRESH ⟨2, 0, 0⟩⟩

/-- C6 fails as stated: `fade_down` called with `New` on the blank 18-LED
buffer halves the buffer, every channel is zero afterwards, and yet the call
does not return `FadeDone`. -/
theorem fade_down_new_never_done :
    (fade_down (uniform_buffer 0) NUM_LEDS PATTERN_STATUS_NEW ⟨0, 0, 0⟩).data =
        (uniform_buffer 0).map RGB.halve ∧
      (∀ c ∈ (fade_down (uniform_buffer 0) NUM_LEDS PATTERN_STATUS_NEW ⟨0, 0, 0⟩).data,
        c = blank) ∧
      (fade_down (uniform_buffer 0) NUM_LEDS PATTERN_STATUS_NEW ⟨0, 0, 0⟩).status ≠
        PATTERN_STATUS_FADE_DONE := by
  decide

/-- C7: for a buffer of `num_leds` LEDs (`num_leds` an 8-bit value),
`send_frame` sends exactly `24 * num_leds` bits, and bit `24 * i + 8 * c + b`
is bit `7 - b` of channel `c` (0 green, 1 red, 2 blue) of LED `i`. -/
theorem send_frame_bits (led_data : List RGB) (num_leds : Nat) (hN : num_leds < 256)
    (hlen : led_data.length = num_leds) :
    (send_frame led_data num_leds).length = 24 * num_leds ∧
    ∀ i c b : Nat, i < num_leds → c < 3 → b < 8 →
      ∃ led, led_data[i]? = some led ∧
        (send_frame led_data num_leds)[24 * i + 8 * c + b]? =
          some ((led.channel c).testBit (7 - b)) := by
  have hsf : send_frame led_data num_leds = led_data.flatMap led_bits := by
    unfold send_frame
    rw [Nat.mod_eq_of_lt (by omega), ← hlen]
    exact send_data_framebuffer led_data
  rw [hsf]
  constructor
  · rw [← hlen]
    clear hsf hlen
    induction led_data with
    | nil => rfl
    | cons x xs ih =>
      simp only [List.flatMap_cons, List.length_append, led_bits_length, ih, List.length_cons]
      ring
  · intro i c b hi hc hb
    have hi' : i < led_data.length := by rw [hlen]; exact hi
    refine ⟨led_data[i], List.getElem?_eq_getElem hi', ?_⟩
    rw [Nat.add_assoc, flatMap_led_bits_getElem? led_data i (8 * c + b) (by omega),
      List.getElem?_eq_getElem hi']
    exact led_bits_getElem? _ c b hc hb

/-- Instance of C7 for a single LED. -/
theorem send_frame_bits_witness :
    ((1 : Nat) < 256 ∧ ([⟨0x80, 1, 0xF0⟩] : List RGB).length = 1) ∧
    ((send_frame [⟨0x80, 1, 0xF0⟩] 1).length = 24 * 1 ∧
      ∀ i c b : Nat, i < 1 → c < 3 → b < 8 →
        ∃ led, ([⟨0x80, 1, 0xF0⟩] : List RGB)[i]? = some led ∧
          (send_frame [⟨0x80, 1, 0xF0⟩] 1)[24 * i + 8 * c + b]? =
            some ((led.channel c).testBit (7 - b))) :=
  ⟨⟨by decide, by decide⟩, send_frame_bits [⟨0x80, 1, 0xF0⟩] 1 (by decide) (by decide)⟩

/-- C8: for a buffer of `num_leds ≥ 1` LEDs, `k` successive calls of
`rotate_right` succeed and give the buffer shifted circularly by `k`
positions, `result[i] = original[(i - k) mod num_leds]`; `num_leds` calls give
back the original buffer. -/
theorem rotate_right_k_times (data : List RGB) (num_leds k : Nat) (hN : 1 ≤ num_leds)
    (hlen : data.length = num_leds) :
    (∃ r, rotate_right_times k data num_leds = some r ∧ r.length = num_leds ∧
      ∀ i : Nat, i < num_leds →
        r[i]? = data[(((i : Int) - (k : Int)) % (num_leds : Int)).toNat]?) ∧
    rotate_right_times num_leds data num_leds = some data := by
  constructor
  · exact rotate_right_times_getElem? k data num_leds hN hlen
  · obtain ⟨r, hr, hlr, hget⟩ := rotate_right_times_getElem? num_leds data num_leds hN hlen
    rw [hr]
    congr 1
    apply List.ext_getElem?
    intro i
    by_cases hi : i < num_leds
    · rw [hget i hi]
      have : rotated_index i num_leds num_leds = i := by
        unfold rotated_index
        rw [Int.sub_emod, Int.emod_self, sub_zero, Int.emod_emod_of_dvd _ (dvd_refl _),
          Int.emod_eq_of_lt (by omega) (by omega)]
        simp
      rw [this]
    · rw [List.getElem?_eq_none (by omega), List.getElem?_eq_none (by omega)]

/-- Instance of C8: three LEDs rotated twice. -/
theorem rotate_right_k_times_witness :
    ((1 : Nat) ≤ 3 ∧ three_leds.length = 3) ∧
    ((∃ r, rotate_right_times 2 three_leds 3 = some r ∧ r.length = 3 ∧
        ∀ i : Nat, i < 3 →
          r[i]? = three_leds[(((i : Int) - ((2 : Nat) : Int)) % ((3 : Nat) : Int)).toNat]?) ∧
      rotate_right_times 3 three_leds 3 = some three_leds) :=
  ⟨⟨by decide, by decide⟩, rotate_right_k_times three_leds 3 2 (by decide) (by decide)⟩

/-- C9 fails on the code: on an 86-LED buffer with 256 channels equal to 2,
`intensity_halve` halves every channel, 256 channels of the result are
nonzero, and the 8-bit return value has wrapped to 0. -/
theorem intensity_halve_count_wraps :
    overflow_buffer.length = 86 ∧
    (intensity_halve overflow_buffer 86).1 = overflow_buffer.map RGB.halve ∧
    count_nonzero (intensity_halve overflow_buffer 86).1 = 256 ∧
    (intensity_halve overflow_buffer 86).2 = 0 := by
  have h := intensity_halve_eq overflow_buffer
  have hl : overflow_buffer.length = 86 := by decide
  rw [hl] at h
  rw [h]
  refine ⟨hl, rfl, ?_, ?_⟩ <;> decide

/-- C10: for a buffer of `num_leds` LEDs whose channels are 8-bit values, eight
successive calls of `intensity_halve` leave every channel of every LED at 0,
and the eighth call returns 0. -/
theorem intensity_halve_eight_times (data : List RGB) (num_leds : Nat)
    (hlen : data.length = num_leds) (hwf : ∀ c ∈ data, c.wf) :
    (intensity_halve_times 8 data num_leds).length = num_leds ∧
    (∀ c ∈ intensity_halve_times 8 data num_leds, c = blank) ∧
    intensity_halve_times 8 data num_leds =
      (intensity_halve (intensity_halve_times 7 data num_leds) num_leds).1 ∧
    (intensity_halve (intensity_halve_times 7 data num_leds) num_leds).2 = 0 := by
  subst hlen
  have h7 := intensity_halve_times_eq 7 data
  have h8 := intensity_halve_times_eq 8 data
  have hblank : ∀ c ∈ data.map (RGB.halve^[8]), c = blank := by
    intro c hc
    obtain ⟨x, hx, rfl⟩ := List.mem_map.mp hc
    obtain ⟨hg, hr, hb⟩ := hwf x hx
    rw [halve_iterate]
    simp only [blank, RGB.mk.injEq]
    norm_num
    omega
  have hih := intensity_halve_eq (data.map (RGB.halve^[7]))
  rw [List.length_map] at hih
  have hmap : (data.map (RGB.halve^[7])).map RGB.halve = data.map (RGB.halve^[8]) := by
    rw [List.map_map]
    rfl
  rw [h8, h7, hih, hmap]
  refine ⟨by simp, hblank, rfl, ?_⟩
  simp only
  rw [(count_nonzero_eq_zero _).mpr hblank]

/-- Instance of C10 on the all-255 buffer. -/
theorem intensity_halve_eight_times_witness :
    ((uniform_buffer 255).length = 18 ∧ ∀ c ∈ uniform_buffer 255, c.wf) ∧
    ((intensity_halve_times 8 (uniform_buffer 255) 18).length = 18 ∧
      (∀ c ∈ intensity_halve_times 8 (uniform_buffer 255) 18, c = blank) ∧
      intensity_halve_times 8 (uniform_buffer 255) 18 =
        (intensity_halve (intensity_halve_times 7 (uniform_buffer 255) 18) 18).1 ∧
      (intensity_halve (intensity_halve_times 7 (uniform_buffer 255) 18) 18).2 = 0) :=
  ⟨⟨by decide, by decide⟩,
    intensity_halve_eight_times (uniform_buffer 255) 18 (by decide) (by decide)⟩

/-- C11: `fill_rainbow_colours` with `num_leds = 18` succeeds; LEDs 0, 6 and 12
hold the pure primaries red, green and blue, no other LED holds a pure
primary, and at the five positions after the start of sector `s` the
sector's primary channel takes the table values 127, 102, 76, 51, 26
(strictly decreasing), the next primary's channel takes 26, 51, 76, 102, 127
(strictly increasing) and the third channel is 0. -/
theorem rainbow_18_layout (led_data : List RGB) (hlen : led_data.length = 18) :
    ∃ out, fill_rainbow_colours led_data 18 = some out ∧ out.length = 18 ∧
      (∀ s : Nat, s < 3 → ∃ led, out[6 * s]? = some led ∧ led.pure_primary s = true) ∧
      (∀ i : Nat, i < 18 → ∃ led, out[i]? = some led ∧
        ((∃ p : Nat, p < 3 ∧ led.pure_primary p = true) ↔ i ∈ [0, 6, 12])) ∧
      (∀ s j : Nat, s < 3 → 1 ≤ j → j ≤ 5 → ∃ led, out[6 * s + j]? = some led ∧
        led.primary s = [127, 102, 76, 51, 26].getD (j - 1) 0 ∧
        led.primary ((s + 1) % 3) = [26, 51, 76, 102, 127].getD (j - 1) 0 ∧
        led.primary ((s + 2) % 3) = 0) ∧
      intermediate_colours[3]? = some [127, 102, 76, 51, 26] ∧
      List.Pairwise (· > ·) [127, 102, 76, 51, 26] ∧
      List.Pairwise (· < ·) [26, 51, 76, 102, 127] := by
  refine ⟨rainbow_18, fill_rainbow_colours_18 led_data hlen, rfl, ?_, ?_, ?_, rfl, ?_, ?_⟩
  · decide
  · intro i hi
    interval_cases i <;> exact ⟨_, rfl, by decide⟩
  · intro s j hs hj1 hj5
    interval_cases s <;> interval_cases j <;> exact ⟨_, rfl, by decide⟩
  · decide
  · decide

/-- Instance of C11 on the blank buffer. -/
theorem rainbow_18_layout_witness :
    (uniform_buffer 0).length = 18 ∧
    ∃ out, fill_rainbow_colours (uniform_buffer 0) 18 = some out ∧ out.length = 18 ∧
      (∀ s : Nat, s < 3 → ∃ led, out[6 * s]? = some led ∧ led.pure_primary s = true) ∧
      (∀ i : Nat, i < 18 → ∃ led, out[i]? = some led ∧
        ((∃ p : Nat, p < 3 ∧ led.pure_primary p = true) ↔ i ∈ [0, 6, 12])) ∧
      (∀ s j : Nat, s < 3 → 1 ≤ j → j ≤ 5 → ∃ led, out[6 * s + j]? = some led ∧
        led.primary s = [127, 102, 76, 51, 26].getD (j - 1) 0 ∧
        led.primary ((s + 1) % 3) = [26, 51, 76, 102, 127].getD (j - 1) 0 ∧
        led.primary ((s + 2) % 3) = 0) ∧
      intermediate_colours[3]? = some [127, 102, 76, 51, 26] ∧
      List.Pairwise (· > ·) [127, 102, 76, 51, 26] ∧
      List.Pairwise (· < ·) [26, 51, 76, 102, 127] :=
  ⟨by decide, rainbow_18_layout (uniform_buffer 0) (by decide)⟩

/-- C12 fails on the code: for every `num_leds` above 18 and every buffer the
call does not stay inside its arrays.  After LEDs 0..17 `current_colour` is 3,
so the store `current_triplet[current_colour] = 127` made for LED 18 is
outside the 3-element array. -/
theorem rainbow_above_18_leaves_triplet (led_data : List RGB) (num_leds : Nat)
    (h : 18 < num_leds) :
    fill_rainbow_colours led_data num_leds = none ∧
    ∀ s, fill_rainbow_loop 6 (List.range 18)
        { data := led_data, current_colour := 0, current_triplet := [0, 0, 0] } = some s →
      s.current_colour = 3 ∧ fill_rainbow_body 6 s 18 = none := by
  refine ⟨?_, fun s hs => ?_⟩
  swap
  · have hc := fill_rainbow_loop_colour _ rfl 18 (le_refl _) s hs
    exact ⟨hc, fill_rainbow_body_18 s hc⟩
  obtain ⟨m, rfl⟩ : ∃ m, num_leds = 18 + (m + 1) := ⟨num_leds - 19, by omega⟩
  unfold fill_rainbow_colours
  simp only [show 18 + (m + 1) > 18 by omega, if_true, show 18 / 3 = 6 by decide]
  have hr : (List.range (m + 1)).map (fun x => 18 + x) =
      18 :: (List.range m).map (fun x => 18 + (x + 1)) := by
    rw [List.range_succ_eq_map, List.map_cons, List.map_map]
    rfl
  rw [List.range_add, fill_rainbow_loop_append, hr]
  cases h1 : fill_rainbow_loop 6 (List.range 18)
      { data := led_data, current_colour := 0, current_triplet := [0, 0, 0] } with
  | none => rfl
  | some s1 =>
    have hc := fill_rainbow_loop_colour _ rfl 18 (le_refl _) s1 h1
    simp only [Option.some_bind, fill_rainbow_loop, Nat.add_zero,
      fill_rainbow_body_18 s1 (by rw [hc])]

/-- Instance of the C12 finding for 19 LEDs. -/
theorem rainbow_above_18_leaves_triplet_witness :
    18 < 19 ∧
    (fill_rainbow_colours (List.replicate 19 blank) 19 = none ∧
      ∀ s, fill_rainbow_loop 6 (List.range 18)
          { data := List.replicate 19 blank, current_colour := 0,
            current_triplet := [0, 0, 0] } = some s →
        s.current_colour = 3 ∧ fill_rainbow_body 6 s 18 = none) :=
  ⟨by decide, rainbow_above_18_leaves_triplet (List.replicate 19 blank) 19 (by decide)⟩

/-- C13 (amended): from the idle, acknowledged state, with the button read
pressed on the first 5 ticks and released afterwards, no event flag is ever
set and `isr_short_press` stays clear; the counter counts the ticks up to
100 and the tick entered with the counter at 100 resets it, after which the
state is the initial one again.  A short press needs the button still pressed
on the tick entered with the counter at `DEBOUNCE_COUNT_SHORT`: pressed on the
first 11 ticks and released afterwards, no event flag is set during the first
45 ticks and the tick entered with the counter at `DEBOUNCE_COUNT_MID` = 45
sets `short_press`, clears the acknowledged marker and leaves the counter and
`isr_short_press` at 0. -/
theorem five_tick_press_no_event :
    (∀ n : Nat,
      (ISR_run (fun k => decide (k < 5)) n Shared.init).short_press = 0 ∧
      (ISR_run (fun k => decide (k < 5)) n Shared.init).long_press = 0 ∧
      (ISR_run (fun k => decide (k < 5)) n Shared.init).isr_short_press = 0 ∧
      (ISR_run (fun k => decide (k < 5)) n Shared.init).button_press_acknowledged = 1) ∧
    (∀ n : Nat, n ≤ 100 →
      (ISR_run (fun k => decide (k < 5)) n Shared.init).current_debounce_count = n) ∧
    (∀ n : Nat, 101 ≤ n → ISR_run (fun k => decide (k < 5)) n Shared.init = Shared.init) ∧
    (∀ n : Nat, n ≤ 45 →
      (ISR_run (fun k => decide (k < 11)) n Shared.init).short_press = 0 ∧
      (ISR_run (fun k => decide (k < 11)) n Shared.init).long_press = 0 ∧
      (ISR_run (fun k => decide (k < 11)) n Shared.init).current_debounce_count = n) ∧
    DEBOUNCE_COUNT_MID = 45 ∧
    ISR_run (fun k => decide (k < 11)) 46 Shared.init =
      { Shared.init with short_press := 1, button_press_acknowledged := 0 } := by
  have hlate : ∀ n : Nat, 101 ≤ n →
      ISR_run (fun k => decide (k < 5)) n Shared.init = Shared.init := by
    intro n hn
    rw [ISR_run_const_from (fun k => decide (k < 5)) Shared.init 101 ?_ n hn, five_tick_run_101]
    intro k hk
    have hb : decide (k < 5) = false := by
      simp only [decide_eq_false_iff_not]
      omega
    rw [five_tick_run_101]
    show TIM0_COMPA_vect Shared.init (decide (k < 5)) = Shared.init
    rw [hb]
    decide
  refine ⟨?_, ?_, hlate, ?_, by decide, eleven_tick_run_46⟩
  · intro n
    by_cases hn : n < 101
    · have h := five_tick_run n hn
      simp only [Shared.debounce_fields, Prod.mk.injEq] at h
      exact ⟨h.1, h.2.2.1, h.2.1, h.2.2.2.2⟩
    · rw [hlate n (by omega)]
      decide
  · intro n hn
    have h := five_tick_run n (by omega)
    simp only [Shared.debounce_fields, Prod.mk.injEq] at h
    exact h.2.2.2.1
  · intro n hn
    have h := eleven_tick_run n (by omega)
    simp only [Shared.debounce_fields, Prod.mk.injEq] at h
    exact ⟨h.1, h.2.2.1, h.2.2.2.1⟩

/-- C13 fails as stated: with the button pressed on the first 5 ticks only,
`short_press` is clear and the counter is not reset after 50 ticks and after
51 ticks. -/
theorem five_tick_press_no_short_at_50 :
    (ISR_run (fun k => decide (k < 5)) 50 Shared.init).short_press = 0 ∧
    (ISR_run (fun k => decide (k < 5)) 50 Shared.init).current_debounce_count = 50 ∧
    (ISR_run (fun k => decide (k < 5)) 51 Shared.init).short_press = 0 ∧
    (ISR_run (fun k => decide (k < 5)) 51 Shared.init).current_debounce_count = 51 := by
  have h50 := five_tick_run 50 (by decide)
  have h51 := five_tick_run 51 (by decide)
  simp only [Shared.debounce_fields, Prod.mk.injEq] at h50 h51
  exact ⟨h50.1, h50.2.2.2.1, h51.1, h51.2.2.2.1⟩

/-- C14: from the idle, acknowledged state with the button read pressed on
every tick, tick `k` (counted from 0) is entered with the counter at `k` for
`k ≤ 100`; the tick entered with the counter at `DEBOUNCE_COUNT_LONG` = 100
(the 101st execution of the handler) sets `long_press`, and it is the only
tick that changes `long_press`; `short_press` is never set. -/
theorem held_press_single_long_press :
    (∀ n : Nat, n ≤ 100 →
      (ISR_run (fun _ => true) n Shared.init).current_debounce_count = n ∧
      (ISR_run (fun _ => true) n Shared.init).long_press = 0 ∧
      (ISR_run (fun _ => true) n Shared.init).short_press = 0) ∧
    DEBOUNCE_COUNT_LONG = 100 ∧
    ISR_run (fun _ => true) 101 Shared.init =
      { Shared.init with long_press := 1, button_press_acknowledged := 0 } ∧
    (∀ n : Nat, 101 ≤ n →
      ISR_run (fun _ => true) n Shared.init = ISR_run (fun _ => true) 101 Shared.init) ∧
    (∀ k : Nat,
      (ISR_run (fun _ => true) k Shared.init).long_press ≠
        (ISR_run (fun _ => true) (k + 1) Shared.init).long_press ↔ k = 100) ∧
    (∀ n : Nat, (ISR_run (fun _ => true) n Shared.init).short_press = 0) := by
  have hearly : ∀ n : Nat, n ≤ 100 →
      (ISR_run (fun _ => true) n Shared.init).current_debounce_count = n ∧
      (ISR_run (fun _ => true) n Shared.init).long_press = 0 ∧
      (ISR_run (fun _ => true) n Shared.init).short_press = 0 := by
    intro n hn
    have h := held_run n (by omega)
    simp only [Shared.debounce_fields, Prod.mk.injEq] at h
    exact ⟨h.2.2.2.1, h.2.2.1, h.1⟩
  have hlate : ∀ n : Nat, 101 ≤ n →
      ISR_run (fun _ => true) n Shared.init = ISR_run (fun _ => true) 101 Shared.init := by
    intro n hn
    apply ISR_run_const_from (fun _ => true) Shared.init 101 _ n hn
    intro k _
    rw [held_run_101]
    exact TIM0_COMPA_vect_frozen _ _ rfl rfl
  refine ⟨hearly, rfl, held_run_101, hlate, ?_, ?_⟩
  · intro k
    constructor
    · intro hne
      by_contra hk
      by_cases hlt : k < 100
      · rw [(hearly k (by omega)).2.1, (hearly (k + 1) (by omega)).2.1] at hne
        exact hne rfl
      · rw [hlate k (by omega), hlate (k + 1) (by omega)] at hne
        exact hne rfl
    · rintro rfl
      rw [(hearly 100 (le_refl _)).2.1, held_run_101]
      decide
  · intro n
    by_cases hn : n ≤ 100
    · exact (hearly n hn).2.2
    · rw [hlate n (by omega), held_run_101]
      rfl

/-- C15 (amended): `DEBOUNCE_COUNT_MID` is 45.  In an acknowledged state a tick
with the counter strictly between `DEBOUNCE_COUNT_SHORT` and 45, or strictly
between 45 and `DEBOUNCE_COUNT_LONG`, only increments the counter whatever the
input; at 45 a tick with `isr_short_press` set and the button released sets
`short_press`, clears the acknowledged marker, the counter and
`isr_short_press`, and any other tick at 45 only increments the counter. -/
theorem mid_decision_at_45 (s : Shared) (button_clear : Bool)
    (hack : s.button_press_acknowledged ≠ 0) :
    DEBOUNCE_COUNT_MID = 45 ∧
    ((DEBOUNCE_COUNT_SHORT < s.current_debounce_count ∧ s.current_debounce_count < 45) ∨
        (45 < s.current_debounce_count ∧ s.current_debounce_count < DEBOUNCE_COUNT_LONG) →
      (TIM0_COMPA_vect s button_clear).debounce_fields =
        (s.short_press, s.isr_short_press, s.long_press, s.current_debounce_count + 1,
          s.button_press_acknowledged)) ∧
    (s.current_debounce_count = 45 → s.isr_short_press ≠ 0 → button_clear = false →
      (TIM0_COMPA_vect s button_clear).debounce_fields = (1, 0, s.long_press, 0, 0)) ∧
    (s.current_debounce_count = 45 → ¬ (s.isr_short_press ≠ 0 ∧ button_clear = false) →
      (TIM0_COMPA_vect s button_clear).debounce_fields =
        (s.short_press, s.isr_short_press, s.long_press, s.current_debounce_count + 1,
          s.button_press_acknowledged)) := by
  refine ⟨by decide, ?_, ?_, ?_⟩
  · intro hc
    rw [TIM0_COMPA_vect_debounce_fields, if_pos hack]
    simp only [DEBOUNCE_COUNT_SHORT, DEBOUNCE_COUNT_LONG] at hc
    have h0 : s.current_debounce_count ≠ 0 := by omega
    have h1 : s.current_debounce_count ≠ DEBOUNCE_COUNT_SHORT := by
      simp only [DEBOUNCE_COUNT_SHORT]; omega
    have h2 : s.current_debounce_count ≠ DEBOUNCE_COUNT_MID := by
      rw [show DEBOUNCE_COUNT_MID = 45 by decide]; omega
    have h3 : s.current_debounce_count ≠ DEBOUNCE_COUNT_LONG := by
      simp only [DEBOUNCE_COUNT_LONG]; omega
    have h4 : (s.current_debounce_count + 1) % 256 = s.current_debounce_count + 1 := by omega
    simp [debounce_switch, h0, h1, h2, h3, h4, Shared.debounce_fields]
  · intro hc hisr hb
    rw [TIM0_COMPA_vect_debounce_fields, if_pos hack]
    simp [debounce_switch, hc, hisr, hb, Shared.debounce_fields, DEBOUNCE_COUNT_SHORT,
      DEBOUNCE_COUNT_MID, DEBOUNCE_COUNT_LONG]
  · intro hc hnot
    rw [TIM0_COMPA_vect_debounce_fields, if_pos hack]
    simp [debounce_switch, hc, hnot, Shared.debounce_fields, DEBOUNCE_COUNT_SHORT,
      DEBOUNCE_COUNT_MID, DEBOUNCE_COUNT_LONG]

/-- Instance of the amended C15 at the counter value 45. -/
theorem mid_decision_at_45_witness :
    mid_sample.button_press_acknowledged ≠ 0 ∧
    (DEBOUNCE_COUNT_MID = 45 ∧
      ((DEBOUNCE_COUNT_SHORT < mid_sample.current_debounce_count ∧
            mid_sample.current_debounce_count < 45) ∨
          (45 < mid_sample.current_debounce_count ∧
            mid_sample.current_debounce_count < DEBOUNCE_COUNT_LONG) →
        (TIM0_COMPA_vect mid_sample false).debounce_fields =
          (mid_sample.short_press, mid_sample.isr_short_press, mid_sample.long_press,
            mid_sample.current_debounce_count + 1, mid_sample.button_press_acknowledged)) ∧
      (mid_sample.current_debounce_count = 45 → mid_sample.isr_short_press ≠ 0 →
        false = false →
        (TIM0_COMPA_vect mid_sample false).debounce_fields =
          (1, 0, mid_sample.long_press, 0, 0)) ∧
      (mid_sample.current_debounce_count = 45 →
        ¬ (mid_sample.isr_short_press ≠ 0 ∧ false = false) →
        (TIM0_COMPA_vect mid_sample false).debounce_fields =
          (mid_sample.short_press, mid_sample.isr_short_press, mid_sample.long_press,
            mid_sample.current_debounce_count + 1, mid_sample.button_press_acknowledged))) :=
  ⟨by decide, mid_decision_at_45 mid_sample false (by decide)⟩

/-- C15 fails as stated: 45 lies strictly between SHORT = 10 and 55, yet a tick
at counter 45 with `isr_short_press` set and the button released sets
`short_press` and resets the counter; the same tick at counter 55 only
increments the counter. -/
theorem mid_decision_not_at_55 :
    (DEBOUNCE_COUNT_SHORT < 45 ∧ 45 < 55) ∧
    (TIM0_COMPA_vect { Shared.init with current_debounce_count := 45, isr_short_press := 1 }
        false).debounce_fields = (1, 0, 0, 0, 0) ∧
    (TIM0_COMPA_vect { Shared.init with current_debounce_count := 55, isr_short_press := 1 }
        false).debounce_fields = (0, 1, 0, 56, 1) := by
  decide

/-- C16: in an acknowledged state with the counter at `DEBOUNCE_COUNT_LONG` =
100, a tick with the button pressed sets `long_press` and leaves `short_press`
as it was; with the button released and `isr_short_press` set it sets
`short_press` and leaves `long_press` as it was; with the button released and
`isr_short_press` clear it changes no event flag and stays acknowledged; in
all cases the counter and `isr_short_press` are 0 afterwards. -/
theorem long_count_classifies (s : Shared) (button_clear : Bool)
    (hack : s.button_press_acknowledged ≠ 0)
    (hc : s.current_debounce_count = DEBOUNCE_COUNT_LONG) :
    DEBOUNCE_COUNT_LONG = 100 ∧
    (button_clear = true →
      (TIM0_COMPA_vect s button_clear).long_press = 1 ∧
      (TIM0_COMPA_vect s button_clear).short_press = s.short_press ∧
      (TIM0_COMPA_vect s button_clear).button_press_acknowledged = 0) ∧
    (button_clear = false → s.isr_short_press ≠ 0 →
      (TIM0_COMPA_vect s button_clear).short_press = 1 ∧
      (TIM0_COMPA_vect s button_clear).long_press = s.long_press ∧
      (TIM0_COMPA_vect s button_clear).button_press_acknowledged = 0) ∧
    (button_clear = false → s.isr_short_press = 0 →
      (TIM0_COMPA_vect s button_clear).short_press = s.short_press ∧
      (TIM0_COMPA_vect s button_clear).long_press = s.long_press ∧
      (TIM0_COMPA_vect s button_clear).button_press_acknowledged =
        s.button_press_acknowledged) ∧
    (TIM0_COMPA_vect s button_clear).current_debounce_count = 0 ∧
    (TIM0_COMPA_vect s button_clear).isr_short_press = 0 := by
  have h := TIM0_COMPA_vect_debounce_fields s button_clear
  rw [if_pos hack] at h
  simp only [Shared.debounce_fields, Prod.mk.injEq] at h
  obtain ⟨h1, h2, h3, h4, h5⟩ := h
  rw [h1, h2, h3, h4, h5]
  refine ⟨rfl, ?_, ?_, ?_, ?_, ?_⟩
  · intro hb
    simp [debounce_switch, hc, hb, DEBOUNCE_COUNT_SHORT, DEBOUNCE_COUNT_MID,
      DEBOUNCE_COUNT_LONG]
  · intro hb hisr
    simp [debounce_switch, hc, hb, hisr, DEBOUNCE_COUNT_SHORT, DEBOUNCE_COUNT_MID,
      DEBOUNCE_COUNT_LONG]
  · intro hb hisr
    simp [debounce_switch, hc, hb, hisr, DEBOUNCE_COUNT_SHORT, DEBOUNCE_COUNT_MID,
      DEBOUNCE_COUNT_LONG]
  · cases button_clear <;> by_cases hisr : s.isr_short_press = 0 <;>
      simp [debounce_switch, hc, hisr, DEBOUNCE_COUNT_SHORT, DEBOUNCE_COUNT_MID,
        DEBOUNCE_COUNT_LONG]
  · cases button_clear <;> by_cases hisr : s.isr_short_press = 0 <;>
      simp [debounce_switch, hc, hisr, DEBOUNCE_COUNT_SHORT, DEBOUNCE_COUNT_MID,
        DEBOUNCE_COUNT_LONG]

/-- Instance of C16 with the button still pressed. -/
theorem long_count_classifies_witness :
    (long_sample.button_press_acknowledged ≠ 0 ∧
      long_sample.current_debounce_count = DEBOUNCE_COUNT_LONG) ∧
    (DEBOUNCE_COUNT_LONG = 100 ∧
      (true = true →
        (TIM0_COMPA_vect long_sample true).long_press = 1 ∧
        (TIM0_COMPA_vect long_sample true).short_press = long_sample.short_press ∧
        (TIM0_COMPA_vect long_sample true).button_press_acknowledged = 0) ∧
      (true = false → long_sample.isr_short_press ≠ 0 →
        (TIM0_COMPA_vect long_sample true).short_press = 1 ∧
        (TIM0_COMPA_vect long_sample true).long_press = long_sample.long_press ∧
        (TIM0_COMPA_vect long_sample true).button_press_acknowledged = 0) ∧
      (true = false → long_sample.isr_short_press = 0 →
        (TIM0_COMPA_vect long_sample true).short_press = long_sample.short_press ∧
        (TIM0_COMPA_vect long_sample true).long_press = long_sample.long_press ∧
        (TIM0_COMPA_vect long_sample true).button_press_acknowledged =
          long_sample.button_press_acknowledged) ∧
      (TIM0_COMPA_vect long_sample true).current_debounce_count = 0 ∧
      (TIM0_COMPA_vect long_sample true).isr_short_press = 0) :=
  ⟨⟨by decide, by decide⟩, long_count_classifies long_sample true (by decide) (by decide)⟩

/-- C17: a tick that executes one of the assignments `short_press = 1` or
`long_press = 1` also clears `button_press_acknowledged`; a tick that
executes neither leaves both event flags unchanged; and in a state with
`button_press_acknowledged` clear a tick leaves the counter,
`isr_short_press`, `short_press`, `long_press` and the marker unchanged,
whatever the input level. -/
theorem event_marks_unacknowledged (s : Shared) (button_clear : Bool) :
    (emits_event s button_clear = true →
      (TIM0_COMPA_vect s button_clear).button_press_acknowledged = 0 ∧
      ((TIM0_COMPA_vect s button_clear).short_press = 1 ∨
        (TIM0_COMPA_vect s button_clear).long_press = 1)) ∧
    (emits_event s button_clear = false →
      (TIM0_COMPA_vect s button_clear).short_press = s.short_press ∧
      (TIM0_COMPA_vect s button_clear).long_press = s.long_press) ∧
    (s.button_press_acknowledged = 0 →
      (TIM0_COMPA_vect s button_clear).current_debounce_count = s.current_debounce_count ∧
      (TIM0_COMPA_vect s button_clear).isr_short_press = s.isr_short_press ∧
      (TIM0_COMPA_vect s button_clear).short_press = s.short_press ∧
      (TIM0_COMPA_vect s button_clear).long_press = s.long_press ∧
      (TIM0_COMPA_vect s button_clear).button_press_acknowledged = 0) := by
  have h := TIM0_COMPA_vect_debounce_fields s button_clear
  simp only [Shared.debounce_fields, Prod.mk.injEq] at h
  obtain ⟨h1, h2, h3, h4, h5⟩ := h
  rw [h1, h2, h3, h4, h5]
  by_cases hack : s.button_press_acknowledged = 0
  · simp [emits_event, hack]
  · simp only [emits_event, hack, ne_eq, not_false_eq_true, decide_True, Bool.true_and, if_true,
      false_implies, and_true]
    by_cases c0 : s.current_debounce_count = 0
    · cases button_clear <;>
        simp [debounce_switch, c0, DEBOUNCE_COUNT_SHORT, DEBOUNCE_COUNT_MID, DEBOUNCE_COUNT_LONG]
    by_cases c1 : s.current_debounce_count = 10
    · cases button_clear <;>
        simp [debounce_switch, c1, DEBOUNCE_COUNT_SHORT, DEBOUNCE_COUNT_MID, DEBOUNCE_COUNT_LONG]
    by_cases c2 : s.current_debounce_count = 45
    · cases button_clear <;> by_cases hisr : s.isr_short_press = 0 <;>
        simp [debounce_switch, c2, hisr, DEBOUNCE_COUNT_SHORT, DEBOUNCE_COUNT_MID,
          DEBOUNCE_COUNT_LONG]
    by_cases c3 : s.current_debounce_count = 100
    · cases button_clear <;> by_cases hisr : s.isr_short_press = 0 <;>
        simp [debounce_switch, c3, hisr, DEBOUNCE_COUNT_SHORT, DEBOUNCE_COUNT_MID,
          DEBOUNCE_COUNT_LONG]
    · simp [debounce_switch, c0, c1, c2, c3, DEBOUNCE_COUNT_SHORT, DEBOUNCE_COUNT_MID,
        DEBOUNCE_COUNT_LONG]

/-- C18 fails on the code: a long press followed by a main-loop pass turns demo
mode on; a short press then sets `short_press` and clears the acknowledged
marker; the event handling of `main` leaves that state as it is (outside demo
mode the same state is acknowledged), and after any further sequence of ticks
and main-loop passes the marker is still clear, `short_press` still set,
`long_press` clear and demo mode on. -/
theorem demo_mode_short_press_sticks :
    system_run demo_short_press_trace Shared.init = demo_stuck_state ∧
    main_events demo_stuck_state = demo_stuck_state ∧
    (∀ steps : List Step,
      (system_run steps demo_stuck_state).button_press_acknowledged = 0 ∧
      (system_run steps demo_stuck_state).short_press = 1 ∧
      (system_run steps demo_stuck_state).long_press = 0 ∧
      (system_run steps demo_stuck_state).demo_mode = 1) ∧
    main_events { demo_stuck_state with demo_mode := 0 } =
      { demo_stuck_state with
        demo_mode := 0, short_press := 0, button_press_acknowledged := 1, next_pattern := 1 } :=
  ⟨demo_short_press_trace_run, by decide,
    fun steps => demo_stuck_run steps demo_stuck_state (by decide), by decide⟩

/-- C19: with demo mode on and the demo counter at 0, after `n` ticks the demo
counter is `n mod 500` (so below 500), tick number `n + 1` sets `next_pattern`
and leaves the counter at 0 when `n + 1` is a multiple of 500 and leaves
`next_pattern` unchanged otherwise; with demo mode off a tick changes neither
the demo counter nor `next_pattern`. -/
theorem demo_timer_period (button_clear : Nat → Bool) (s : Shared)
    (hdemo : s.demo_mode ≠ 0) (hzero : s.demo_time_counter = 0) :
    DEMO_TIME_COUNT = 500 ∧
    (∀ n : Nat,
      (ISR_run button_clear n s).demo_mode = s.demo_mode ∧
      (ISR_run button_clear n s).demo_time_counter = n % 500 ∧
      (ISR_run button_clear n s).demo_time_counter < 500 ∧
      ((n + 1) % 500 = 0 →
        (ISR_run button_clear (n + 1) s).next_pattern = 1 ∧
        (ISR_run button_clear (n + 1) s).demo_time_counter = 0) ∧
      ((n + 1) % 500 ≠ 0 →
        (ISR_run button_clear (n + 1) s).next_pattern =
          (ISR_run button_clear n s).next_pattern)) ∧
    (∀ (t : Shared) (b : Bool), t.demo_mode = 0 →
      (TIM0_COMPA_vect t b).demo_time_counter = t.demo_time_counter ∧
      (TIM0_COMPA_vect t b).next_pattern = t.next_pattern) := by
  have hrun : ∀ n : Nat, (ISR_run button_clear n s).demo_mode = s.demo_mode ∧
      (ISR_run button_clear n s).demo_time_counter = n % 500 := by
    intro n
    induction n with
    | zero => exact ⟨rfl, by simp [ISR_run, hzero]⟩
    | succ n ih =>
      obtain ⟨hm, hc, -⟩ := TIM0_COMPA_vect_demo (ISR_run button_clear n s) (button_clear n)
      refine ⟨by rw [ISR_run, hm, ih.1], ?_⟩
      rw [ISR_run, hc, ih.1, ih.2, if_pos hdemo]
      simp only [DEMO_TIME_COUNT]
      split_ifs <;> omega
  refine ⟨rfl, ?_, ?_⟩
  · intro n
    obtain ⟨hm, hc⟩ := hrun n
    obtain ⟨hm1, hc1⟩ := hrun (n + 1)
    obtain ⟨-, -, hn⟩ := TIM0_COMPA_vect_demo (ISR_run button_clear n s) (button_clear n)
    have hnp : (ISR_run button_clear (n + 1) s).next_pattern =
        (if (n + 1) % 500 = 0 then 1 else (ISR_run button_clear n s).next_pattern) := by
      rw [ISR_run, hn, hm, hc]
      simp only [DEMO_TIME_COUNT]
      by_cases h5 : (n + 1) % 500 = 0
      · rw [if_pos ⟨hdemo, by omega⟩, if_pos h5]
      · rw [if_neg (by intro h; omega), if_neg h5]
    refine ⟨hm, hc, by rw [hc]; omega, ?_, ?_⟩
    · intro h5
      exact ⟨by rw [hnp, if_pos h5], by rw [hc1, h5]⟩
    · intro h5
      rw [hnp, if_neg h5]
  · intro t b ht
    obtain ⟨-, hc, hn⟩ := TIM0_COMPA_vect_demo t b
    rw [hc, hn]
    simp [ht]

/-- Instance of C19 from the initial state with demo mode on. -/
theorem demo_timer_period_witness :
    (demo_sample.demo_mode ≠ 0 ∧ demo_sample.demo_time_counter = 0) ∧
    (DEMO_TIME_COUNT = 500 ∧
      (∀ n : Nat,
        (ISR_run (fun _ => false) n demo_sample).demo_mode = demo_sample.demo_mode ∧
        (ISR_run (fun _ => false) n demo_sample).demo_time_counter = n % 500 ∧
        (ISR_run (fun _ => false) n demo_sample).demo_time_counter < 500 ∧
        ((n + 1) % 500 = 0 →
          (ISR_run (fun _ => false) (n + 1) demo_sample).next_pattern = 1 ∧
          (ISR_run (fun _ => false) (n + 1) demo_sample).demo_time_counter = 0) ∧
        ((n + 1) % 500 ≠ 0 →
          (ISR_run (fun _ => false) (n + 1) demo_sample).next_pattern =
            (ISR_run (fun _ => false) n demo_sample).next_pattern)) ∧
      (∀ (t : Shared) (b : Bool), t.demo_mode = 0 →
        (TIM0_COMPA_vect t b).demo_time_counter = t.demo_time_counter ∧
        (TIM0_COMPA_vect t b).next_pattern = t.next_pattern)) :=
  ⟨⟨by decide, by decide⟩, demo_timer_period (fun _ => false) demo_sample (by decide) (by decide)⟩

/-- C20: for trilobe (seed `0b00111000`, highest set bit 6) and tricircle (seed
`0b00001000`, highest set bit 4), with `h` the position of the seed's highest
set bit: the seed shifted right `k < h` times is nonzero and shifted `h` times
is 0; after the `New` call and `n` further calls the stored mask is the seed
shifted right `(n / 16) mod h` times, a cadence tick being every 16th call;
so the stored mask is never 0, it is the seed again after `h` cadence ticks,
and the masks repeat with period `h` cadence ticks. -/
theorem reveal_mask_cycle (pf : patternfunc) (hpf : pf ∈ pattern_functions) (seed : Nat)
    (hseed : pf.mask_seed = some seed) (rand : Nat → Nat) (data : List RGB) (g : Globals) :
    highest_set_bit TRILOBE_INITIAL_STATE = 6 ∧ highest_set_bit TRICIRCLE_INITIAL_STATE = 4 ∧
    seed >>> highest_set_bit seed = 0 ∧
    (∀ k : Nat, k < highest_set_bit seed → seed >>> k ≠ 0) ∧
    ∀ n : Nat, ∃ o o1,
      pattern_run pf rand (n + 1) ⟨PATTERN_STATUS_NEW, data, g⟩ = some o ∧
      o.g.trilobe_initial_state =
        seed >>> ((n / (COLOUR_WALK_COUNT + 1)) % highest_set_bit seed) ∧
      o.g.trilobe_initial_state ≠ 0 ∧
      pattern_run pf rand (n + (COLOUR_WALK_COUNT + 1) * highest_set_bit seed + 1)
        ⟨PATTERN_STATUS_NEW, data, g⟩ = some o1 ∧
      o1.g.trilobe_initial_state = o.g.trilobe_initial_state := by
  have hnz : ∀ k : Nat, k < highest_set_bit seed → seed >>> k ≠ 0 := by
    rcases mask_seed_cases pf seed hseed with rfl | rfl
    · rw [show highest_set_bit 56 = 6 by decide]
      intro k hk
      interval_cases k <;> decide
    · rw [show highest_set_bit 8 = 4 by decide]
      intro k hk
      interval_cases k <;> decide
  have hpos : 0 < highest_set_bit seed := by
    rcases mask_seed_cases pf seed hseed with rfl | rfl <;> decide
  refine ⟨by decide, by decide, ?_, hnz, ?_⟩
  · rcases mask_seed_cases pf seed hseed with rfl | rfl <;> decide
  · intro n
    obtain ⟨o, ho, hm⟩ := reveal_mask_run pf hpf seed hseed rand data g n
    obtain ⟨o1, ho1, hm1⟩ := reveal_mask_run pf hpf seed hseed rand data g
      (n + (COLOUR_WALK_COUNT + 1) * highest_set_bit seed)
    refine ⟨o, o1, ho, hm, ?_, ho1, ?_⟩
    · rw [hm]
      exact hnz _ (Nat.mod_lt _ hpos)
    · rw [hm1, hm]
      simp only [COLOUR_WALK_COUNT]
      rw [show (n + (15 + 1) * highest_set_bit seed) / 16 = n / 16 + highest_set_bit seed by
        omega, Nat.add_mod_right]

/-- Instance of C20 for trilobe. -/
theorem reveal_mask_cycle_witness :
    (patternfunc.trilobe ∈ pattern_functions ∧
      patternfunc.trilobe.mask_seed = some TRILOBE_INITIAL_STATE) ∧
    (highest_set_bit TRILOBE_INITIAL_STATE = 6 ∧ highest_set_bit TRICIRCLE_INITIAL_STATE = 4 ∧
      TRILOBE_INITIAL_STATE >>> highest_set_bit TRILOBE_INITIAL_STATE = 0 ∧
      (∀ k : Nat, k < highest_set_bit TRILOBE_INITIAL_STATE → TRILOBE_INITIAL_STATE >>> k ≠ 0) ∧
      ∀ n : Nat, ∃ o o1,
        pattern_run .trilobe (fun _ => 0) (n + 1) ⟨PATTERN_STATUS_NEW, uniform_buffer 0, ⟨0, 0, 0⟩⟩ =
          some o ∧
        o.g.trilobe_initial_state =
          TRILOBE_INITIAL_STATE >>>
            ((n / (COLOUR_WALK_COUNT + 1)) % highest_set_bit TRILOBE_INITIAL_STATE) ∧
        o.g.trilobe_initial_state ≠ 0 ∧
        pattern_run .trilobe (fun _ => 0)
            (n + (COLOUR_WALK_COUNT + 1) * highest_set_bit TRILOBE_INITIAL_STATE + 1)
            ⟨PATTERN_STATUS_NEW, uniform_buffer 0, ⟨0, 0, 0⟩⟩ = some o1 ∧
        o1.g.trilobe_initial_state = o.g.trilobe_initial_state) :=
  ⟨⟨by decide, rfl⟩,
    reveal_mask_cycle .trilobe (by decide) TRILOBE_INITIAL_STATE rfl (fun _ => 0) (uniform_buffer 0)
      ⟨0, 0, 0⟩⟩

/-- C21: for an 18-LED buffer the three LED groups of trilobe are the index
ranges 12..17, 6..11, 0..5 and the three of tricircle are the rings
{0,4,7,10,13,16}, {1,3,6,9,12,15}, {2,5,8,11,14,17}; in both cases the groups
listed one after the other are a rearrangement of 0..17, so they are pairwise
disjoint and cover the buffer.  On a cadence tick (status other than New,
counter at the cadence value) the buffer returned is determined by the shifted
mask alone, whatever the buffer held before: every LED of group `grp` holds
the colour assigned to the group (for tricircle the colour built from the
parameter) if bit `grp` of the shifted mask is set, and is blank otherwise. -/
theorem cadence_buffer_from_mask (rand : Nat → Nat) (data : List RGB)
    (hlen : data.length = NUM_LEDS) (status : Nat) (hs : status ≠ PATTERN_STATUS_NEW)
    (g : Globals) (hc : g.pattern_counter = COLOUR_WALK_COUNT) (colour_type : Nat)
    (hct : patternfunc.tricircle colour_type ∈ pattern_functions) :
    (trilobe_groups = [[12, 13, 14, 15, 16, 17], [6, 7, 8, 9, 10, 11], [0, 1, 2, 3, 4, 5]] ∧
      trilobe_groups.flatten.Perm (List.range 18)) ∧
    (tricircle_fill_funcs =
        [[0, 4, 7, 10, 13, 16], [1, 3, 6, 9, 12, 15], [2, 5, 8, 11, 14, 17]] ∧
      tricircle_fill_funcs.flatten.Perm (List.range 18)) ∧
    ((trilobe data NUM_LEDS status g).data.length = 18 ∧
      ∀ grp i : Nat, grp < 3 → i ∈ trilobe_groups.getD grp [] →
        (trilobe data NUM_LEDS status g).data[i]? =
          some (if IS_BIT_SET (g.trilobe_initial_state >>> 1) grp then
            trilobe_colours.getD grp blank else blank)) ∧
    ∃ o colour, tricircle rand data NUM_LEDS status colour_type g = some o ∧
      (get_colour_from_parameter rand colour_type g).1 = some colour ∧
      o.data.length = 18 ∧
      ∀ grp i : Nat, grp < 3 → i ∈ tricircle_fill_funcs.getD grp [] →
        o.data[i]? =
          some (if IS_BIT_SET (g.trilobe_initial_state >>> 1) grp then colour else blank) := by
  refine ⟨⟨by decide, by decide⟩, ⟨by decide, by decide⟩, ?_, ?_⟩
  · have hdata : (trilobe data NUM_LEDS status g).data =
        (List.range 18).map (fun i =>
          if IS_BIT_SET (g.trilobe_initial_state >>> 1) (group_of trilobe_groups i) then
            trilobe_colours.getD (group_of trilobe_groups i) blank
          else blank) := by
      simp only [trilobe, if_neg hs, hc, if_true]
      exact trilobe_cadence_data _ data hlen
    rw [hdata]
    refine ⟨by simp, ?_⟩
    intro grp i hgrp hi
    obtain ⟨hi18, hgo⟩ := trilobe_groups_member grp hgrp i hi
    rw [getElem?_map_range _ 18 i hi18, hgo]
  · have harg : colour_type < 4 := table_colour_arg _ hct
    obtain ⟨colour, hcol⟩ : ∃ c, (get_colour_from_parameter rand colour_type g).1 = some c := by
      unfold get_colour_from_parameter
      simp only [SINGLE_COLOUR_RED, SINGLE_COLOUR_GREEN, SINGLE_COLOUR_BLUE,
        SINGLE_COLOUR_RANDOM]
      rcases lt_four_cases colour_type harg with rfl | rfl | rfl | rfl <;> simp
    refine ⟨_, colour, by simp only [tricircle, hcol, if_neg hs, hc, if_true]; rfl, hcol, ?_, ?_⟩
    · show ((List.range 3).foldl (tricircle_bit colour (g.trilobe_initial_state >>> 1))
        data).length = 18
      rw [tricircle_cadence_data colour _ data hlen]
      simp
    · intro grp i hgrp hi
      obtain ⟨hi18, hgo⟩ := tricircle_groups_member grp hgrp i hi
      show ((List.range 3).foldl (tricircle_bit colour (g.trilobe_initial_state >>> 1))
        data)[i]? = _
      rw [tricircle_cadence_data colour _ data hlen, getElem?_map_range _ 18 i hi18, hgo]

/-- Instance of C21: a cadence tick on the buffer with every channel 7 and
mask 0b00111000, red colour parameter. -/
theorem cadence_buffer_from_mask_witness :
    ((uniform_buffer 7).length = NUM_LEDS ∧ PATTERN_STATUS_REFRESH ≠ PATTERN_STATUS_NEW ∧
      (⟨15, 0b00111000, 0⟩ : Globals).pattern_counter = COLOUR_WALK_COUNT ∧
      patternfunc.tricircle SINGLE_COLOUR_RED ∈ pattern_functions) ∧
    ((trilobe_groups = [[12, 13, 14, 15, 16, 17], [6, 7, 8, 9, 10, 11], [0, 1, 2, 3, 4, 5]] ∧
      trilobe_groups.flatten.Perm (List.range 18)) ∧
    (tricircle_fill_funcs =
        [[0, 4, 7, 10, 13, 16], [1, 3, 6, 9, 12, 15], [2, 5, 8, 11, 14, 17]] ∧
      tricircle_fill_funcs.flatten.Perm (List.range 18)) ∧
    ((trilobe (uniform_buffer 7) NUM_LEDS PATTERN_STATUS_REFRESH ⟨15, 0b00111000, 0⟩).data.length
        = 18 ∧
      ∀ grp i : Nat, grp < 3 → i ∈ trilobe_groups.getD grp [] →
        (trilobe (uniform_buffer 7) NUM_LEDS PATTERN_STATUS_REFRESH ⟨15, 0b00111000, 0⟩).data[i]? =
          some (if IS_BIT_SET ((⟨15, 0b00111000, 0⟩ : Globals).trilobe_initial_state >>> 1) grp
            then trilobe_colours.getD grp blank else blank)) ∧
    ∃ o colour, tricircle (fun _ => 0) (uniform_buffer 7) NUM_LEDS PATTERN_STATUS_REFRESH
          SINGLE_COLOUR_RED ⟨15, 0b00111000, 0⟩ = some o ∧
      (get_colour_from_parameter (fun _ => 0) SINGLE_COLOUR_RED ⟨15, 0b00111000, 0⟩).1 =
        some colour ∧
      o.data.length = 18 ∧
      ∀ grp i : Nat, grp < 3 → i ∈ tricircle_fill_funcs.getD grp [] →
        o.data[i]? =
          some (if IS_BIT_SET ((⟨15, 0b00111000, 0⟩ : Globals).trilobe_initial_state >>> 1) grp
            then colour else blank)) :=
  ⟨⟨by decide, by decide, by decide, by decide⟩,
    cadence_buffer_from_mask (fun _ => 0) (uniform_buffer 7) (by decide) PATTERN_STATUS_REFRESH
      (by decide) ⟨15, 0b00111000, 0⟩ (by decide) SINGLE_COLOUR_RED (by decide)⟩

/-- C22, amended: solid fill in random mode draws three bytes per call, not
three per LED.  Every call of `fill_single_colour` with
`SINGLE_COLOUR_RANDOM` on a buffer of `num_leds` LEDs advances the random
stream by exactly 3 draws, whatever the status; called with New it stores the
one colour built from these three draws (red, green, blue in draw order, each
byte divided by 4) into every LED, so all LEDs hold the same colour; called
with any other status it leaves the buffer as it is. -/
theorem single_random_colour (rand : Nat → Nat) (data : List RGB) (num_leds : Nat)
    (hlen : data.length = num_leds) (status : Nat) (g : Globals) :
    (fill_single_colour rand data num_leds status SINGLE_COLOUR_RANDOM g).g =
      { g with rand_calls := g.rand_calls + 3 } ∧
    (status = PATTERN_STATUS_NEW →
      (fill_single_colour rand data num_leds status SINGLE_COLOUR_RANDOM g).data =
        List.replicate num_leds (drawn_colour rand g.rand_calls)) ∧
    (status ≠ PATTERN_STATUS_NEW →
      (fill_single_colour rand data num_leds status SINGLE_COLOUR_RANDOM g).data = data) := by
  obtain ⟨hcol, hg⟩ := random_triplet_drawn rand g
  refine ⟨?_, ?_, ?_⟩
  · simp only [fill_single_colour, if_true]
    split_ifs <;> exact hg
  · rintro rfl
    subst hlen
    simp only [fill_single_colour, if_true, single_colour_value, SINGLE_COLOUR_RANDOM,
      SINGLE_COLOUR_RED, SINGLE_COLOUR_GREEN, SINGLE_COLOUR_BLUE, OfNat.ofNat_ne_zero,
      if_false, show (3 : Nat) ≠ 1 by decide, show (3 : Nat) ≠ 2 by decide]
    rw [← hcol]
    exact foldl_set_replicate _ data
  · intro hs
    simp only [fill_single_colour, if_neg hs]

/-- Instance of C22 (amended): a New call on the blank 18-LED buffer. -/
theorem single_random_colour_witness :
    (uniform_buffer 0).length = 18 ∧
    ((fill_single_colour (fun k => 4 * k) (uniform_buffer 0) 18 PATTERN_STATUS_NEW
          SINGLE_COLOUR_RANDOM ⟨0, 0, 7⟩).g =
        { (⟨0, 0, 7⟩ : Globals) with rand_calls := (⟨0, 0, 7⟩ : Globals).rand_calls + 3 } ∧
      (PATTERN_STATUS_NEW = PATTERN_STATUS_NEW →
        (fill_single_colour (fun k => 4 * k) (uniform_buffer 0) 18 PATTERN_STATUS_NEW
            SINGLE_COLOUR_RANDOM ⟨0, 0, 7⟩).data =
          List.replicate 18 (drawn_colour (fun k => 4 * k) (⟨0, 0, 7⟩ : Globals).rand_calls)) ∧
      (PATTERN_STATUS_NEW ≠ PATTERN_STATUS_NEW →
        (fill_single_colour (fun k => 4 * k) (uniform_buffer 0) 18 PATTERN_STATUS_NEW
            SINGLE_COLOUR_RANDOM ⟨0, 0, 7⟩).data = uniform_buffer 0)) :=
  ⟨by decide,
    single_random_colour (fun k => 4 * k) (uniform_buffer 0) 18 (by decide) PATTERN_STATUS_NEW
      ⟨0, 0, 7⟩⟩

/-- C22 fails as stated: with the random stream `0, 4, 8, ...` a New call on
18 LEDs has consumed 3 draws, not 54, and LED 1 holds the colour of draws
0..2, which differs from the colour of draws 3..5 that the claim assigns to
it. -/
theorem single_random_colour_one_draw :
    (fill_single_colour (fun k => 4 * k) (uniform_buffer 0) 18 PATTERN_STATUS_NEW
        SINGLE_COLOUR_RANDOM ⟨0, 0, 0⟩).g.rand_calls = 3 ∧
    (fill_single_colour (fun k => 4 * k) (uniform_buffer 0) 18 PATTERN_STATUS_NEW
        SINGLE_COLOUR_RANDOM ⟨0, 0, 0⟩).data[1]? = some (drawn_colour (fun k => 4 * k) 0) ∧
    drawn_colour (fun k => 4 * k) 0 ≠ drawn_colour (fun k => 4 * k) 3 := by
  decide

/-- C23, amended: with the colour parameter set to random, `tricircle` draws
a new colour on every call, not once per pattern run.  Every call on an
18-LED buffer succeeds and advances the random stream by exactly 3 draws,
whatever the status.  A New call fills the inner ring with the colour built
from these three draws; a cadence tick fills every lit ring with the colour
drawn in that same call (and blanks the others); any other call leaves the
buffer unchanged and discards its three draws. -/
theorem tricircle_random_every_call (rand : Nat → Nat) (data : List RGB)
    (hlen : data.length = NUM_LEDS) (status : Nat) (g : Globals) :
    ∃ o, tricircle rand data NUM_LEDS status SINGLE_COLOUR_RANDOM g = some o ∧
      o.g.rand_calls = g.rand_calls + 3 ∧
      (status = PATTERN_STATUS_NEW → ∀ i ∈ tricircle_fill_funcs.getD 2 [],
        o.data[i]? = some (drawn_colour rand g.rand_calls)) ∧
      (status ≠ PATTERN_STATUS_NEW → g.pattern_counter = COLOUR_WALK_COUNT →
        ∀ grp i : Nat, grp < 3 → i ∈ tricircle_fill_funcs.getD grp [] →
          o.data[i]? =
            some (if IS_BIT_SET (g.trilobe_initial_state >>> 1) grp then
              drawn_colour rand g.rand_calls else blank)) ∧
      (status ≠ PATTERN_STATUS_NEW → g.pattern_counter ≠ COLOUR_WALK_COUNT →
        o.data = data) := by
  have hget := get_colour_random rand g
  by_cases hs : status = PATTERN_STATUS_NEW
  · subst hs
    refine ⟨_, by simp only [tricircle, hget, if_true]; rfl, rfl, ?_, ?_, ?_⟩
    · intro _ i hi
      exact tricircle_new_inner _ data hlen i hi
    · intro h; exact absurd rfl h
    · intro h; exact absurd rfl h
  · by_cases hc : g.pattern_counter = COLOUR_WALK_COUNT
    · refine ⟨_, by simp only [tricircle, hget, if_neg hs, hc, if_true]; rfl, rfl, ?_, ?_, ?_⟩
      · intro h; exact absurd h hs
      · intro _ _ grp i hgrp hi
        obtain ⟨hi18, hgo⟩ := tricircle_groups_member grp hgrp i hi
        show ((List.range 3).foldl (tricircle_bit (drawn_colour rand g.rand_calls)
          (g.trilobe_initial_state >>> 1)) data)[i]? = _
        rw [tricircle_cadence_data _ _ data hlen, getElem?_map_range _ 18 i hi18, hgo]
      · intro _ h; exact absurd hc h
    · refine ⟨_, by simp only [tricircle, hget, if_neg hs, if_neg hc]; rfl, rfl, ?_, ?_, ?_⟩
      · intro h; exact absurd h hs
      · intro _ h; exact absurd h hc
      · intro _ _; rfl

/-- Instance of C23 (amended): a cadence tick with mask 0b00001000. -/
theorem tricircle_random_every_call_witness :
    (uniform_buffer 0).length = NUM_LEDS ∧
    ∃ o, tricircle (fun k => 4 * k) (uniform_buffer 0) NUM_LEDS PATTERN_STATUS_REFRESH
        SINGLE_COLOUR_RANDOM ⟨15, 8, 6⟩ = some o ∧
      o.g.rand_calls = (⟨15, 8, 6⟩ : Globals).rand_calls + 3 ∧
      (PATTERN_STATUS_REFRESH = PATTERN_STATUS_NEW → ∀ i ∈ tricircle_fill_funcs.getD 2 [],
        o.data[i]? = some (drawn_colour (fun k => 4 * k) (⟨15, 8, 6⟩ : Globals).rand_calls)) ∧
      (PATTERN_STATUS_REFRESH ≠ PATTERN_STATUS_NEW →
        (⟨15, 8, 6⟩ : Globals).pattern_counter = COLOUR_WALK_COUNT →
        ∀ grp i : Nat, grp < 3 → i ∈ tricircle_fill_funcs.getD grp [] →
          o.data[i]? =
            some (if IS_BIT_SET ((⟨15, 8, 6⟩ : Globals).trilobe_initial_state >>> 1) grp then
              drawn_colour (fun k => 4 * k) (⟨15, 8, 6⟩ : Globals).rand_calls else blank)) ∧
      (PATTERN_STATUS_REFRESH ≠ PATTERN_STATUS_NEW →
        (⟨15, 8, 6⟩ : Globals).pattern_counter ≠ COLOUR_WALK_COUNT →
        o.data = uniform_buffer 0) :=
  ⟨by decide,
    tricircle_random_every_call (fun k => 4 * k) (uniform_buffer 0) (by decide)
      PATTERN_STATUS_REFRESH ⟨15, 8, 6⟩⟩

/-- C23 fails as stated: with the random stream `0, 4, 8, ...`, the New call
fills the inner ring (LED 2) with the colour of draws 0..2 and leaves the
stream at 3; the call after it, which is not a New call, leaves the stream at
6; and after 17 calls (the first cadence tick that lights the inner ring) the
stream is at 51 and LED 2 holds the colour of draws 48..50, a different
colour within the same pattern run. -/
theorem tricircle_random_redrawn :
    (pattern_run (.tricircle SINGLE_COLOUR_RANDOM) (fun k => 4 * k) 1
        ⟨PATTERN_STATUS_NEW, uniform_buffer 0, ⟨0, 0, 0⟩⟩).map
      (fun o => (o.data[2]?, o.g.rand_calls)) =
        some (some (drawn_colour (fun k => 4 * k) 0), 3) ∧
    (pattern_run (.tricircle SINGLE_COLOUR_RANDOM) (fun k => 4 * k) 2
        ⟨PATTERN_STATUS_NEW, uniform_buffer 0, ⟨0, 0, 0⟩⟩).map
      (fun o => (o.status, o.g.rand_calls)) = some (PATTERN_STATUS_NOCHANGE, 6) ∧
    (pattern_run (.tricircle SINGLE_COLOUR_RANDOM) (fun k => 4 * k) 17
        ⟨PATTERN_STATUS_NEW, uniform_buffer 0, ⟨0, 0, 0⟩⟩).map
      (fun o => (o.data[2]?, o.g.rand_calls)) =
        some (some (drawn_colour (fun k => 4 * k) 48), 51) ∧
    drawn_colour (fun k => 4 * k) 48 ≠ drawn_colour (fun k => 4 * k) 0 :=
  tricircle_random_run_eval

/-- C24: in the loop of `main`, let a next-pattern request be taken in pass
`i` (from a start with the pattern index below 23) and let pass `j > i` be a
pass that invokes a pattern-table generator (it starts with `fading = 0`).
Then some pass strictly between `i` and `j` invoked `fade_down` and got
FadeDone back, so no table generator runs after the request before the fade
has completed.  If moreover `j` is the first such pass after `i`, its call is
the table entry at the current index called with status New.  The index at
pass `j` is the index at pass `i` advanced by the number of requests taken in
passes `i` to `j - 1`, modulo `NUM_PATTERNS = 23`, and the index is below 23
at the top of every pass. -/
theorem fade_completes_before_next_pattern (rand : Nat → Nat) (ticks : Nat → List Bool)
    (st0 : MainState) (h0 : st0.current_pattern < NUM_PATTERNS) (i j : Nat) (si sj : MainState)
    (hi : main_state_at rand ticks st0 i = some si) (hreq : request_taken si = true)
    (hij : i < j) (hj : main_state_at rand ticks st0 j = some sj) (hjf : sj.fading = 0) :
    (∃ p sp, i < p ∧ p < j ∧ main_state_at rand ticks st0 p = some sp ∧ sp.fading ≠ 0 ∧
      main_call rand sp = some (fade_down sp.led_data NUM_LEDS sp.pattern_status sp.g) ∧
      (fade_down sp.led_data NUM_LEDS sp.pattern_status sp.g).status =
        PATTERN_STATUS_FADE_DONE) ∧
    ((∀ k sk, i < k → k < j → main_state_at rand ticks st0 k = some sk → sk.fading ≠ 0) →
      sj.pattern_status = PATTERN_STATUS_NEW ∧
      ∃ pf, pattern_functions[sj.current_pattern]? = some pf ∧
        main_call rand sj = run_pattern pf rand sj.led_data NUM_LEDS PATTERN_STATUS_NEW sj.g) ∧
    sj.current_pattern =
      (si.current_pattern +
        (taken_upto rand ticks st0 j - taken_upto rand ticks st0 i)) % NUM_PATTERNS ∧
    (∀ k sk, main_state_at rand ticks st0 k = some sk → sk.current_pattern < NUM_PATTERNS) := by
  obtain ⟨d, rfl⟩ : ∃ d, j = i + 1 + d := ⟨j - (i + 1), by omega⟩
  have hA := main_fade_done_before rand ticks st0 i si hi hreq d sj hj hjf
  refine ⟨hA, ?_, ?_, main_index_lt rand ticks st0 h0⟩
  · intro hfirst
    have hnew : sj.pattern_status = PATTERN_STATUS_NEW := by
      obtain ⟨s, o, hs, _, _, _, hfad⟩ := main_state_at_succ rand ticks st0 (i + d) sj
        (by rw [show i + d + 1 = i + 1 + d by omega]; exact hj)
      have hsf : s.fading ≠ 0 := by
        rcases Nat.eq_zero_or_pos d with hd | hd
        · subst hd
          rw [Nat.add_zero, hi] at hs
          simp only [Option.some.injEq] at hs
          subst hs
          intro h
          rw [hfad, (main_after_call_taken _ o hreq).2.2] at hjf
          exact absurd hjf (by decide)
        · exact hfirst (i + d) s (by omega) (by omega) hs
      exact main_first_call_new rand ticks st0 (i + d) s sj hs hsf
        (by rw [show i + d + 1 = i + 1 + d by omega]; exact hj) hjf
    refine ⟨hnew, ?_⟩
    have hlt := main_index_lt rand ticks st0 h0 _ sj hj
    have hlen : sj.current_pattern < pattern_functions.length := hlt
    refine ⟨pattern_functions[sj.current_pattern], List.getElem?_eq_getElem hlen, ?_⟩
    simp only [main_call, if_pos hjf, List.getElem?_eq_getElem hlen, hnew]
  · have := main_index_advance rand ticks st0 h0 i si hi (1 + d) sj
      (by rw [← Nat.add_assoc]; exact hj)
    rw [← Nat.add_assoc] at this
    exact this

/-- Instance of C24: a short press pending at the first pass while the first
pattern is shown on 18 LEDs; the fade takes passes 1 to 22 and pass 23 starts
pattern 1 with status New. -/
theorem fade_completes_before_next_pattern_witness :
    (press_sample.current_pattern < NUM_PATTERNS ∧
      main_state_at (fun _ => 0) (fun _ => []) press_sample 0 = some press_sample ∧
      request_taken press_sample = true ∧ 0 < 23 ∧
      main_state_at (fun _ => 0) (fun _ => []) press_sample 23 = some faded_sample ∧
      faded_sample.fading = 0) ∧
    ((∃ p sp, 0 < p ∧ p < 23 ∧
      main_state_at (fun _ => 0) (fun _ => []) press_sample p = some sp ∧ sp.fading ≠ 0 ∧
      main_call (fun _ => 0) sp =
        some (fade_down sp.led_data NUM_LEDS sp.pattern_status sp.g) ∧
      (fade_down sp.led_data NUM_LEDS sp.pattern_status sp.g).status =
        PATTERN_STATUS_FADE_DONE) ∧
    ((∀ k sk, 0 < k → k < 23 →
        main_state_at (fun _ => 0) (fun _ => []) press_sample k = some sk → sk.fading ≠ 0) →
      faded_sample.pattern_status = PATTERN_STATUS_NEW ∧
      ∃ pf, pattern_functions[faded_sample.current_pattern]? = some pf ∧
        main_call (fun _ => 0) faded_sample =
          run_pattern pf (fun _ => 0) faded_sample.led_data NUM_LEDS PATTERN_STATUS_NEW
            faded_sample.g) ∧
    faded_sample.current_pattern =
      (press_sample.current_pattern +
        (taken_upto (fun _ => 0) (fun _ => []) press_sample 23 -
          taken_upto (fun _ => 0) (fun _ => []) press_sample 0)) % NUM_PATTERNS ∧
    (∀ k sk, main_state_at (fun _ => 0) (fun _ => []) press_sample k = some sk →
      sk.current_pattern < NUM_PATTERNS)) :=
  ⟨⟨by decide, rfl, by decide, by decide, press_sample_run, rfl⟩,
    fade_completes_before_next_pattern (fun _ => 0) (fun _ => []) press_sample (by decide) 0 23
      press_sample faded_sample rfl (by decide) (by decide) press_sample_run rfl⟩


/-- C25: with the cycle costs assumed by the code (`out`, `nop`, `lsl`, `dec`,
`ldi` 1 cycle; `rjmp` 2; a branch 1 when not taken and 2 when taken), for
every byte the assembly block of `send_data` reaches `new_byte` after 196
cycles and raises the line 8 times, at cycles 2, 27, ..., 177: the rising
edge of each bit but the last is followed by the next one exactly 25 cycles
later (1250 ns at 50 ns per cycle), whatever the bit.  After each rising edge
the line is written low 8 cycles later (400 ns) when the bit, taken from bit
7 down to bit 0, is 0, and 16 cycles later (800 ns) when it is 1; the long
pulses are exactly the 1 bits of `send_bits`. -/
theorem send_data_bit_timing (current_byte : Nat) :
    (asm_run 200 (asm_entry current_byte)).pc = send_data_asm.length ∧
    (asm_run 200 (asm_entry current_byte)).cycles = 196 ∧
    byte_pulses current_byte =
      (List.range 8).map
        (fun b => (2 + 25 * b, if current_byte.testBit (7 - b) then 16 else 8)) ∧
    (∀ b : Nat, b < 7 → ∃ t w t1 w1,
      (byte_pulses current_byte)[b]? = some (t, w) ∧
      (byte_pulses current_byte)[b + 1]? = some (t1, w1) ∧
      t1 = t + 25 ∧
      (current_byte.testBit (7 - b) = false → w = 8) ∧
      (current_byte.testBit (7 - b) = true → w = 16)) ∧
    (byte_pulses current_byte).map (fun p => decide (p.2 = 16)) = send_bits 8 current_byte := by
  obtain ⟨h1, h2, h3⟩ := asm_byte current_byte
  refine ⟨h1, h2, h3, ?_, ?_⟩
  · intro b hb
    refine ⟨2 + 25 * b, if current_byte.testBit (7 - b) then 16 else 8, 2 + 25 * (b + 1),
      if current_byte.testBit (7 - (b + 1)) then 16 else 8, ?_, ?_, by omega, ?_, ?_⟩
    · rw [h3, List.getElem?_map, List.getElem?_range (by omega)]
      rfl
    · rw [h3, List.getElem?_map, List.getElem?_range (by omega)]
      rfl
    · intro h
      rw [h]
      rfl
    · intro h
      rw [h]
      rfl
  · rw [h3, send_bits_eq_map, List.map_map]
    apply List.map_congr_left
    intro k _
    cases h : current_byte.testBit (7 - k) <;> simp [h]

/-- C26: for every 18-LED buffer of 8-bit channels, let `fade_down` be called
first with status New and then again and again with the status it returned.
Call `j` (counted from 0) leaves the buffer halved `j / FADE_DELAY + 1`
times, returns Refresh or FadeDone, and returns FadeDone exactly when `j` is a
positive multiple of `FADE_DELAY = 3` and every channel of every LED is zero
after its halving.  So there is a first call returning FadeDone, it is among
the first 22 calls (the 8th halving happens on call 22), every call before it
returns Refresh, and the buffer is blank when FadeDone is returned. -/
theorem fade_down_completes (data : List RGB) (hlen : data.length = NUM_LEDS)
    (h8 : ∀ c ∈ data, c.red < 256 ∧ c.green < 256 ∧ c.blue < 256) (g : Globals) :
    (∃ k, k < 22 ∧
      (∃ o, (fade_down_run 22 ⟨PATTERN_STATUS_NEW, data, g⟩)[k]? = some o ∧
        o.status = PATTERN_STATUS_FADE_DONE ∧ ∀ c ∈ o.data, c = blank) ∧
      ∀ j, j < k → ∃ o, (fade_down_run 22 ⟨PATTERN_STATUS_NEW, data, g⟩)[j]? = some o ∧
        o.status = PATTERN_STATUS_REFRESH) ∧
    (∀ n j, j < n →
      ∃ o, (fade_down_run n ⟨PATTERN_STATUS_NEW, data, g⟩)[j]? = some o ∧
        o.data = data.map (RGB.halve^[j / FADE_DELAY + 1]) ∧
        (o.status = PATTERN_STATUS_FADE_DONE ∨ o.status = PATTERN_STATUS_REFRESH) ∧
        (o.status = PATTERN_STATUS_FADE_DONE ↔
          (0 < j ∧ j % FADE_DELAY = 0 ∧ ∀ c ∈ o.data, c = blank))) := by
  refine ⟨?_, fade_down_run_facts data hlen g⟩
  have hex : ∃ j : Nat, ∃ o : Out, (fade_down_run 22 ⟨PATTERN_STATUS_NEW, data, g⟩)[j]? = some o ∧
      o.status = PATTERN_STATUS_FADE_DONE := by
    obtain ⟨o, ho, hd, _, hiff⟩ := fade_down_run_facts data hlen g 22 21 (by decide)
    refine ⟨21, o, ho, hiff.mpr ⟨by decide, by decide, ?_⟩⟩
    rw [hd]
    intro c hc
    obtain ⟨x, hx, rfl⟩ := List.mem_map.mp hc
    exact halve_eight x (h8 x hx)
  classical
  have hk22 : Nat.find hex < 22 := by
    obtain ⟨o, ho, _⟩ := Nat.find_spec hex
    by_contra hge
    rw [List.getElem?_eq_none (by
      have : (fade_down_run 22 ⟨PATTERN_STATUS_NEW, data, g⟩).length = 22 := rfl
      omega)] at ho
    exact absurd ho (by simp)
  refine ⟨Nat.find hex, hk22, ?_, ?_⟩
  · obtain ⟨o, ho, hs⟩ := Nat.find_spec hex
    obtain ⟨o1, ho1, _, _, hiff⟩ := fade_down_run_facts data hlen g 22 _ hk22
    rw [ho] at ho1
    simp only [Option.some.injEq] at ho1
    subst ho1
    exact ⟨o, ho, hs, (hiff.mp hs).2.2⟩
  · intro j hj
    obtain ⟨o, ho, _, hor, _⟩ := fade_down_run_facts data hlen g 22 j (by omega)
    refine ⟨o, ho, ?_⟩
    rcases hor with h | h
    · exact absurd ⟨o, ho, h⟩ (Nat.find_min hex hj)
    · exact h

/-- Instance of C26: the 18-LED buffer with every channel 255. -/
theorem fade_down_completes_witness :
    ((uniform_buffer 255).length = NUM_LEDS ∧
      ∀ c ∈ uniform_buffer 255, c.red < 256 ∧ c.green < 256 ∧ c.blue < 256) ∧
    ((∃ k, k < 22 ∧
      (∃ o, (fade_down_run 22 ⟨PATTERN_STATUS_NEW, uniform_buffer 255, ⟨0, 0, 0⟩⟩)[k]? = some o ∧
        o.status = PATTERN_STATUS_FADE_DONE ∧ ∀ c ∈ o.data, c = blank) ∧
      ∀ j, j < k →
        ∃ o, (fade_down_run 22 ⟨PATTERN_STATUS_NEW, uniform_buffer 255, ⟨0, 0, 0⟩⟩)[j]? = some o ∧
          o.status = PATTERN_STATUS_REFRESH) ∧
    (∀ n j, j < n →
      ∃ o, (fade_down_run n ⟨PATTERN_STATUS_NEW, uniform_buffer 255, ⟨0, 0, 0⟩⟩)[j]? = some o ∧
        o.data = (uniform_buffer 255).map (RGB.halve^[j / FADE_DELAY + 1]) ∧
        (o.status = PATTERN_STATUS_FADE_DONE ∨ o.status = PATTERN_STATUS_REFRESH) ∧
        (o.status = PATTERN_STATUS_FADE_DONE ↔
          (0 < j ∧ j % FADE_DELAY = 0 ∧ ∀ c ∈ o.data, c = blank)))) :=
  ⟨⟨by decide, by decide⟩,
    fade_down_completes (uniform_buffer 255) (by decide) (by decide) ⟨0, 0, 0⟩⟩

/-- C27: let the interrupt handler run from the initial values of the globals
with `button_press_acknowledged` set again after every tick, under any
sequence of button samples.  After every number of ticks the debounce counter
is at most `DEBOUNCE_COUNT_LONG = 100`.  When the counter is `c ≥ 1`, it is
back at 0 after some `k ≥ 1` further ticks with `k + c ≤ 101` (so within 100
ticks), and until then it goes up by exactly one per tick, whatever the
button samples are.  A pressed button at the first tick starts a cycle
(counter 1). -/
theorem debounce_cycle_bounded (button_clear : Nat → Bool) (n : Nat) :
    (armed_run button_clear n Shared.init).current_debounce_count ≤ DEBOUNCE_COUNT_LONG ∧
    (1 ≤ (armed_run button_clear n Shared.init).current_debounce_count →
      ∃ k, 1 ≤ k ∧
        k + (armed_run button_clear n Shared.init).current_debounce_count ≤
          DEBOUNCE_COUNT_LONG + 1 ∧
        (armed_run button_clear (n + k) Shared.init).current_debounce_count = 0 ∧
        ∀ i, i < k →
          (armed_run button_clear (n + i) Shared.init).current_debounce_count =
            (armed_run button_clear n Shared.init).current_debounce_count + i) ∧
    (armed_run (fun _ => true) 1 Shared.init).current_debounce_count = 1 := by
  obtain ⟨_, hle⟩ := armed_run_invariant button_clear n
  refine ⟨hle, ?_, by decide⟩
  intro h1
  obtain ⟨k, hk1, hk2, hk0, hki⟩ := armed_run_returns button_clear
    (DEBOUNCE_COUNT_LONG - (armed_run button_clear n Shared.init).current_debounce_count) n _ rfl
    h1 (by omega)
  exact ⟨k, hk1, by omega, hk0, hki⟩

/-- C28, amended: for `num_leds` from 1 to 18, `fill_rainbow_colours` respects
all bounds and completes exactly when `num_leds` is 3, 9, 12, 15 or 18 and
the buffer holds at least `num_leds` LEDs.  Whenever it completes, the buffer
keeps its length and every LED at index `num_leds` or above is left as it
was.  For 9, 12, 15 and 18 LEDs the sector length `num_leds / 3` is at least
3, the selector `num_leds / 3 - 3` picks one of the four lookup tables, and
that table has `num_leds / 3 - 1` entries, one for every intermediate phase. -/
theorem fill_rainbow_colours_bounds (led_data : List RGB) (num_leds : Nat) (h1 : 1 ≤ num_leds)
    (h18 : num_leds ≤ 18) :
    ((∃ r, fill_rainbow_colours led_data num_leds = some r) ↔
      (num_leds ∈ [3, 9, 12, 15, 18] ∧ num_leds ≤ led_data.length)) ∧
    (∀ r, fill_rainbow_colours led_data num_leds = some r →
      r.length = led_data.length ∧ ∀ i : Nat, num_leds ≤ i → r[i]? = led_data[i]?) ∧
    (num_leds ∈ [9, 12, 15, 18] →
      ∃ table, intermediate_colours[num_leds / 3 - 3]? = some table ∧
        3 ≤ num_leds / 3 ∧ table.length = num_leds / 3 - 1) := by
  refine ⟨?_, fun r hr => fill_rainbow_colours_frame led_data r num_leds hr, ?_⟩
  · rw [← fill_rainbow_colours_completes led_data num_leds h1 h18, Option.isSome_iff_exists]
  · intro hn
    simp only [List.mem_cons, List.mem_singleton, List.not_mem_nil, or_false] at hn
    rcases hn with rfl | rfl | rfl | rfl <;> exact ⟨_, rfl, by decide, rfl⟩

/-- Instance of C28 (amended): 18 LEDs on the blank 18-LED buffer. -/
theorem fill_rainbow_colours_bounds_witness :
    ((1 : Nat) ≤ 18 ∧ (18 : Nat) ≤ 18) ∧
    (((∃ r, fill_rainbow_colours (uniform_buffer 0) 18 = some r) ↔
      (18 ∈ [3, 9, 12, 15, 18] ∧ 18 ≤ (uniform_buffer 0).length)) ∧
    (∀ r, fill_rainbow_colours (uniform_buffer 0) 18 = some r →
      r.length = (uniform_buffer 0).length ∧
        ∀ i : Nat, 18 ≤ i → r[i]? = (uniform_buffer 0)[i]?) ∧
    (18 ∈ [9, 12, 15, 18] →
      ∃ table, intermediate_colours[18 / 3 - 3]? = some table ∧
        3 ≤ 18 / 3 ∧ table.length = 18 / 3 - 1)) :=
  ⟨⟨by decide, by decide⟩,
    fill_rainbow_colours_bounds (uniform_buffer 0) 18 (by decide) (by decide)⟩

/-- C28 fails as stated: for 1 LED the sector length `1 / 3` is 0, so the
loop divides by zero, and on the blank 18-LED buffer the call leaves the
bounds for every `num_leds` among 1, 2, 4, 5, 6, 7, 8, 10, 11, 13, 14, 16 and
17 (division by zero for 1 and 2, a store to `current_triplet[3]` for 4, 5,
10, 11, 13, 14, 16, 17, table selector -1 for 6, 7, 8). -/
theorem fill_rainbow_colours_out_of_bounds :
    (1 : Nat) / 3 = 0 ∧
    ∀ n ∈ [1, 2, 4, 5, 6, 7, 8, 10, 11, 13, 14, 16, 17],
      fill_rainbow_colours (uniform_buffer 0) n = none := by
  decide

/-- C29 fails on the code: the loop of `copy_buffer` runs `size * 3` times
over pointers to whole LED entries, so it copies `3 * size` entries, not
`size`.  The call stays inside the buffers exactly when both hold at least
`3 * size` entries; then `dest[i] = source[i]` for every `i < 3 * size` and
the rest of `dest` is unchanged.  With `size ≥ 1` and a source or destination
buffer of exactly `size` entries the call reads or writes outside the buffer,
as does the call `copy_buffer(data, buffer, NUM_LEDS)` of `quick_flash_leds`
on two 18-entry buffers. -/
theorem copy_buffer_overrun (source dest : List RGB) (size : Nat) :
    ((∃ r, copy_buffer source dest size = some r) ↔
      (size * 3 ≤ source.length ∧ size * 3 ≤ dest.length)) ∧
    (∀ r, copy_buffer source dest size = some r →
      r.length = dest.length ∧ (∀ i : Nat, i < size * 3 → r[i]? = source[i]?) ∧
        ∀ i : Nat, size * 3 ≤ i → r[i]? = dest[i]?) ∧
    (1 ≤ size → (source.length = size ∨ dest.length = size) →
      copy_buffer source dest size = none) ∧
    copy_buffer (uniform_buffer 1) (uniform_buffer 0) NUM_LEDS = none := by
  rw [copy_buffer_eq]
  refine ⟨?_, ?_, ?_, by decide⟩
  · split_ifs with h
    · exact ⟨fun _ => h, fun _ => ⟨_, rfl⟩⟩
    · exact ⟨fun ⟨_, hr⟩ => hr.elim, fun hc => absurd hc h⟩
  · intro r hr
    split_ifs at hr with h
    simp only [Option.some.injEq] at hr
    subst hr
    refine ⟨?_, ?_, ?_⟩
    · simp only [List.length_append, List.length_take, List.length_drop]
      omega
    · intro i hi
      rw [List.getElem?_append_left (by simp only [List.length_take]; omega),
        List.getElem?_take_of_lt hi]
    · intro i hi
      rw [List.getElem?_append_right (by simp only [List.length_take]; omega),
        List.getElem?_drop]
      simp only [List.length_take]
      congr 1
      omega
  · intro h1 hlen
    rw [if_neg (by omega)]

end Snowflake
